import Mathlib

/-!
# Chocolate / vehicle lifecycle chaincode (`Chaincode/vehicle_code/vehicles.go`)

A shallow embedding of the chaincode and proofs about it.

The source file is a vehicle-leasing chaincode that is part-way through being
rewritten for a chocolate supply chain.  The first half (constants, `Chocolates`,
`Init`, `retrieve_chocoID`, `save_changes`, `create_chocolates`,
`concepting_to_printing`, `printing_to_supplying`) already speaks of chocolates; the
second half (`private_to_private` ... `get_vehicles`) still speaks of vehicles and uses
a type `Vehicle` and constants that the file no longer declares.

Conventions of the embedding:

* The ledger is explicit state (`ChaincodeStub`); every operation returns the stub
  after the call together with the Go result `([]byte, error)`.
* A byte string is represented by what `encoding/json` sees in it (`Bytes`).
* Go identifiers that differ only by a slip of case or of an unrenamed variable
  (`c.chocoID` for `c.ChocoID`, `v` / `C` for the parameter `c`) are read as the
  declaration they can only refer to.
-/

namespace Chaincode

/-! ## Constants (lines 23-40) -/

def DU_RHONE : Int := 1
def PRINTER : Int := 2
def SUPPLIER : Int := 3
def SHIPPING_CO : Int := 4
def IBM : Int := 5

def STATE_CONCEPTING : Int := 0
def STATE_PRINTING : Int := 1
def STATE_SUPPLYING : Int := 2
def STATE_TESTING : Int := 3
def STATE_PRODUCTION : Int := 4
def STATE_DELIVERY : Int := 5
def STATE_DELIVERED : Int := 6

/-! ## Byte strings and JSON -/

/-- A JSON value.  `num` is a number written as an integer literal, `frac` any other
number literal (with a fraction or an exponent), kept as its text. -/
inductive Json where
  | null
  | bool (b : Bool)
  | num (n : Int)
  | frac (text : String)
  | str (s : String)
  | arr (elems : List Json)
  | obj (members : List (String × Json))

/-- A non-nil Go `[]byte`, represented by what `encoding/json` makes of it: `json j` is
the text of the JSON value `j`; `text s` is the text `s`, which is not the text of a JSON
value.  The nil slice is `none : Option Bytes`. -/
inductive Bytes where
  | text (s : String)
  | json (j : Json)

/-- A Go `[]string`: `none` is the nil slice. -/
abbrev StringSlice := Option (List String)

/-- Go `len` of a `[]string`. -/
def StringSlice.len : StringSlice → Nat
  | none => 0
  | some xs => xs.length

/-- Go `append(s, x)` on a `[]string`. -/
def StringSlice.append : StringSlice → String → StringSlice
  | none, x => some [x]
  | some xs, x => some (xs ++ [x])

/-- The elements of a `[]string` in order. -/
def StringSlice.elems : StringSlice → List String
  | none => []
  | some xs => xs

/-- A Go `error` made by `errors.New`: the message `msg`, followed by `string(tail)` for
the one message of the program that ends in the text of a byte string. -/
structure GoError where
  msg : String
  tail : Option Bytes

/-- Go `errors.New(msg)` for a message that is a plain text. -/
def errors_New (msg : String) : GoError := ⟨msg, none⟩

/-- The Go result `([]byte, error)` of the chaincode's operations. -/
abbrev Result := Except GoError (Option Bytes)

/-- A result is a success when its `error` is nil. -/
def Result.succeeded : Result → Bool
  | .ok _ => true
  | .error _ => false

/-! ### Decoding of single values (`encoding/json`)

Each decoder returns the new value of the Go variable and whether the JSON value did
not fit its type (`json.Unmarshal` then reports an `UnmarshalTypeError` after it has
gone through the whole document).  JSON `null` leaves a string, number or boolean as
it is and makes a slice nil. -/

def decodeString (j : Json) (old : String) : String × Bool :=
  match j with
  | .str s => (s, false)
  | .null => (old, false)
  | _ => (old, true)

/-- Go `int` is 64 bits wide; a literal outside its range does not decode. -/
def decodeInt (j : Json) (old : Int) : Int × Bool :=
  match j with
  | .num n => if -(2 : Int) ^ 63 ≤ n ∧ n < (2 : Int) ^ 63 then (n, false) else (old, true)
  | .null => (old, false)
  | _ => (old, true)

def decodeBool (j : Json) (old : Bool) : Bool × Bool :=
  match j with
  | .bool b => (b, false)
  | .null => (old, false)
  | _ => (old, true)

/-- The elements of a JSON array decoded into the elements of a `[]string`.  The element
at an index the slice already has is decoded over the old element, so JSON `null` and a
value of the wrong type keep it; past the old length an element starts as `""`. -/
def decodeElems : List Json → List String → List String
  | [], _ => []
  | e :: es, [] => (decodeString e "").1 :: decodeElems es []
  | e :: es, o :: os => (decodeString e o).1 :: decodeElems es os

/-- A JSON value decoded into a `[]string`: an array is decoded element by element into
the slice as it is (a key that comes twice in an object finds the slice of the first
time), `null` makes the slice nil.  The backing array past the length of the slice is
taken to be empty, as it is unless a key comes a third time after a shorter array. -/
def decodeStrings (j : Json) (old : StringSlice) : StringSlice × Bool :=
  match j with
  | .arr elems => (some (decodeElems elems old.elems), elems.any fun e => (decodeString e "").2)
  | .null => (none, false)
  | _ => (old, true)

/-- Case folding of an object key as `encoding/json` does it when it looks for the
struct field of a key: ASCII letters without regard to case, the Kelvin sign as `k` and
the long s as `s`. -/
def foldChar (c : Char) : Char :=
  if c = Char.ofNat 0x212A then 'k'
  else if c = Char.ofNat 0x17F then 's'
  else if 'A'.toNat ≤ c.toNat ∧ c.toNat ≤ 'Z'.toNat then Char.ofNat (c.toNat + 32)
  else c

def foldKey (s : String) : List Char := s.toList.map foldChar

/-- The key `key` of a JSON object selects the struct field with JSON name `name`. -/
def keyIs (key name : String) : Bool := foldKey key == foldKey name

/-- What `encoding/json` needs to know of a struct type stored in the ledger. -/
class Record (α : Type) where
  /-- The zero value (`var c T`). -/
  zero : α
  /-- The members `json.Marshal` writes, in order. -/
  members : α → List (String × Json)
  /-- Decoding of one member of a JSON object into the struct. -/
  setMember : α → String → Json → α × Bool

/-- A record type with the id field that `save_changes` files the record under. -/
class Asset (α : Type) extends Record α where
  key : α → String

/-- Go `json.Marshal(c)` for a struct of the program.  It cannot fail on these types, so
the `err != nil` branches after it in the source are dead. -/
def json_Marshal {α : Type} [Record α] (c : α) : Bytes :=
  .json (.obj (Record.members c))

/-- Go `json.Unmarshal(data, &c)`: the struct afterwards and whether an error is
returned.  Text that is not JSON (also nil or empty input) is rejected before the struct
is touched; members of an object are decoded in order, a key that names no field is
skipped, and a member of the wrong type leaves its field alone and makes the call fail
at the end. -/
def json_Unmarshal {α : Type} [Record α] (data : Option Bytes) (c : α) : α × Bool :=
  match data with
  | none => (c, true)
  | some (.text _) => (c, true)
  | some (.json .null) => (c, false)
  | some (.json (.obj members)) =>
      members.foldl (fun acc m => ((Record.setMember acc.1 m.1 m.2).1,
        acc.2 || (Record.setMember acc.1 m.1 m.2).2)) (c, false)
  | some (.json _) => (c, true)

/-! ## The ledger (`shim.ChaincodeStub`) -/

/-- The part of the shim the chaincode uses: the key-value state, and which reads and
writes the ledger refuses (`GetState` / `PutState` returning an error). -/
structure ChaincodeStub where
  state : String → Option Bytes
  getErr : String → Bool
  putErr : String → Bool

/-- Go `stub.GetState(key)`: an error, or the value, nil when the key has none. -/
def ChaincodeStub.GetState (stub : ChaincodeStub) (key : String) : Except Unit (Option Bytes) :=
  if stub.getErr key then .error () else .ok (stub.state key)

/-- The stub with `value` stored under `key`. -/
def ChaincodeStub.put (stub : ChaincodeStub) (key : String) (value : Bytes) : ChaincodeStub :=
  { stub with state := fun k => if k = key then some value else stub.state k }

/-- Go `stub.PutState(key, value)`: an error and nothing written, or the stub after the
write. -/
def ChaincodeStub.PutState (stub : ChaincodeStub) (key : String) (value : Bytes) :
    Except Unit ChaincodeStub :=
  if stub.putErr key then .error () else .ok (stub.put key value)

/-! ## `Chocolates` (lines 55-85) -/

/-- The struct `Chocolates`.  `Owner` is declared `int` in the source, but every function
that reads or writes it compares it with, or assigns to it, the caller's or recipient's
name (a `string`); the embedding gives it the type those functions need. -/
structure Chocolates where
  Chocolatier : String
  EstablishDate : String
  ChocoID : String
  BoxOrderDate : String
  BoxDelvDate : String
  IngredOrderDate : String
  IngredDelvDate : String
  IngredOrigin : String
  Contributers : StringSlice
  Ingredients : StringSlice
  Method : String
  Test : String
  Testers : StringSlice
  Revisions : StringSlice
  TestDate : String
  DateFinalized : String
  DateProduced : String
  DatePackaged : String
  DateArrived : String
  DelivererID : String
  Owner : String
  Delivered : Bool
  Status : Int
  deriving DecidableEq

/-- The zero value `var c Chocolates`. -/
def Chocolates.zero : Chocolates :=
  { Chocolatier := "", EstablishDate := "", ChocoID := "", BoxOrderDate := "",
    BoxDelvDate := "", IngredOrderDate := "", IngredDelvDate := "", IngredOrigin := "",
    Contributers := none, Ingredients := none, Method := "", Test := "", Testers := none,
    Revisions := none, TestDate := "", DateFinalized := "", DateProduced := "",
    DatePackaged := "", DateArrived := "", DelivererID := "", Owner := "",
    Delivered := false, Status := 0 }

/-- A `[]string` as `json.Marshal` writes it. -/
def StringSlice.toJson : StringSlice → Json
  | none => .null
  | some xs => .arr (xs.map Json.str)

/-- The members `json.Marshal` writes for a `Chocolates`, by the struct tags.
`IngredOrderDate` and `IngredDelvDate` carry the same tag `json:"ingredOrderDate"`
(lines 63-64); `encoding/json` drops two fields of one struct that are tagged with the
same name, so neither is written.  `Owner` is written as the text the embedding types it
as (the `int` of line 82 would be written as a number). -/
def Chocolates.members (c : Chocolates) : List (String × Json) :=
  [ ("chocolatier", .str c.Chocolatier),
    ("establishDate", .str c.EstablishDate),
    ("ID", .str c.ChocoID),
    ("boxOrderDate", .str c.BoxOrderDate),
    ("boxDelvDate", .str c.BoxDelvDate),
    ("ingredOrigin", .str c.IngredOrigin),
    ("contributers", c.Contributers.toJson),
    ("ingredients", c.Ingredients.toJson),
    ("method", .str c.Method),
    ("test", .str c.Test),
    ("testers", c.Testers.toJson),
    ("revisions", c.Revisions.toJson),
    ("testDate", .str c.TestDate),
    ("dateFinalized", .str c.DateFinalized),
    ("dateProduced", .str c.DateProduced),
    ("datePackaged", .str c.DatePackaged),
    ("dateArrived", .str c.DateArrived),
    ("delivererID", .str c.DelivererID),
    ("owner", .str c.Owner),
    ("delivered", .bool c.Delivered),
    ("status", .num c.Status) ]

/-- Decoding of one object member into a `Chocolates`; the two fields with the clashing
tag are not reachable from any key.  `owner` is decoded as the text the embedding types
`Owner` as (the `int` of line 82 would take a number and refuse a text). -/
def Chocolates.setMember (c : Chocolates) (key : String) (j : Json) : Chocolates × Bool :=
  if keyIs key "chocolatier" then
    ({ c with Chocolatier := (decodeString j c.Chocolatier).1 }, (decodeString j c.Chocolatier).2)
  else if keyIs key "establishDate" then
    ({ c with EstablishDate := (decodeString j c.EstablishDate).1 }, (decodeString j c.EstablishDate).2)
  else if keyIs key "ID" then
    ({ c with ChocoID := (decodeString j c.ChocoID).1 }, (decodeString j c.ChocoID).2)
  else if keyIs key "boxOrderDate" then
    ({ c with BoxOrderDate := (decodeString j c.BoxOrderDate).1 }, (decodeString j c.BoxOrderDate).2)
  else if keyIs key "boxDelvDate" then
    ({ c with BoxDelvDate := (decodeString j c.BoxDelvDate).1 }, (decodeString j c.BoxDelvDate).2)
  else if keyIs key "ingredOrigin" then
    ({ c with IngredOrigin := (decodeString j c.IngredOrigin).1 }, (decodeString j c.IngredOrigin).2)
  else if keyIs key "contributers" then
    ({ c with Contributers := (decodeStrings j c.Contributers).1 }, (decodeStrings j c.Contributers).2)
  else if keyIs key "ingredients" then
    ({ c with Ingredients := (decodeStrings j c.Ingredients).1 }, (decodeStrings j c.Ingredients).2)
  else if keyIs key "method" then
    ({ c with Method := (decodeString j c.Method).1 }, (decodeString j c.Method).2)
  else if keyIs key "test" then
    ({ c with Test := (decodeString j c.Test).1 }, (decodeString j c.Test).2)
  else if keyIs key "testers" then
    ({ c with Testers := (decodeStrings j c.Testers).1 }, (decodeStrings j c.Testers).2)
  else if keyIs key "revisions" then
    ({ c with Revisions := (decodeStrings j c.Revisions).1 }, (decodeStrings j c.Revisions).2)
  else if keyIs key "testDate" then
    ({ c with TestDate := (decodeString j c.TestDate).1 }, (decodeString j c.TestDate).2)
  else if keyIs key "dateFinalized" then
    ({ c with DateFinalized := (decodeString j c.DateFinalized).1 }, (decodeString j c.DateFinalized).2)
  else if keyIs key "dateProduced" then
    ({ c with DateProduced := (decodeString j c.DateProduced).1 }, (decodeString j c.DateProduced).2)
  else if keyIs key "datePackaged" then
    ({ c with DatePackaged := (decodeString j c.DatePackaged).1 }, (decodeString j c.DatePackaged).2)
  else if keyIs key "dateArrived" then
    ({ c with DateArrived := (decodeString j c.DateArrived).1 }, (decodeString j c.DateArrived).2)
  else if keyIs key "delivererID" then
    ({ c with DelivererID := (decodeString j c.DelivererID).1 }, (decodeString j c.DelivererID).2)
  else if keyIs key "owner" then
    ({ c with Owner := (decodeString j c.Owner).1 }, (decodeString j c.Owner).2)
  else if keyIs key "delivered" then
    ({ c with Delivered := (decodeBool j c.Delivered).1 }, (decodeBool j c.Delivered).2)
  else if keyIs key "status" then
    ({ c with Status := (decodeInt j c.Status).1 }, (decodeInt j c.Status).2)
  else (c, false)

instance : Asset Chocolates where
  zero := Chocolates.zero
  key := Chocolates.ChocoID
  members := Chocolates.members
  setMember := Chocolates.setMember

/-! ## Loading and saving (lines 233-265) -/

/-- Go `retrieve_chocoID` (lines 233-246): the record decoded from the value under
`chocoID`, with the error of a failed read or a failed decoding. -/
def retrieve_chocoID (stub : ChaincodeStub) (chocoID : String) : Chocolates × Option GoError :=
  match stub.GetState chocoID with
  | .error _ =>
      (Chocolates.zero,
        some (errors_New ("RETRIEVE_CHOCOID: Error retrieving chocolates with chocoID = " ++ chocoID)))
  | .ok bytes =>
      if (json_Unmarshal bytes Chocolates.zero).2 then
        ((json_Unmarshal bytes Chocolates.zero).1,
          some ⟨"RETRIEVE_CHOCOID: Corrupt chocolates record", bytes⟩)
      else ((json_Unmarshal bytes Chocolates.zero).1, none)

/-- Go `save_changes` (lines 254-265): the record is marshalled and put under its id.
The source is declared for `Chocolates` and is also called with a `Vehicle`
(lines 545-776); the embedding is generic in the struct. -/
def save_changes {α : Type} [Asset α] (stub : ChaincodeStub) (c : α) :
    ChaincodeStub × Except GoError Bool :=
  match stub.PutState (Asset.key c) (json_Marshal c) with
  | .error _ => (stub, .error (errors_New "Error storing chocolates record"))
  | .ok stub1 => (stub1, .ok true)

/-! ## The index and `Init` (lines 93-129) -/

/-- The struct `Choco_Holder` (lines 93-95); `create_chocolates` calls its one field
`Chocos`. -/
structure Choco_Holder where
  ChocoIDs : StringSlice
  deriving DecidableEq

instance : Record Choco_Holder where
  zero := { ChocoIDs := none }
  members h := [("chocoIDs", h.ChocoIDs.toJson)]
  setMember h key j :=
    if keyIs key "chocoIDs" then
      ({ h with ChocoIDs := (decodeStrings j h.ChocoIDs).1 }, (decodeStrings j h.ChocoIDs).2)
    else (h, false)

/-- Go `Init` (lines 109-129).  The error of the first `PutState` is overwritten by the
second; `args[0]` panics on an empty argument list (the result `none`), after the first
write.  The peer address is text (`host:port`), kept as text. -/
def Init (stub : ChaincodeStub) (_function : String) (args : List String) :
    ChaincodeStub × Option Result :=
  let stub1 := match stub.PutState "chocoIDs" (json_Marshal (Record.zero : Choco_Holder)) with
    | .error _ => stub
    | .ok s => s
  match args with
  | [] => (stub1, none)
  | peer_address :: _ =>
      match stub1.PutState "Peer_Address" (.text peer_address) with
      | .error _ => (stub1, some (.error (errors_New "Error storing peer address")))
      | .ok stub2 => (stub2, some (.ok none))

/-! ## Creation (lines 365-455) -/

/-- Go `regexp.Match("^[A-z][A-z][0-9]{7}", b)`: the text starts with two characters in
the range `A`..`z` followed by seven decimal digits; what follows them is not looked at. -/
def regexp_Match (b : String) : Bool :=
  match b.toList with
  | c1 :: c2 :: rest =>
      decide ('A'.toNat ≤ c1.toNat ∧ c1.toNat ≤ 'z'.toNat) &&
      decide ('A'.toNat ≤ c2.toNat ∧ c2.toNat ≤ 'z'.toNat) &&
      decide ((rest.take 7).length = 7) &&
      (rest.take 7).all fun d => decide ('0'.toNat ≤ d.toNat ∧ d.toNat ≤ '9'.toNat)
  | _ => false

/-- Go `create_chocolates` (lines 365-455).

* Line 374, `chocoID := "\"Chocolatier\":\"" + chocoID + "\", "`, assigns to the
  parameter `chocoID`; from there on `chocoID` is that fragment of JSON text, and it is
  what the regular expression of line 405 is matched against.
* The statement of line 402 ends with the line; line 403 (`+contributers+...+"}"`) is
  an expression of its own and does not reach `chocolates_json`.
* `chocolates_json` is not the text of a JSON value whatever the id is: it ends in
  `", "` (with line 403 it would end in `0, }`), so `[]byte(chocolates_json)` is `text`.
* `chocoIDs.Chocos` is the one field of `Choco_Holder`. -/
def create_chocolates (stub : ChaincodeStub) (_caller : String) (caller_affiliation : Int)
    (chocoID : String) : ChaincodeStub × Result :=
  let chocolatier := "\"Chocolatier\":\"Du Rhone-IBM\", "
  let establishDate := "\"Chocolatier\":\"UNDEFINED\", "
  let chocoID := "\"Chocolatier\":\"" ++ chocoID ++ "\", "
  let boxOrderDate := "\"Chocolatier\":\"UNDEFINED\", "
  let boxDelvDate := "\"Chocolatier\":\"UNDEFINED\", "
  let ingredOrderDate := "\"Chocolatier\":\"UNDEFINED\", "
  let ingredDelvDate := "\"Chocolatier\":\"UNDEFINED\", "
  let ingredOrigin := "\"Chocolatier\":\"UNDEFINED\", "
  let chocolates_json := "\x7b" ++ chocolatier ++ establishDate ++ chocoID ++ boxOrderDate ++
    boxDelvDate ++ ingredOrderDate ++ ingredDelvDate ++ ingredOrigin
  let matched := regexp_Match chocoID
  if chocoID = "" ∨ matched = false then
    (stub, .error (errors_New "Invalid chocoID provided"))
  else if (json_Unmarshal (some (.text chocolates_json)) Chocolates.zero).2 then
    (stub, .error (errors_New "Invalid JSON object"))
  else
    let c := (json_Unmarshal (some (.text chocolates_json)) Chocolates.zero).1
    let record := match stub.GetState c.ChocoID with
      | .error _ => none
      | .ok r => r
    if record.isSome then (stub, .error (errors_New "Chocolates already exists"))
    else if caller_affiliation ≠ DU_RHONE then (stub, .error (errors_New "Permission Denied"))
    else
      match save_changes stub c with
      | (stub1, .error _) => (stub1, .error (errors_New "Error saving changes"))
      | (stub1, .ok _) =>
          match stub1.GetState "chocoIDs" with
          | .error _ => (stub1, .error (errors_New "Unable to get chocoIDs"))
          | .ok bytes =>
              if (json_Unmarshal bytes (Record.zero : Choco_Holder)).2 then
                (stub1, .error (errors_New "Corrupt Choco_Holder record"))
              else
                let chocoIDs := (json_Unmarshal bytes (Record.zero : Choco_Holder)).1
                let chocoIDs := { chocoIDs with ChocoIDs := chocoIDs.ChocoIDs.append chocoID }
                match stub1.PutState "chocoIDs" (json_Marshal chocoIDs) with
                | .error _ => (stub1, .error (errors_New "Unable to put the state"))
                | .ok stub2 => (stub2, .ok none)

/-! ## Transfer functions (lines 462-522) -/

/-- Go `concepting_to_printing` (lines 462-486). -/
def concepting_to_printing (stub : ChaincodeStub) (c : Chocolates) (caller : String)
    (caller_affiliation : Int) (recipient_name : String) (recipient_affiliation : Int) :
    ChaincodeStub × Result :=
  if c.Status = STATE_CONCEPTING ∧ c.Owner = caller ∧ caller_affiliation = DU_RHONE ∧
      recipient_affiliation = PRINTER ∧ c.Delivered = false then
    match save_changes stub { c with Owner := recipient_name, Status := STATE_PRINTING } with
    | (stub1, .error _) => (stub1, .error (errors_New "Error saving changes"))
    | (stub1, .ok _) => (stub1, .ok none)
  else (stub, .error (errors_New "Permission Denied"))

/-- Go `printing_to_supplying` (lines 491-522).  The source writes the emptiness tests as
`c.Ingredients == {}` and `c.Contributers == {}`; they are read as "has no element". -/
def printing_to_supplying (stub : ChaincodeStub) (c : Chocolates) (caller : String)
    (caller_affiliation : Int) (recipient_name : String) (recipient_affiliation : Int) :
    ChaincodeStub × Result :=
  if c.EstablishDate = "UNDEFINED" ∨ c.Ingredients.len = 0 ∨ c.Contributers.len = 0 ∨
      c.Method = "UNDEFINED" ∨ c.DateFinalized = "UNDEFINED" then
    (stub, .error (errors_New "Chocolates not fully defined"))
  else if c.Status = STATE_PRINTING ∧ c.Owner = caller ∧ caller_affiliation = PRINTER ∧
      recipient_affiliation = SUPPLIER ∧ c.Delivered = false then
    match save_changes stub { c with Owner := recipient_name, Status := STATE_SUPPLYING } with
    | (stub1, .error _) => (stub1, .error (errors_New "Error saving changes"))
    | (stub1, .ok _) => (stub1, .ok none)
  else (stub, .error (errors_New "Permission denied"))

/-! ## The vehicle half of the file (lines 529-782)

These functions take a `Vehicle` and compare with constants that the file does not
declare. -/

/-- Modelled from the spec: the declaration of the struct `Vehicle` is missing from the
source.  It has the fields the functions of lines 529-846 read and write (`Status`,
`Owner`, `Scrapped`, `VIN`, `Reg`, `Colour`, `Make`, `Model`) and the id the record is
filed under (`id` of the spec's data model), here `V5cID`. -/
structure Vehicle where
  V5cID : String
  VIN : Int
  Make : String
  Model : String
  Reg : String
  Colour : String
  Owner : String
  Scrapped : Bool
  Status : Int
  deriving DecidableEq

/-- The role and status constants the vehicle functions use; their declarations are
missing from the source, so they are parameters of the embedding. -/
structure VehicleConstants where
  STATE_MANUFACTURE : Int
  STATE_PRIVATE_OWNERSHIP : Int
  STATE_BEING_SCRAPPED : Int
  MANUFACTURER : Int
  PRIVATE_ENTITY : Int
  LEASE_COMPANY : Int
  SCRAP_MERCHANT : Int
  AUTHORITY : Int

def Vehicle.zero : Vehicle :=
  { V5cID := "", VIN := 0, Make := "", Model := "", Reg := "", Colour := "", Owner := "",
    Scrapped := false, Status := 0 }

/-- Modelled from the spec: the JSON names of the fields of `Vehicle` (its declaration
is missing); each field is written under its own name. -/
def Vehicle.members (v : Vehicle) : List (String × Json) :=
  [ ("v5cID", .str v.V5cID),
    ("VIN", .num v.VIN),
    ("make", .str v.Make),
    ("model", .str v.Model),
    ("reg", .str v.Reg),
    ("colour", .str v.Colour),
    ("owner", .str v.Owner),
    ("scrapped", .bool v.Scrapped),
    ("status", .num v.Status) ]

def Vehicle.setMember (v : Vehicle) (key : String) (j : Json) : Vehicle × Bool :=
  if keyIs key "v5cID" then
    ({ v with V5cID := (decodeString j v.V5cID).1 }, (decodeString j v.V5cID).2)
  else if keyIs key "VIN" then
    ({ v with VIN := (decodeInt j v.VIN).1 }, (decodeInt j v.VIN).2)
  else if keyIs key "make" then
    ({ v with Make := (decodeString j v.Make).1 }, (decodeString j v.Make).2)
  else if keyIs key "model" then
    ({ v with Model := (decodeString j v.Model).1 }, (decodeString j v.Model).2)
  else if keyIs key "reg" then
    ({ v with Reg := (decodeString j v.Reg).1 }, (decodeString j v.Reg).2)
  else if keyIs key "colour" then
    ({ v with Colour := (decodeString j v.Colour).1 }, (decodeString j v.Colour).2)
  else if keyIs key "owner" then
    ({ v with Owner := (decodeString j v.Owner).1 }, (decodeString j v.Owner).2)
  else if keyIs key "scrapped" then
    ({ v with Scrapped := (decodeBool j v.Scrapped).1 }, (decodeBool j v.Scrapped).2)
  else if keyIs key "status" then
    ({ v with Status := (decodeInt j v.Status).1 }, (decodeInt j v.Status).2)
  else (v, false)

instance : Asset Vehicle where
  zero := Vehicle.zero
  key := Vehicle.V5cID
  members := Vehicle.members
  setMember := Vehicle.setMember

/-- Modelled from the spec: `retrieve_v5c`, which `get_vehicles` calls (line 828), is
missing from the source.  It is the spec's `get(id)`: it fails when the read fails, when
no record exists and when the stored bytes do not decode. -/
def retrieve_v5c (stub : ChaincodeStub) (v5cID : String) : Vehicle × Option GoError :=
  match stub.GetState v5cID with
  | .error _ => (Vehicle.zero, some (errors_New "NotFound"))
  | .ok none => (Vehicle.zero, some (errors_New "NotFound"))
  | .ok (some bytes) =>
      if (json_Unmarshal (some bytes) Vehicle.zero).2 then
        (Vehicle.zero, some (errors_New "CorruptRecord"))
      else ((json_Unmarshal (some bytes) Vehicle.zero).1, none)

/-- The tail shared by the functions of lines 529-782: `save_changes`, then the error
`msg` when it failed and `nil, nil` otherwise. -/
def saveVehicle (stub : ChaincodeStub) (v : Vehicle) (msg : String) : ChaincodeStub × Result :=
  match save_changes stub v with
  | (stub1, .error _) => (stub1, .error (errors_New msg))
  | (stub1, .ok _) => (stub1, .ok none)

/-- Go `private_to_private` (lines 529-551). -/
def private_to_private (K : VehicleConstants) (stub : ChaincodeStub) (v : Vehicle)
    (caller : String) (caller_affiliation : Int) (recipient_name : String)
    (recipient_affiliation : Int) : ChaincodeStub × Result :=
  if v.Status = K.STATE_PRIVATE_OWNERSHIP ∧ v.Owner = caller ∧
      caller_affiliation = K.PRIVATE_ENTITY ∧ recipient_affiliation = K.PRIVATE_ENTITY ∧
      v.Scrapped = false then
    saveVehicle stub { v with Owner := recipient_name } "Error saving changes"
  else (stub, .error (errors_New "Permission denied"))

/-- Go `private_to_lease_company` (lines 556-575). -/
def private_to_lease_company (K : VehicleConstants) (stub : ChaincodeStub) (v : Vehicle)
    (caller : String) (caller_affiliation : Int) (recipient_name : String)
    (recipient_affiliation : Int) : ChaincodeStub × Result :=
  if v.Status = K.STATE_PRIVATE_OWNERSHIP ∧ v.Owner = caller ∧
      caller_affiliation = K.PRIVATE_ENTITY ∧ recipient_affiliation = K.LEASE_COMPANY ∧
      v.Scrapped = false then
    saveVehicle stub { v with Owner := recipient_name } "Error saving changes"
  else (stub, .error (errors_New "Permission denied"))

/-- Go `lease_company_to_private` (lines 580-599). -/
def lease_company_to_private (K : VehicleConstants) (stub : ChaincodeStub) (v : Vehicle)
    (caller : String) (caller_affiliation : Int) (recipient_name : String)
    (recipient_affiliation : Int) : ChaincodeStub × Result :=
  if v.Status = K.STATE_PRIVATE_OWNERSHIP ∧ v.Owner = caller ∧
      caller_affiliation = K.LEASE_COMPANY ∧ recipient_affiliation = K.PRIVATE_ENTITY ∧
      v.Scrapped = false then
    saveVehicle stub { v with Owner := recipient_name } "Error saving changes"
  else (stub, .error (errors_New "Permission denied"))

/-- Go `private_to_scrap_merchant` (lines 604-627). -/
def private_to_scrap_merchant (K : VehicleConstants) (stub : ChaincodeStub) (v : Vehicle)
    (caller : String) (caller_affiliation : Int) (recipient_name : String)
    (recipient_affiliation : Int) : ChaincodeStub × Result :=
  if v.Status = K.STATE_PRIVATE_OWNERSHIP ∧ v.Owner = caller ∧
      caller_affiliation = K.PRIVATE_ENTITY ∧ recipient_affiliation = K.SCRAP_MERCHANT ∧
      v.Scrapped = false then
    saveVehicle stub { v with Owner := recipient_name, Status := K.STATE_BEING_SCRAPPED }
      "Error saving changes"
  else (stub, .error (errors_New "Permission denied"))

/-- Go `strconv.Atoi`: an optional sign and decimal digits, within the 64 bits of `int`. -/
def strconv_Atoi (s : String) : Option Int :=
  let digits := match s.toList with
    | '+' :: r => r
    | '-' :: r => r
    | r => r
  let magnitude : Int := digits.foldl (fun a d => 10 * a + ((d.toNat : Int) - 48)) 0
  let value : Int := match s.toList with
    | '-' :: _ => -magnitude
    | _ => magnitude
  if digits = [] ∨ ¬ (digits.all fun d => decide ('0'.toNat ≤ d.toNat ∧ d.toNat ≤ '9'.toNat)) then none
  else if -(2 : Int) ^ 63 ≤ value ∧ value < (2 : Int) ^ 63 then some value
  else none

/-- Go `update_vin` (lines 634-659). -/
def update_vin (K : VehicleConstants) (stub : ChaincodeStub) (v : Vehicle) (caller : String)
    (caller_affiliation : Int) (new_value : String) : ChaincodeStub × Result :=
  match strconv_Atoi new_value with
  | none => (stub, .error (errors_New "Invalid value passed for new VIN"))
  | some new_vin =>
      if new_value.utf8ByteSize ≠ 15 then
        (stub, .error (errors_New "Invalid value passed for new VIN"))
      else if v.Status = K.STATE_MANUFACTURE ∧ v.Owner = caller ∧
          caller_affiliation = K.MANUFACTURER ∧ v.VIN = 0 ∧ v.Scrapped = false then
        saveVehicle stub { v with VIN := new_vin } "Error saving changes"
      else (stub, .error (errors_New "Permission denied"))

/-- Go `update_registration` (lines 665-684). -/
def update_registration (K : VehicleConstants) (stub : ChaincodeStub) (v : Vehicle)
    (caller : String) (caller_affiliation : Int) (new_value : String) : ChaincodeStub × Result :=
  if v.Owner = caller ∧ caller_affiliation ≠ K.SCRAP_MERCHANT ∧ v.Scrapped = false then
    saveVehicle stub { v with Reg := new_value } "Error saving changes"
  else (stub, .error (errors_New "Permission denied"))

/-- Go `update_colour` (lines 689-709). -/
def update_colour (K : VehicleConstants) (stub : ChaincodeStub) (v : Vehicle)
    (caller : String) (caller_affiliation : Int) (new_value : String) : ChaincodeStub × Result :=
  if v.Owner = caller ∧ caller_affiliation = K.MANUFACTURER ∧ v.Scrapped = false then
    saveVehicle stub { v with Colour := new_value } "Error saving changes"
  else (stub, .error (errors_New "Permission denied"))

/-- Go `update_make` (lines 714-734). -/
def update_make (K : VehicleConstants) (stub : ChaincodeStub) (v : Vehicle)
    (caller : String) (caller_affiliation : Int) (new_value : String) : ChaincodeStub × Result :=
  if v.Status = K.STATE_MANUFACTURE ∧ v.Owner = caller ∧
      caller_affiliation = K.MANUFACTURER ∧ v.Scrapped = false then
    saveVehicle stub { v with Make := new_value } "Error saving changes"
  else (stub, .error (errors_New "Permission denied"))

/-- Go `update_model` (lines 739-758). -/
def update_model (K : VehicleConstants) (stub : ChaincodeStub) (v : Vehicle)
    (caller : String) (caller_affiliation : Int) (new_value : String) : ChaincodeStub × Result :=
  if v.Status = K.STATE_MANUFACTURE ∧ v.Owner = caller ∧
      caller_affiliation = K.MANUFACTURER ∧ v.Scrapped = false then
    saveVehicle stub { v with Model := new_value } "Error saving changes"
  else (stub, .error (errors_New "Permission denied"))

/-- Go `scrap_vehicle` (lines 763-782). -/
def scrap_vehicle (K : VehicleConstants) (stub : ChaincodeStub) (v : Vehicle)
    (caller : String) (caller_affiliation : Int) : ChaincodeStub × Result :=
  if v.Status = K.STATE_BEING_SCRAPPED ∧ v.Owner = caller ∧
      caller_affiliation = K.SCRAP_MERCHANT ∧ v.Scrapped = false then
    saveVehicle stub { v with Scrapped := true } "SCRAP_VEHICLError saving changes"
  else (stub, .error (errors_New "Permission denied"))

/-! ## Read functions (lines 789-846) -/

/-- Go `get_vehicle_details` (lines 789-803): the marshalled record for its owner and
for an `AUTHORITY`, `Permission Denied` for everyone else.  It does not touch the
ledger. -/
def get_vehicle_details (K : VehicleConstants) (_stub : ChaincodeStub) (v : Vehicle)
    (caller : String) (caller_affiliation : Int) : Result :=
  if v.Owner = caller ∨ caller_affiliation = K.AUTHORITY then .ok (some (json_Marshal v))
  else .error (errors_New "Permission Denied")

/-- Modelled from the spec: the declaration of the struct `V5C_Holder`, which
`get_vehicles` decodes the index into (line 815), is missing from the source.  It is the
spec's asset index, an ordered collection of ids, in the one field `V5Cs` that line 826
reads. -/
structure V5C_Holder where
  V5Cs : StringSlice
  deriving DecidableEq

instance : Record V5C_Holder where
  zero := { V5Cs := none }
  members h := [("v5cs", h.V5Cs.toJson)]
  setMember h key j :=
    if keyIs key "v5cs" then
      ({ h with V5Cs := (decodeStrings j h.V5Cs).1 }, (decodeStrings j h.V5Cs).2)
    else (h, false)

/-- The loop of `get_vehicles` (lines 826-837).  The record retrieved into `v` on line
828 is the `c` passed on line 832.  `result` holds the records appended so far to the
text `"["` (each followed by a comma in the source).  A record that cannot be
retrieved ends the call with an error; a record that `get_vehicle_details` denies is
passed over.  `get_vehicle_details` only ever returns what `json.Marshal` wrote, so the
third case is not reached. -/
def get_vehicles_loop (K : VehicleConstants) (stub : ChaincodeStub) (caller : String)
    (caller_affiliation : Int) : List String → List Json → Except GoError (List Json)
  | [], result => .ok result
  | v5c :: rest, result =>
      match retrieve_v5c stub v5c with
      | (_, some _) => .error (errors_New "Failed to retrieve V5C")
      | (v, none) =>
          match get_vehicle_details K stub v caller caller_affiliation with
          | .ok (some (.json temp)) =>
              get_vehicles_loop K stub caller caller_affiliation rest (result ++ [temp])
          | .ok _ => get_vehicles_loop K stub caller caller_affiliation rest result
          | .error _ => get_vehicles_loop K stub caller caller_affiliation rest result

/-- Go `get_vehicles` (lines 809-846).  The text built by the source, `"["`, then every
record followed by a comma, then the last comma replaced by `"]"` (or `"[]"` when
nothing was appended), is the text of the JSON array of the records. -/
def get_vehicles (K : VehicleConstants) (stub : ChaincodeStub) (caller : String)
    (caller_affiliation : Int) : Result :=
  match stub.GetState "v5cIDs" with
  | .error _ => .error (errors_New "Unable to get v5cIDs")
  | .ok bytes =>
      if (json_Unmarshal bytes (Record.zero : V5C_Holder)).2 then
        .error (errors_New "Corrupt V5C_Holder")
      else
        match get_vehicles_loop K stub caller caller_affiliation
            (json_Unmarshal bytes (Record.zero : V5C_Holder)).1.V5Cs.elems [] with
        | .error e => .error e
        | .ok result => .ok (some (.json (.arr result)))

/-! ## Operations on stored records

`Invoke` (lines 273-332) calls creation directly (line 280); for every other function it
first loads the record from the id argument (line 289), gives up with
`Error retrieving chocoID` when that fails (line 291), and then calls the function with
the loaded record.  The two runners below do this for the functions the file contains,
with the caller's and the recipient's name and affiliation (which `Invoke` reads from
certificates) as part of the operation. -/

/-- A call of one of the chocolate functions of the file. -/
inductive ChocolatesOp where
  | create_chocolates (caller : String) (caller_affiliation : Int) (chocoID : String)
  | concepting_to_printing (chocoID caller : String) (caller_affiliation : Int)
      (recipient_name : String) (recipient_affiliation : Int)
  | printing_to_supplying (chocoID caller : String) (caller_affiliation : Int)
      (recipient_name : String) (recipient_affiliation : Int)

/-- The id argument of the call. -/
def ChocolatesOp.target : ChocolatesOp → String
  | .create_chocolates _ _ chocoID => chocoID
  | .concepting_to_printing chocoID _ _ _ _ => chocoID
  | .printing_to_supplying chocoID _ _ _ _ => chocoID

/-- The caller of the call. -/
def ChocolatesOp.caller : ChocolatesOp → String
  | .create_chocolates caller _ _ => caller
  | .concepting_to_printing _ caller _ _ _ => caller
  | .printing_to_supplying _ caller _ _ _ => caller

/-- The call carried out as `Invoke` does (lines 280-305). -/
def ChocolatesOp.run (stub : ChaincodeStub) : ChocolatesOp → ChaincodeStub × Result
  | .create_chocolates caller ca chocoID => Chaincode.create_chocolates stub caller ca chocoID
  | .concepting_to_printing chocoID caller ca rn ra =>
      match retrieve_chocoID stub chocoID with
      | (_, some _) => (stub, .error (errors_New "Error retrieving chocoID"))
      | (c, none) => Chaincode.concepting_to_printing stub c caller ca rn ra
  | .printing_to_supplying chocoID caller ca rn ra =>
      match retrieve_chocoID stub chocoID with
      | (_, some _) => (stub, .error (errors_New "Error retrieving chocoID"))
      | (c, none) => Chaincode.printing_to_supplying stub c caller ca rn ra

/-- A call of one of the vehicle functions of the file (lines 529-782) on a record. -/
inductive VehicleCall where
  | private_to_private (caller : String) (caller_affiliation : Int)
      (recipient_name : String) (recipient_affiliation : Int)
  | private_to_lease_company (caller : String) (caller_affiliation : Int)
      (recipient_name : String) (recipient_affiliation : Int)
  | lease_company_to_private (caller : String) (caller_affiliation : Int)
      (recipient_name : String) (recipient_affiliation : Int)
  | private_to_scrap_merchant (caller : String) (caller_affiliation : Int)
      (recipient_name : String) (recipient_affiliation : Int)
  | update_vin (caller : String) (caller_affiliation : Int) (new_value : String)
  | update_registration (caller : String) (caller_affiliation : Int) (new_value : String)
  | update_colour (caller : String) (caller_affiliation : Int) (new_value : String)
  | update_make (caller : String) (caller_affiliation : Int) (new_value : String)
  | update_model (caller : String) (caller_affiliation : Int) (new_value : String)
  | scrap_vehicle (caller : String) (caller_affiliation : Int)

/-- The caller of the call. -/
def VehicleCall.caller : VehicleCall → String
  | .private_to_private caller _ _ _ => caller
  | .private_to_lease_company caller _ _ _ => caller
  | .lease_company_to_private caller _ _ _ => caller
  | .private_to_scrap_merchant caller _ _ _ => caller
  | .update_vin caller _ _ => caller
  | .update_registration caller _ _ => caller
  | .update_colour caller _ _ => caller
  | .update_make caller _ _ => caller
  | .update_model caller _ _ => caller
  | .scrap_vehicle caller _ => caller

/-- The function of the call applied to a loaded record. -/
def VehicleCall.apply (K : VehicleConstants) (stub : ChaincodeStub) (v : Vehicle) :
    VehicleCall → ChaincodeStub × Result
  | .private_to_private caller ca rn ra => Chaincode.private_to_private K stub v caller ca rn ra
  | .private_to_lease_company caller ca rn ra => Chaincode.private_to_lease_company K stub v caller ca rn ra
  | .lease_company_to_private caller ca rn ra => Chaincode.lease_company_to_private K stub v caller ca rn ra
  | .private_to_scrap_merchant caller ca rn ra => Chaincode.private_to_scrap_merchant K stub v caller ca rn ra
  | .update_vin caller ca new_value => Chaincode.update_vin K stub v caller ca new_value
  | .update_registration caller ca new_value => Chaincode.update_registration K stub v caller ca new_value
  | .update_colour caller ca new_value => Chaincode.update_colour K stub v caller ca new_value
  | .update_make caller ca new_value => Chaincode.update_make K stub v caller ca new_value
  | .update_model caller ca new_value => Chaincode.update_model K stub v caller ca new_value
  | .scrap_vehicle caller ca => Chaincode.scrap_vehicle K stub v caller ca

/-- A vehicle call addressed to the record stored under `v5cID`. -/
structure VehicleOp where
  v5cID : String
  call : VehicleCall

/-- The call carried out the way `Invoke` carries out calls: load, then apply. -/
def VehicleOp.run (K : VehicleConstants) (stub : ChaincodeStub) (op : VehicleOp) :
    ChaincodeStub × Result :=
  match retrieve_v5c stub op.v5cID with
  | (_, some _) => (stub, .error (errors_New "Error retrieving chocoID"))
  | (v, none) => op.call.apply K stub v

/-- A sequence of operations carried out one after the other: the ledger at the end and
the result of every operation. -/
def runAll {Op : Type} (run : ChaincodeStub → Op → ChaincodeStub × Result)
    (stub : ChaincodeStub) : List Op → ChaincodeStub × List Result
  | [] => (stub, [])
  | op :: ops => ((runAll run (run stub op).1 ops).1, (run stub op).2 :: (runAll run (run stub op).1 ops).2)

/-! ## Identity (lines 137-226)

The caller's certificate, the registrar that is asked for enrolment certificates over
HTTP, and the libraries `net/url`, `encoding/pem` and `crypto/x509` are outside the
chaincode; they are parameters of the embedding.  Certificates are kept as text. -/

/-- The outcome of `http.Get` followed by `ioutil.ReadAll` (lines 144-155). -/
inductive HttpResponse where
  | getFailed
  | readFailed
  | contents (body : Option Bytes)

/-- What the identity functions use from outside the chaincode. -/
structure Outside where
  /-- Go `stub.GetCallerCertificate()`. -/
  GetCallerCertificate : Except Unit String
  /-- Go `x509.ParseCertificate(der)` followed by `.Subject.CommonName`. -/
  ParseCertificate : String → Except Unit String
  /-- The registrar at the peer address, asked for the ecert of a name. -/
  registrar : Option Bytes → String → HttpResponse
  /-- Go `url.QueryUnescape`. -/
  QueryUnescape : String → Except Unit String
  /-- Go `pem.Decode` followed by `.Bytes`; `none` when no PEM block is found (the
  block is then nil). -/
  pemDecode : String → Option String

/-- The struct `ECertResponse` (lines 100-103). -/
structure ECertResponse where
  OK : String
  Error : String
  deriving DecidableEq

instance : Record ECertResponse where
  zero := { OK := "", Error := "" }
  members r := [("OK", .str r.OK), ("Error", .str r.Error)]
  setMember r key j :=
    if keyIs key "OK" then ({ r with OK := (decodeString j r.OK).1 }, (decodeString j r.OK).2)
    else if keyIs key "Error" then
      ({ r with Error := (decodeString j r.Error).1 }, (decodeString j r.Error).2)
    else (r, false)

/-- Go `get_ecert` (lines 137-166). -/
def get_ecert (O : Outside) (stub : ChaincodeStub) (name : String) : Except GoError String :=
  match stub.GetState "Peer_Address" with
  | .error _ => .error (errors_New "Error retrieving peer address")
  | .ok peer_address =>
      match O.registrar peer_address name with
      | .getFailed => .error (errors_New "Error calling ecert API")
      | .readFailed => .error (errors_New "Could not read body")
      | .contents body =>
          if (json_Unmarshal body (Record.zero : ECertResponse)).2 then
            .error (errors_New ("Could not retrieve ecert for user: " ++ name))
          else if (json_Unmarshal body (Record.zero : ECertResponse)).1.Error ≠ "" then
            .error (errors_New (json_Unmarshal body (Record.zero : ECertResponse)).1.Error)
          else .ok (json_Unmarshal body (Record.zero : ECertResponse)).1.OK

/-- Go `get_username` (lines 173-181). -/
def get_username (O : Outside) : Except GoError String :=
  match O.GetCallerCertificate with
  | .error _ => .error (errors_New "Couldn't retrieve caller certificate")
  | .ok bytes =>
      match O.ParseCertificate bytes with
      | .error _ => .error (errors_New "Couldn't parse certificate")
      | .ok commonName => .ok commonName

/-- Go `strings.Split` on the characters of a text, for a separator of one character. -/
def splitChars (sep : Char) : List Char → List (List Char)
  | [] => [[]]
  | c :: cs =>
      if c = sep then [] :: splitChars sep cs
      else
        match splitChars sep cs with
        | [] => [[c]]
        | field :: fields => (c :: field) :: fields

/-- Go `strings.Split(s, "\\")`. -/
def strings_Split (s : String) : List String :=
  (splitChars '\\' s.toList).map String.mk

/-- The number left by `n, _ := strconv.Atoi(s)`: the value when `s` is a number, `0`
when it is not, and the nearest Go `int` when it is out of range. -/
def strconv_Atoi_value (s : String) : Int :=
  match strconv_Atoi s with
  | some n => n
  | none =>
      let digits := match s.toList with
        | '+' :: r => r
        | '-' :: r => r
        | r => r
      if digits = [] ∨ ¬ (digits.all fun d => decide ('0'.toNat ≤ d.toNat ∧ d.toNat ≤ '9'.toNat))
      then 0
      else
        match s.toList with
        | '-' :: _ => -(2 : Int) ^ 63
        | _ => (2 : Int) ^ 63 - 1

/-- Go `check_affiliation` (lines 188-207).  The result `none` is a run-time panic: of
`pem.Bytes` when `pem.Decode` found no block, and of `res[2]` when the common name has
fewer than three fields.  The error of `strconv.Atoi` is discarded. -/
def check_affiliation (O : Outside) (cert : String) : Option (Except GoError Int) :=
  match O.QueryUnescape cert with
  | .error _ => some (.error (errors_New "Could not decode certificate"))
  | .ok decodedCert =>
      match O.pemDecode decodedCert with
      | none => none
      | some der =>
          match O.ParseCertificate der with
          | .error _ => some (.error (errors_New "Couldn't parse certificate"))
          | .ok cn =>
              match (strings_Split cn)[2]? with
              | none => none
              | some field => some (.ok (strconv_Atoi_value field))

/-- Go `get_caller_data` (lines 214-226); `none` is a panic of `check_affiliation`. -/
def get_caller_data (O : Outside) (stub : ChaincodeStub) :
    Option (Except GoError (String × Int)) :=
  match get_username O with
  | .error e => some (.error e)
  | .ok user =>
      match get_ecert O stub user with
      | .error e => some (.error e)
      | .ok ecert =>
          match check_affiliation O ecert with
          | none => none
          | some (.error e) => some (.error e)
          | some (.ok affiliation) => some (.ok (user, affiliation))

/-! ## Router functions (lines 273-358) -/

/-- The functions `Invoke` and `Query` call that the file does not contain (the four
later transfers, the thirteen `update_` functions, `finish_delivery`,
`get_chocolate_details` and `get_chocos`); they are parameters of the embedding, by
name where `Invoke` calls several of one shape.  The result `none` is a panic. -/
structure Absent where
  transfer : String → ChaincodeStub → Chocolates → String → Int → String → Int →
    ChaincodeStub × Option Result
  update : String → ChaincodeStub → Chocolates → String → Int → String →
    ChaincodeStub × Option Result
  finish_delivery : ChaincodeStub → Chocolates → String → Int → ChaincodeStub × Option Result
  get_chocolate_details : ChaincodeStub → Chocolates → String → Int →
    ChaincodeStub × Option Result
  get_chocos : ChaincodeStub → String → Int → ChaincodeStub × Option Result

/-- One text starts with another. -/
def hasPrefixChars : List Char → List Char → Bool
  | [], _ => true
  | _ :: _, [] => false
  | p :: ps, c :: cs => p == c && hasPrefixChars ps cs

/-- Go `strings.Contains` on the characters of the texts. -/
def containsChars (sub : List Char) : List Char → Bool
  | [] => hasPrefixChars sub []
  | c :: cs => hasPrefixChars sub (c :: cs) || containsChars sub cs

/-- Go `strings.Contains(s, substr)`. -/
def strings_Contains (s substr : String) : Bool := containsChars substr.toList s.toList

/-- The transfer names of lines 306-309, whose functions are absent. -/
def absentTransfers : List String :=
  ["supplying_to_testing", "testing_to_produciton", "production_to_delivery",
   "delivery_to_delivered"]

/-- The update names of lines 313-325, whose functions are absent. -/
def absentUpdates : List String :=
  ["update_boxOrderDate", "update_boxDelvDate", "update_ingredOrderDate",
   "update_ingredDelvDate", "update_ingredOrigin", "update_contributers",
   "update_ingredients", "update_test", "update_testers", "update_revisions",
   "update_dateFinalized", "update_delivererID", "update_receipt"]

/-- Go `Invoke` (lines 273-332).  The record loaded on line 289 into `v` is the `c` the
functions are called with.  An index into `args` past its end is a panic (`none`); what
was written before a panic stays in the returned stub. -/
def Invoke (O : Outside) (A : Absent) (stub : ChaincodeStub) (function : String)
    (args : List String) : ChaincodeStub × Option Result :=
  match get_caller_data O stub with
  | none => (stub, none)
  | some (.error _) => (stub, some (.error (errors_New "Error retrieving caller information")))
  | some (.ok (caller, caller_affiliation)) =>
      if function = "create_chocolates" then
        match args[0]? with
        | none => (stub, none)
        | some arg0 =>
            ((create_chocolates stub caller caller_affiliation arg0).1,
              some (create_chocolates stub caller caller_affiliation arg0).2)
      else
        match args[if function = "finish_delivery" then 0 else 1]? with
        | none => (stub, none)
        | some chocoID =>
            match retrieve_chocoID stub chocoID with
            | (_, some _) => (stub, some (.error (errors_New "Error retrieving chocoID")))
            | (c, none) =>
                if strings_Contains function "update" = false ∧ function ≠ "finish_delivery" then
                  match args[0]? with
                  | none => (stub, none)
                  | some arg0 =>
                      match get_ecert O stub arg0 with
                      | .error e => (stub, some (.error e))
                      | .ok ecert =>
                          match check_affiliation O ecert with
                          | none => (stub, none)
                          | some (.error e) => (stub, some (.error e))
                          | some (.ok rec_affiliation) =>
                              if function = "concepting_to_printing" then
                                ((concepting_to_printing stub c caller caller_affiliation arg0
                                  rec_affiliation).1,
                                 some (concepting_to_printing stub c caller caller_affiliation
                                  arg0 rec_affiliation).2)
                              else if function = "printing_to_supplying" then
                                ((printing_to_supplying stub c caller caller_affiliation arg0
                                  rec_affiliation).1,
                                 some (printing_to_supplying stub c caller caller_affiliation
                                  arg0 rec_affiliation).2)
                              else if function ∈ absentTransfers then
                                A.transfer function stub c caller caller_affiliation arg0
                                  rec_affiliation
                              else
                                (stub, some (.error
                                  (errors_New "Function of that name doesn't exist.")))
                else if function ∈ absentUpdates then
                  match args[0]? with
                  | none => (stub, none)
                  | some arg0 => A.update function stub c caller caller_affiliation arg0
                else if function = "finish_delivery" then
                  A.finish_delivery stub c caller caller_affiliation
                else (stub, some (.error (errors_New "Function of that name doesn't exist.")))

/-- Go `Query` (lines 337-358). -/
def Query (O : Outside) (A : Absent) (stub : ChaincodeStub) (function : String)
    (args : List String) : ChaincodeStub × Option Result :=
  match get_caller_data O stub with
  | none => (stub, none)
  | some (.error _) =>
      (stub, some (.error (errors_New "QUERY: Error retrieving caller details")))
  | some (.ok (caller, caller_affiliation)) =>
      if function = "get_chocolate_details" then
        match args with
        | [arg0] =>
            match retrieve_chocoID stub arg0 with
            | (_, some e) =>
                (stub, some (.error ⟨"QUERY: Error retrieving chocoID " ++ e.msg, e.tail⟩))
            | (c, none) => A.get_chocolate_details stub c caller caller_affiliation
        | _ => (stub, some (.error (errors_New "QUERY: Incorrect number of arguments passed")))
      else if function = "get_chocos" then A.get_chocos stub caller caller_affiliation
      else (stub, some (.error (errors_New "Received unknown function invocation")))

/-- The names `Invoke` dispatches on. -/
def invokeNames : List String :=
  ["create_chocolates", "concepting_to_printing", "printing_to_supplying"] ++
    absentTransfers ++ absentUpdates ++ ["finish_delivery"]

/-- The names `Query` dispatches on. -/
def queryNames : List String := ["get_chocolate_details", "get_chocos"]

/-! ## Notions of the specification -/

/-- The text of the error of a result, without the bytes that may follow it. -/
def Result.errorMsg : Result → Option String
  | .ok _ => none
  | .error e => some e.msg

/-- At least one concept-phase field is still undefined (`"UNDEFINED"`, or no element
for a list). -/
def ConceptIncomplete (c : Chocolates) : Prop :=
  c.EstablishDate = "UNDEFINED" ∨ c.Ingredients.len = 0 ∨ c.Contributers.len = 0 ∨
    c.Method = "UNDEFINED" ∨ c.DateFinalized = "UNDEFINED"

/-- The id format of the specification: two ASCII letters followed by seven decimal
digits, and nothing else. -/
def WellFormedId (id : String) : Bool :=
  match id.toList with
  | c1 :: c2 :: rest =>
      c1.isAlpha && c2.isAlpha && decide (rest.length = 7) && rest.all Char.isDigit
  | _ => false

/-- The guard of `concepting_to_printing`. -/
def ConceptingToPrintingGuard (c : Chocolates) (caller : String) (caller_affiliation : Int)
    (recipient_affiliation : Int) : Prop :=
  c.Status = STATE_CONCEPTING ∧ c.Owner = caller ∧ caller_affiliation = DU_RHONE ∧
    recipient_affiliation = PRINTER ∧ c.Delivered = false

/-- The guard of `printing_to_supplying` that follows its completeness check. -/
def PrintingToSupplyingGuard (c : Chocolates) (caller : String) (caller_affiliation : Int)
    (recipient_affiliation : Int) : Prop :=
  c.Status = STATE_PRINTING ∧ c.Owner = caller ∧ caller_affiliation = PRINTER ∧
    recipient_affiliation = SUPPLIER ∧ c.Delivered = false

/-- The operation returned an error and left the ledger as it was. -/
def Rejected (stub : ChaincodeStub) (out : ChaincodeStub × Result) : Prop :=
  out.1 = stub ∧ out.2.succeeded = false

/-- The value passes the validation of `update_vin` (lines 636-638). -/
def AcceptedVIN (new_value : String) : Prop :=
  (strconv_Atoi new_value).isSome = true ∧ new_value.utf8ByteSize = 15

/-- The guard of `update_vin` (lines 640-644). -/
def UpdateVinGuard (K : VehicleConstants) (v : Vehicle) (caller : String)
    (caller_affiliation : Int) : Prop :=
  v.Status = K.STATE_MANUFACTURE ∧ v.Owner = caller ∧ caller_affiliation = K.MANUFACTURER ∧
    v.VIN = 0 ∧ v.Scrapped = false

/-- The caller may view the record (line 795). -/
def Viewable (K : VehicleConstants) (caller : String) (caller_affiliation : Int)
    (v : Vehicle) : Bool :=
  decide (v.Owner = caller ∨ caller_affiliation = K.AUTHORITY)

/-- A record as one element of the listing: the JSON object `json.Marshal` writes. -/
def Vehicle.toJson (v : Vehicle) : Json := .obj (Vehicle.members v)

/-- An outside world in which every certificate parses, with the subject common name
`commonName`, and the registrar answers every request with an ecert. -/
def outsideWith (commonName : String) : Outside :=
  { GetCallerCertificate := .ok "der"
    ParseCertificate := fun _ => .ok commonName
    registrar := fun _ _ => .contents (some (.json (.obj [("OK", .str "pem")])))
    QueryUnescape := fun cert => .ok cert
    pemDecode := fun _ => some "der" }

/-- A stand-in for the functions the file does not contain: each returns the error
`absent` and leaves the ledger as it was. -/
def absentFunctions : Absent :=
  { transfer := fun _ stub _ _ _ _ _ => (stub, some (.error (errors_New "absent")))
    update := fun _ stub _ _ _ _ => (stub, some (.error (errors_New "absent")))
    finish_delivery := fun stub _ _ _ => (stub, some (.error (errors_New "absent")))
    get_chocolate_details := fun stub _ _ _ => (stub, some (.error (errors_New "absent")))
    get_chocos := fun stub _ _ => (stub, some (.error (errors_New "absent"))) }

/-- A ledger that holds nothing and refuses nothing. -/
def emptyStub : ChaincodeStub :=
  { state := fun _ => none, getErr := fun _ => false, putErr := fun _ => false }

/-- A choice of the constants the vehicle functions use: distinct roles, statuses in
lifecycle order. -/
def carLeaseConstants : VehicleConstants :=
  { STATE_MANUFACTURE := 1, STATE_PRIVATE_OWNERSHIP := 2, STATE_BEING_SCRAPPED := 4,
    MANUFACTURER := 2, PRIVATE_ENTITY := 3, LEASE_COMPANY := 4, SCRAP_MERCHANT := 5,
    AUTHORITY := 1 }

/-- A chocolates record as it is meant to be right after creation: in the concept stage,
every attribute undefined. -/
def conceptRecord (chocoID owner : String) : Chocolates :=
  { Chocolates.zero with
    Chocolatier := "Du Rhone-IBM", ChocoID := chocoID, EstablishDate := "UNDEFINED",
    BoxOrderDate := "UNDEFINED", BoxDelvDate := "UNDEFINED", IngredOrigin := "UNDEFINED",
    Method := "UNDEFINED", Test := "UNDEFINED", TestDate := "UNDEFINED",
    DateFinalized := "UNDEFINED", DateProduced := "UNDEFINED", DatePackaged := "UNDEFINED",
    DateArrived := "UNDEFINED", DelivererID := "UNDEFINED", Owner := owner,
    Status := STATE_CONCEPTING }

/-- A Go `int`. -/
def FitsInt (n : Int) : Prop := -(2 : Int) ^ 63 ≤ n ∧ n < (2 : Int) ^ 63

/-- The record stored under `key`: what the value there decodes to, when it decodes. -/
def stored (α : Type) [Record α] (stub : ChaincodeStub) (key : String) : Option α :=
  if (json_Unmarshal (stub.state key) (Record.zero : α)).2 then none
  else some (json_Unmarshal (stub.state key) (Record.zero : α)).1

/-- Every stored record that has an owner is stored under its own id. -/
def FiledUnderOwnId (α : Type) [Asset α] (owner : α → String) (stub : ChaincodeStub) : Prop :=
  ∀ key r, stored α stub key = some r → owner r ≠ "" → Asset.key r = key

/-- What one operation by `caller` may do to the ledger: nothing, or rewrite, under the
record's own id and without lowering its status, a record that is stored somewhere, is
owned by the caller and is not retired. -/
def Rewrites (α : Type) [Asset α] (owner : α → String) (status : α → Int) (retired : α → Bool)
    (caller : String) (stub stub1 : ChaincodeStub) : Prop :=
  stub1 = stub ∨
  ∃ (target : String) (r : α) (bytes : Bytes) (r1 : α),
    stored α stub target = some r ∧ owner r = caller ∧ retired r = false ∧
    stub1 = stub.put (Asset.key r) bytes ∧
    json_Unmarshal (some bytes) (Record.zero : α) = (r1, false) ∧
    Asset.key r1 = Asset.key r ∧ status r ≤ status r1

/-- What one operation by `caller` may do to the ledger whatever the statuses are:
nothing, or write, under the record's own id, in place of a record that is stored
somewhere, is owned by the caller and is not retired; what is written decodes, if it
decodes, to a record with that id. -/
def Touches (α : Type) [Asset α] (owner : α → String) (retired : α → Bool)
    (caller : String) (stub stub1 : ChaincodeStub) : Prop :=
  stub1 = stub ∨
  ∃ (target : String) (r : α) (bytes : Bytes),
    stored α stub target = some r ∧ owner r = caller ∧ retired r = false ∧
    stub1 = stub.put (Asset.key r) bytes ∧
    ∀ r1, json_Unmarshal (some bytes) (Record.zero : α) = (r1, false) →
      Asset.key r1 = Asset.key r

/-- The undeclared status constants are Go `int`s in lifecycle order. -/
def VehicleConstants.Ordered (K : VehicleConstants) : Prop :=
  K.STATE_PRIVATE_OWNERSHIP ≤ K.STATE_BEING_SCRAPPED ∧ FitsInt K.STATE_BEING_SCRAPPED

/-- A chocolates record at the end of its life: delivered. -/
def deliveredRecord (chocoID owner : String) : Chocolates :=
  { conceptRecord chocoID owner with Status := STATE_DELIVERED, Delivered := true }

/-- A ledger with one concept record, stored under its id. -/
def conceptStub : ChaincodeStub :=
  emptyStub.put "AB1234567" (json_Marshal (conceptRecord "AB1234567" "alice"))

/-- A vehicle in private ownership. -/
def privateVehicle : Vehicle :=
  { Vehicle.zero with V5cID := "AB1234567", Owner := "pat", Status := 2 }

/-- A ledger with one vehicle in private ownership, stored under its id. -/
def privateStub : ChaincodeStub :=
  emptyStub.put "AB1234567" (json_Marshal privateVehicle)

/-- A vehicle at its manufacturer, with no VIN yet. -/
def manufactureVehicle : Vehicle :=
  { Vehicle.zero with V5cID := "AB1234567", Owner := "mia", Status := 1 }

/-- A ledger with one vehicle at its manufacturer, stored under its id. -/
def manufactureStub : ChaincodeStub :=
  emptyStub.put "AB1234567" (json_Marshal manufactureVehicle)

/-- A scrapped vehicle. -/
def scrappedVehicle : Vehicle :=
  { Vehicle.zero with V5cID := "XY7654321", Owner := "sam", Status := 4, Scrapped := true }

/-- A ledger with one scrapped vehicle, stored under its id. -/
def scrappedStub : ChaincodeStub :=
  emptyStub.put "XY7654321" (json_Marshal scrappedVehicle)

/-- An index of two ids. -/
def twoIds : V5C_Holder := { V5Cs := some ["XY7654321", "AB1234567"] }

/-- A ledger whose index names two ids, of which only `XY7654321` has a record (a
scrapped vehicle owned by `sam`); nothing is stored under `AB1234567`. -/
def danglingStub : ChaincodeStub :=
  (emptyStub.put "XY7654321"
    (json_Marshal scrappedVehicle)).put "v5cIDs" (json_Marshal twoIds)

/-- A ledger whose index names two ids, both with a record: a scrapped vehicle owned by
`sam` and a vehicle at its manufacturer `mia`. -/
def listedStub : ChaincodeStub :=
  ((emptyStub.put "XY7654321"
    (json_Marshal scrappedVehicle)).put "AB1234567"
    (json_Marshal manufactureVehicle)).put "v5cIDs" (json_Marshal twoIds)

/-- A ledger with one delivered chocolates record, stored under its id. -/
def deliveredStub : ChaincodeStub :=
  emptyStub.put "AB1234567" (json_Marshal (deliveredRecord "AB1234567" "dora"))

/-- A ledger that holds nothing and refuses every read. -/
def unreadableStub : ChaincodeStub :=
  { state := fun _ => none, getErr := fun _ => true, putErr := fun _ => false }

/-- A ledger with bytes under `AB1234567` that are not JSON. -/
def garbledStub : ChaincodeStub := emptyStub.put "AB1234567" (.text "not json")

/-- A ledger with, under `AB1234567`, a JSON object whose `status` is a text. -/
def mistypedStub : ChaincodeStub :=
  emptyStub.put "AB1234567" (.json (.obj [("ID", .str "AB1234567"), ("status", .str "x")]))

/-- A ledger that holds nothing and refuses the write of the index record only. -/
def indexRefusedStub : ChaincodeStub :=
  { state := fun _ => none, getErr := fun _ => false, putErr := fun key => key == "chocoIDs" }

/-- The ledger `Init` leaves when it starts from nothing. -/
def initStub : ChaincodeStub := (Init emptyStub "init" ["localhost:7050"]).1

/-- A concept record whose two ingredient dates are set. -/
def datedRecord : Chocolates :=
  { conceptRecord "AB1234567" "alice" with
    IngredOrderDate := "2016-08-01", IngredDelvDate := "2016-08-09" }

/-- The VIN format of the specification: exactly fifteen decimal digits. -/
def FifteenDigits (s : String) : Bool :=
  decide (s.toList.length = 15) && s.toList.all Char.isDigit

/-- A ledger whose index record is text that is not JSON. -/
def brokenIndexStub : ChaincodeStub := emptyStub.put "chocoIDs" (.text "not json")

/-- What one operation may do to the ledger, as far as ids go: nothing, or put, under the
id of a record that is stored somewhere, bytes that decode to a record with that id. -/
def Refiles (α : Type) [Asset α] (stub stub1 : ChaincodeStub) : Prop :=
  stub1 = stub ∨
  ∃ (target : String) (r : α) (bytes : Bytes) (r1 : α),
    stored α stub target = some r ∧ stub1 = stub.put (Asset.key r) bytes ∧
    json_Unmarshal (some bytes) (Record.zero : α) = (r1, false) ∧ Asset.key r1 = Asset.key r

/-- The ids of the asset index: what the value under `chocoIDs` decodes to, when it
decodes. -/
def assetIndex (stub : ChaincodeStub) : Option (List String) :=
  (stored Choco_Holder stub "chocoIDs").map fun h => h.ChocoIDs.elems

/-- Every stored record that has an id is stored under it. -/
def WellFiled (α : Type) [Asset α] (stub : ChaincodeStub) : Prop :=
  ∀ key r, stored α stub key = some r → Asset.key r ≠ "" → Asset.key r = key

/-- A ledger with a delivered record and a concept record, each stored under its id. -/
def twoRecordsStub : ChaincodeStub :=
  deliveredStub.put "CD7654321" (json_Marshal (conceptRecord "CD7654321" "alice"))

/-! ## Theorems -/

/-! ### Evaluation lemmas -/

theorem save_changes_ok {α : Type} [Asset α] (stub : ChaincodeStub) (c : α)
    (hput : stub.putErr (Asset.key c) = false) :
    save_changes stub c = (stub.put (Asset.key c) (json_Marshal c), .ok true) := by
  simp [save_changes, ChaincodeStub.PutState, hput]

theorem save_changes_err {α : Type} [Asset α] (stub : ChaincodeStub) (c : α)
    (hput : stub.putErr (Asset.key c) = true) :
    save_changes stub c = (stub, .error (errors_New "Error storing chocolates record")) := by
  simp [save_changes, ChaincodeStub.PutState, hput]

theorem saveVehicle_ok (stub : ChaincodeStub) (v : Vehicle) (msg : String)
    (hput : stub.putErr v.V5cID = false) :
    saveVehicle stub v msg = (stub.put v.V5cID (json_Marshal v), .ok none) := by
  have h := save_changes_ok stub v hput
  simp only [saveVehicle, h]
  rfl

theorem saveVehicle_err (stub : ChaincodeStub) (v : Vehicle) (msg : String)
    (hput : stub.putErr v.V5cID = true) :
    saveVehicle stub v msg = (stub, .error (errors_New msg)) := by
  have h := save_changes_err stub v hput
  simp only [saveVehicle, h]

theorem concepting_to_printing_pass (stub : ChaincodeStub) (c : Chocolates) (caller : String)
    (ca : Int) (rn : String) (ra : Int) (hput : stub.putErr c.ChocoID = false)
    (hg : ConceptingToPrintingGuard c caller ca ra) :
    concepting_to_printing stub c caller ca rn ra =
      (stub.put c.ChocoID (json_Marshal { c with Owner := rn, Status := STATE_PRINTING }),
        .ok none) := by
  have hs := save_changes_ok stub { c with Owner := rn, Status := STATE_PRINTING } hput
  unfold ConceptingToPrintingGuard at hg
  simp only [concepting_to_printing, if_pos hg, hs]
  rfl

theorem concepting_to_printing_deny (stub : ChaincodeStub) (c : Chocolates) (caller : String)
    (ca : Int) (rn : String) (ra : Int) (hg : ¬ ConceptingToPrintingGuard c caller ca ra) :
    concepting_to_printing stub c caller ca rn ra =
      (stub, .error (errors_New "Permission Denied")) := by
  unfold ConceptingToPrintingGuard at hg
  simp only [concepting_to_printing, if_neg hg]

/-! ### The claims -/

/-- The guards of `concepting_to_printing` and what it writes: when the ledger accepts
the write, it succeeds exactly when its five guards hold; it then returns no payload and
the ledger holds, under the record's id, what `json.Marshal` writes of the record with
`Owner` set to the recipient and `Status` set to `STATE_PRINTING`; when a guard fails it
returns `Permission Denied` and the ledger is as before. -/
theorem concepting_to_printing_spec (stub : ChaincodeStub) (c : Chocolates) (caller : String)
    (caller_affiliation : Int) (recipient_name : String) (recipient_affiliation : Int)
    (hput : stub.putErr c.ChocoID = false) :
    ((concepting_to_printing stub c caller caller_affiliation recipient_name
        recipient_affiliation).2.succeeded = true ↔
      (c.Status = STATE_CONCEPTING ∧ c.Owner = caller ∧ caller_affiliation = DU_RHONE ∧
        recipient_affiliation = PRINTER ∧ c.Delivered = false)) ∧
    ((c.Status = STATE_CONCEPTING ∧ c.Owner = caller ∧ caller_affiliation = DU_RHONE ∧
        recipient_affiliation = PRINTER ∧ c.Delivered = false) →
      concepting_to_printing stub c caller caller_affiliation recipient_name
          recipient_affiliation =
        (stub.put c.ChocoID
          (json_Marshal { c with Owner := recipient_name, Status := STATE_PRINTING }),
          .ok none)) ∧
    (¬ (c.Status = STATE_CONCEPTING ∧ c.Owner = caller ∧ caller_affiliation = DU_RHONE ∧
        recipient_affiliation = PRINTER ∧ c.Delivered = false) →
      concepting_to_printing stub c caller caller_affiliation recipient_name
          recipient_affiliation =
        (stub, .error (errors_New "Permission Denied"))) := by
  by_cases hg : ConceptingToPrintingGuard c caller caller_affiliation recipient_affiliation
  · have hrun := concepting_to_printing_pass stub c caller caller_affiliation recipient_name
      recipient_affiliation hput hg
    refine ⟨?_, fun _ => hrun, fun h => absurd hg h⟩
    rw [hrun]
    exact ⟨fun _ => hg, fun _ => rfl⟩
  · have hrun := concepting_to_printing_deny stub c caller caller_affiliation recipient_name
      recipient_affiliation hg
    refine ⟨?_, fun h => absurd h hg, fun _ => hrun⟩
    rw [hrun]
    exact ⟨fun h => by simp [Result.succeeded] at h, fun h => absurd h hg⟩

/-- An instance: a concept record owned by the caller, handed by Du Rhone to a printer
on a ledger that accepts writes. -/
theorem concepting_to_printing_spec_witness :
    emptyStub.putErr (conceptRecord "AB1234567" "alice").ChocoID = false ∧
    ((concepting_to_printing emptyStub (conceptRecord "AB1234567" "alice") "alice" DU_RHONE
        "bob" PRINTER).2.succeeded = true ↔
      ((conceptRecord "AB1234567" "alice").Status = STATE_CONCEPTING ∧
        (conceptRecord "AB1234567" "alice").Owner = "alice" ∧ DU_RHONE = DU_RHONE ∧
        PRINTER = PRINTER ∧ (conceptRecord "AB1234567" "alice").Delivered = false)) :=
  ⟨rfl, (concepting_to_printing_spec emptyStub (conceptRecord "AB1234567" "alice") "alice"
    DU_RHONE "bob" PRINTER rfl).1⟩

theorem printing_to_supplying_undefined (stub : ChaincodeStub) (c : Chocolates)
    (caller : String) (ca : Int) (rn : String) (ra : Int) (h : ConceptIncomplete c) :
    printing_to_supplying stub c caller ca rn ra =
      (stub, .error (errors_New "Chocolates not fully defined")) := by
  unfold ConceptIncomplete at h
  simp only [printing_to_supplying, if_pos h]

theorem printing_to_supplying_deny (stub : ChaincodeStub) (c : Chocolates)
    (caller : String) (ca : Int) (rn : String) (ra : Int) (h : ¬ ConceptIncomplete c)
    (hg : ¬ PrintingToSupplyingGuard c caller ca ra) :
    printing_to_supplying stub c caller ca rn ra =
      (stub, .error (errors_New "Permission denied")) := by
  unfold ConceptIncomplete at h
  unfold PrintingToSupplyingGuard at hg
  simp only [printing_to_supplying, if_neg h, if_neg hg]

theorem printing_to_supplying_pass (stub : ChaincodeStub) (c : Chocolates)
    (caller : String) (ca : Int) (rn : String) (ra : Int) (h : ¬ ConceptIncomplete c)
    (hg : PrintingToSupplyingGuard c caller ca ra) (hput : stub.putErr c.ChocoID = false) :
    printing_to_supplying stub c caller ca rn ra =
      (stub.put c.ChocoID (json_Marshal { c with Owner := rn, Status := STATE_SUPPLYING }),
        .ok none) := by
  have hs := save_changes_ok stub { c with Owner := rn, Status := STATE_SUPPLYING } hput
  unfold ConceptIncomplete at h
  unfold PrintingToSupplyingGuard at hg
  simp only [printing_to_supplying, if_neg h, if_pos hg, hs]
  rfl

theorem rejected_of_eq {stub : ChaincodeStub} {out : ChaincodeStub × Result} {e : GoError}
    (h : out = (stub, .error e)) : Rejected stub out := by
  subst h
  exact ⟨rfl, rfl⟩

theorem printing_to_supplying_rejected (stub : ChaincodeStub) (c : Chocolates)
    (caller : String) (ca : Int) (rn : String) (ra : Int)
    (hg : ¬ PrintingToSupplyingGuard c caller ca ra) :
    Rejected stub (printing_to_supplying stub c caller ca rn ra) := by
  by_cases h : ConceptIncomplete c
  · exact rejected_of_eq (printing_to_supplying_undefined stub c caller ca rn ra h)
  · exact rejected_of_eq (printing_to_supplying_deny stub c caller ca rn ra h hg)

/-- C2: each of the six transitions, called by someone who is not the owner, or with a
caller role or a recipient role other than the pair the transition requires, returns an
error and leaves the whole ledger (so the stored status and owner) as it was. -/
theorem transition_denied (K : VehicleConstants) (stub : ChaincodeStub) (c : Chocolates)
    (v : Vehicle) (caller : String) (ca : Int) (rn : String) (ra : Int) :
    ((c.Owner ≠ caller ∨ ca ≠ DU_RHONE ∨ ra ≠ PRINTER) →
      Rejected stub (concepting_to_printing stub c caller ca rn ra)) ∧
    ((c.Owner ≠ caller ∨ ca ≠ PRINTER ∨ ra ≠ SUPPLIER) →
      Rejected stub (printing_to_supplying stub c caller ca rn ra)) ∧
    ((v.Owner ≠ caller ∨ ca ≠ K.PRIVATE_ENTITY ∨ ra ≠ K.PRIVATE_ENTITY) →
      Rejected stub (private_to_private K stub v caller ca rn ra)) ∧
    ((v.Owner ≠ caller ∨ ca ≠ K.PRIVATE_ENTITY ∨ ra ≠ K.LEASE_COMPANY) →
      Rejected stub (private_to_lease_company K stub v caller ca rn ra)) ∧
    ((v.Owner ≠ caller ∨ ca ≠ K.LEASE_COMPANY ∨ ra ≠ K.PRIVATE_ENTITY) →
      Rejected stub (lease_company_to_private K stub v caller ca rn ra)) ∧
    ((v.Owner ≠ caller ∨ ca ≠ K.PRIVATE_ENTITY ∨ ra ≠ K.SCRAP_MERCHANT) →
      Rejected stub (private_to_scrap_merchant K stub v caller ca rn ra)) := by
  refine ⟨fun h => ?_, fun h => ?_, fun h => ?_, fun h => ?_, fun h => ?_, fun h => ?_⟩
  · refine rejected_of_eq (concepting_to_printing_deny stub c caller ca rn ra ?_)
    rintro ⟨_, h2, h3, h4, _⟩
    rcases h with h | h | h
    exacts [h h2, h h3, h h4]
  · refine printing_to_supplying_rejected stub c caller ca rn ra ?_
    rintro ⟨_, h2, h3, h4, _⟩
    rcases h with h | h | h
    exacts [h h2, h h3, h h4]
  · have hg : ¬ (v.Status = K.STATE_PRIVATE_OWNERSHIP ∧ v.Owner = caller ∧
        ca = K.PRIVATE_ENTITY ∧ ra = K.PRIVATE_ENTITY ∧ v.Scrapped = false) := by
      rintro ⟨_, h2, h3, h4, _⟩
      rcases h with h | h | h
      exacts [h h2, h h3, h h4]
    refine rejected_of_eq (e := errors_New "Permission denied") ?_
    simp only [private_to_private, if_neg hg]
  · have hg : ¬ (v.Status = K.STATE_PRIVATE_OWNERSHIP ∧ v.Owner = caller ∧
        ca = K.PRIVATE_ENTITY ∧ ra = K.LEASE_COMPANY ∧ v.Scrapped = false) := by
      rintro ⟨_, h2, h3, h4, _⟩
      rcases h with h | h | h
      exacts [h h2, h h3, h h4]
    refine rejected_of_eq (e := errors_New "Permission denied") ?_
    simp only [private_to_lease_company, if_neg hg]
  · have hg : ¬ (v.Status = K.STATE_PRIVATE_OWNERSHIP ∧ v.Owner = caller ∧
        ca = K.LEASE_COMPANY ∧ ra = K.PRIVATE_ENTITY ∧ v.Scrapped = false) := by
      rintro ⟨_, h2, h3, h4, _⟩
      rcases h with h | h | h
      exacts [h h2, h h3, h h4]
    refine rejected_of_eq (e := errors_New "Permission denied") ?_
    simp only [lease_company_to_private, if_neg hg]
  · have hg : ¬ (v.Status = K.STATE_PRIVATE_OWNERSHIP ∧ v.Owner = caller ∧
        ca = K.PRIVATE_ENTITY ∧ ra = K.SCRAP_MERCHANT ∧ v.Scrapped = false) := by
      rintro ⟨_, h2, h3, h4, _⟩
      rcases h with h | h | h
      exacts [h h2, h h3, h h4]
    refine rejected_of_eq (e := errors_New "Permission denied") ?_
    simp only [private_to_scrap_merchant, if_neg hg]

/-- The witness of C2: a caller who is not the owner, on each of the six transitions. -/
theorem transition_denied_witness :
    Rejected emptyStub (concepting_to_printing emptyStub (conceptRecord "AB1234567" "alice")
      "mallory" DU_RHONE "bob" PRINTER) ∧
    Rejected emptyStub (printing_to_supplying emptyStub (conceptRecord "AB1234567" "alice")
      "mallory" PRINTER "bob" SUPPLIER) ∧
    Rejected emptyStub (private_to_private carLeaseConstants emptyStub privateVehicle
      "mallory" 3 "bob" 3) ∧
    Rejected emptyStub (private_to_lease_company carLeaseConstants emptyStub privateVehicle
      "mallory" 3 "bob" 4) ∧
    Rejected emptyStub (lease_company_to_private carLeaseConstants emptyStub privateVehicle
      "mallory" 4 "bob" 3) ∧
    Rejected emptyStub (private_to_scrap_merchant carLeaseConstants emptyStub privateVehicle
      "mallory" 3 "bob" 5) :=
  ⟨(transition_denied carLeaseConstants emptyStub (conceptRecord "AB1234567" "alice")
      privateVehicle "mallory" DU_RHONE "bob" PRINTER).1 (Or.inl (by decide)),
    (transition_denied carLeaseConstants emptyStub (conceptRecord "AB1234567" "alice")
      privateVehicle "mallory" PRINTER "bob" SUPPLIER).2.1 (Or.inl (by decide)),
    (transition_denied carLeaseConstants emptyStub (conceptRecord "AB1234567" "alice")
      privateVehicle "mallory" 3 "bob" 3).2.2.1 (Or.inl (by decide)),
    (transition_denied carLeaseConstants emptyStub (conceptRecord "AB1234567" "alice")
      privateVehicle "mallory" 3 "bob" 4).2.2.2.1 (Or.inl (by decide)),
    (transition_denied carLeaseConstants emptyStub (conceptRecord "AB1234567" "alice")
      privateVehicle "mallory" 4 "bob" 3).2.2.2.2.1 (Or.inl (by decide)),
    (transition_denied carLeaseConstants emptyStub (conceptRecord "AB1234567" "alice")
      privateVehicle "mallory" 3 "bob" 5).2.2.2.2.2 (Or.inl (by decide))⟩

/-- C5 (as stated, refuted): a record in the concept stage with every concept-phase
field still undefined passes `concepting_to_printing`; no incomplete-record error is
raised and the record is rewritten. -/
theorem concepting_to_printing_incomplete_passes :
    ConceptIncomplete (conceptRecord "AB1234567" "alice") ∧
    (conceptRecord "AB1234567" "alice").Status = STATE_CONCEPTING ∧
    concepting_to_printing emptyStub (conceptRecord "AB1234567" "alice") "alice" DU_RHONE
        "bob" PRINTER =
      (emptyStub.put "AB1234567" (json_Marshal
        { conceptRecord "AB1234567" "alice" with Owner := "bob", Status := STATE_PRINTING }),
        .ok none) :=
  ⟨Or.inl rfl, rfl,
    concepting_to_printing_pass emptyStub (conceptRecord "AB1234567" "alice") "alice" DU_RHONE
      "bob" PRINTER rfl ⟨rfl, rfl, rfl, rfl, rfl⟩⟩

/-- C5 (amended): `concepting_to_printing` does not look at the concept-phase fields.
For a record in the concept stage with such a field undefined it succeeds, when the
ledger accepts the write, exactly when the owner, caller-role, recipient-role and
not-delivered guards hold, and otherwise returns `Permission Denied` with the ledger
unchanged; the incomplete-record error is raised by the next transition,
`printing_to_supplying`, which leaves the ledger unchanged. -/
theorem concept_fields_checked_at_printing_to_supplying (stub : ChaincodeStub)
    (c : Chocolates) (caller : String) (ca : Int) (rn : String) (ra : Int)
    (hstatus : c.Status = STATE_CONCEPTING) (hinc : ConceptIncomplete c)
    (hput : stub.putErr c.ChocoID = false) :
    ((concepting_to_printing stub c caller ca rn ra).2.succeeded = true ↔
      (c.Owner = caller ∧ ca = DU_RHONE ∧ ra = PRINTER ∧ c.Delivered = false)) ∧
    (¬ (c.Owner = caller ∧ ca = DU_RHONE ∧ ra = PRINTER ∧ c.Delivered = false) →
      concepting_to_printing stub c caller ca rn ra =
        (stub, .error (errors_New "Permission Denied"))) ∧
    printing_to_supplying stub c caller ca rn ra =
      (stub, .error (errors_New "Chocolates not fully defined")) := by
  refine ⟨?_, ?_, printing_to_supplying_undefined stub c caller ca rn ra hinc⟩
  · by_cases hg : c.Owner = caller ∧ ca = DU_RHONE ∧ ra = PRINTER ∧ c.Delivered = false
    · rw [concepting_to_printing_pass stub c caller ca rn ra hput ⟨hstatus, hg⟩]
      exact ⟨fun _ => hg, fun _ => rfl⟩
    · rw [concepting_to_printing_deny stub c caller ca rn ra (fun h => hg h.2)]
      exact ⟨fun h => by simp [Result.succeeded] at h, fun h => absurd h hg⟩
  · intro hg
    exact concepting_to_printing_deny stub c caller ca rn ra (fun h => hg h.2)

/-- The witness of C5 (amended): a fresh concept record. -/
theorem concept_fields_checked_at_printing_to_supplying_witness :
    (conceptRecord "AB1234567" "alice").Status = STATE_CONCEPTING ∧
    ConceptIncomplete (conceptRecord "AB1234567" "alice") ∧
    printing_to_supplying emptyStub (conceptRecord "AB1234567" "alice") "alice" PRINTER
        "bob" SUPPLIER =
      (emptyStub, .error (errors_New "Chocolates not fully defined")) :=
  ⟨rfl, Or.inl rfl,
    (concept_fields_checked_at_printing_to_supplying emptyStub
      (conceptRecord "AB1234567" "alice") "alice" PRINTER "bob" SUPPLIER rfl (Or.inl rfl)
      rfl).2.2⟩

/-- C6: whenever a concept-phase field of the record is undefined,
`printing_to_supplying` returns the error `Chocolates not fully defined` and leaves the
ledger as it was, whatever the status, owner, delivered flag, caller, caller role and
recipient role are. -/
theorem printing_to_supplying_completeness_first (stub : ChaincodeStub) (c : Chocolates)
    (caller : String) (caller_affiliation : Int) (recipient_name : String)
    (recipient_affiliation : Int) (hinc : ConceptIncomplete c) :
    printing_to_supplying stub c caller caller_affiliation recipient_name
        recipient_affiliation =
      (stub, .error (errors_New "Chocolates not fully defined")) :=
  printing_to_supplying_undefined stub c caller caller_affiliation recipient_name
    recipient_affiliation hinc

/-- The witness of C6: a record in the printing stage, owned by the caller, handed by a
printer to a supplier (so the role guard would pass), with no ingredients yet. -/
theorem printing_to_supplying_completeness_first_witness :
    ConceptIncomplete { conceptRecord "AB1234567" "alice" with
      EstablishDate := "1875", Method := "ganache", DateFinalized := "2016-08-03",
      Contributers := some ["watson"], Status := STATE_PRINTING } ∧
    printing_to_supplying emptyStub { conceptRecord "AB1234567" "alice" with
      EstablishDate := "1875", Method := "ganache", DateFinalized := "2016-08-03",
      Contributers := some ["watson"], Status := STATE_PRINTING } "alice" PRINTER "bob"
        SUPPLIER =
      (emptyStub, .error (errors_New "Chocolates not fully defined")) :=
  ⟨Or.inr (Or.inl rfl),
    printing_to_supplying_completeness_first emptyStub _ "alice" PRINTER "bob" SUPPLIER
      (Or.inr (Or.inl rfl))⟩

/-- C7: when the ledger accepts the write, `scrap_vehicle` succeeds exactly when the
record is in `STATE_BEING_SCRAPPED`, is owned by the caller, the caller is a
`SCRAP_MERCHANT` and the record is not scrapped yet; it then returns no payload and the
ledger holds under the record's id the marshalled record with only `Scrapped` set to
true; otherwise it returns `Permission denied` and the ledger is as before. -/
theorem scrap_vehicle_spec (K : VehicleConstants) (stub : ChaincodeStub) (v : Vehicle)
    (caller : String) (caller_affiliation : Int) (hput : stub.putErr v.V5cID = false) :
    ((scrap_vehicle K stub v caller caller_affiliation).2.succeeded = true ↔
      (v.Status = K.STATE_BEING_SCRAPPED ∧ v.Owner = caller ∧
        caller_affiliation = K.SCRAP_MERCHANT ∧ v.Scrapped = false)) ∧
    ((v.Status = K.STATE_BEING_SCRAPPED ∧ v.Owner = caller ∧
        caller_affiliation = K.SCRAP_MERCHANT ∧ v.Scrapped = false) →
      scrap_vehicle K stub v caller caller_affiliation =
        (stub.put v.V5cID (json_Marshal { v with Scrapped := true }), .ok none)) ∧
    (¬ (v.Status = K.STATE_BEING_SCRAPPED ∧ v.Owner = caller ∧
        caller_affiliation = K.SCRAP_MERCHANT ∧ v.Scrapped = false) →
      scrap_vehicle K stub v caller caller_affiliation =
        (stub, .error (errors_New "Permission denied"))) := by
  by_cases hg : v.Status = K.STATE_BEING_SCRAPPED ∧ v.Owner = caller ∧
        caller_affiliation = K.SCRAP_MERCHANT ∧ v.Scrapped = false
  · have hrun : scrap_vehicle K stub v caller caller_affiliation =
        (stub.put v.V5cID (json_Marshal { v with Scrapped := true }), .ok none) := by
      simp only [scrap_vehicle, if_pos hg]
      exact saveVehicle_ok stub { v with Scrapped := true } _ hput
    refine ⟨?_, fun _ => hrun, fun h => absurd hg h⟩
    rw [hrun]
    exact ⟨fun _ => hg, fun _ => rfl⟩
  · have hrun : scrap_vehicle K stub v caller caller_affiliation =
        (stub, .error (errors_New "Permission denied")) := by
      simp only [scrap_vehicle, if_neg hg]
    refine ⟨?_, fun h => absurd h hg, fun _ => hrun⟩
    rw [hrun]
    exact ⟨fun h => by simp [Result.succeeded] at h, fun h => absurd h hg⟩

/-- The witness of C7: a vehicle being scrapped, retired by the scrap merchant who
owns it. -/
theorem scrap_vehicle_spec_witness :
    emptyStub.putErr "AB1234567" = false ∧
    scrap_vehicle carLeaseConstants emptyStub
        { Vehicle.zero with V5cID := "AB1234567", Owner := "sam", Status := 4 } "sam" 5 =
      (emptyStub.put "AB1234567" (json_Marshal
        { Vehicle.zero with V5cID := "AB1234567", Owner := "sam", Status := 4,
                            Scrapped := true }), .ok none) :=
  ⟨rfl, (scrap_vehicle_spec carLeaseConstants emptyStub
      { Vehicle.zero with V5cID := "AB1234567", Owner := "sam", Status := 4 } "sam" 5
      rfl).2.1 ⟨rfl, rfl, rfl, rfl⟩⟩

/-! ### Creation -/

/-- The text that line 374 leaves in `chocoID` starts with a double quote, which the
pattern of line 405 does not admit. -/
theorem regexp_Match_fragment (chocoID : String) :
    regexp_Match ("\"Chocolatier\":\"" ++ chocoID ++ "\", ") = false := by
  have h : ("\"Chocolatier\":\"" ++ chocoID ++ "\", ").toList =
      '"' :: 'C' :: ("hocolatier\":\"".toList ++ chocoID.toList ++ "\", ".toList) := by
    simp only [String.toList, String.data_append]
    rfl
  have hq : decide ('A'.toNat ≤ '"'.toNat ∧ '"'.toNat ≤ 'z'.toNat) = false := by decide
  simp only [regexp_Match, h, hq, Bool.false_and]

theorem create_chocolates_eval (stub : ChaincodeStub) (caller : String) (ca : Int)
    (chocoID : String) :
    create_chocolates stub caller ca chocoID =
      (stub, .error (errors_New "Invalid chocoID provided")) := by
  have h := regexp_Match_fragment chocoID
  simp only [create_chocolates, h]
  simp

/-- C8 (the code at the failing input and at every other): on the ledger left by `Init`,
`create_chocolates` called by a `DU_RHONE` caller returns the error
`Invalid chocoID provided` for every id, well-formed and unused ones included, and
writes nothing; so no created asset can show up in a listing. -/
theorem create_chocolates_after_Init_fails (stub : ChaincodeStub) (function : String)
    (args : List String) (caller chocoID : String) :
    (create_chocolates (Init stub function args).1 caller DU_RHONE chocoID).2.errorMsg =
      some "Invalid chocoID provided" ∧
    (create_chocolates (Init stub function args).1 caller DU_RHONE chocoID).1 =
      (Init stub function args).1 := by
  rw [create_chocolates_eval]
  exact ⟨rfl, rfl⟩

/-- C9 (the code at the failing inputs): the id `AB1234567` has the format of the
specification and is rejected by `create_chocolates`, whose format check looks at the
text line 374 has put in `chocoID`; and the pattern itself is not the format either,
since it admits `AB12345678` (what follows the seventh digit is not looked at) and
`[_1234567` (`[A-z]` is wider than the letters). -/
theorem create_chocolates_id_check :
    WellFormedId "AB1234567" = true ∧
    (create_chocolates emptyStub "alice" DU_RHONE "AB1234567").2.errorMsg =
      some "Invalid chocoID provided" ∧
    WellFormedId "AB12345678" = false ∧ regexp_Match "AB12345678" = true ∧
    WellFormedId "[_1234567" = false ∧ regexp_Match "[_1234567" = true := by
  refine ⟨by decide, ?_, by decide, by decide, by decide, by decide⟩
  rw [create_chocolates_eval]
  rfl

/-- C10: `create_chocolates` called with an id that is not of the format, or by a caller
whose role is not `DU_RHONE`, returns an error and leaves the whole ledger (the index
and every stored record) as it was. -/
theorem create_chocolates_rejects (stub : ChaincodeStub) (caller : String)
    (caller_affiliation : Int) (chocoID : String)
    (_h : WellFormedId chocoID = false ∨ caller_affiliation ≠ DU_RHONE) :
    (create_chocolates stub caller caller_affiliation chocoID).2.succeeded = false ∧
    (create_chocolates stub caller caller_affiliation chocoID).1 = stub := by
  rw [create_chocolates_eval]
  exact ⟨rfl, rfl⟩

/-- The witness of C10: a malformed id from a printer. -/
theorem create_chocolates_rejects_witness :
    (WellFormedId "choc-1" = false ∨ PRINTER ≠ DU_RHONE) ∧
    (create_chocolates emptyStub "bob" PRINTER "choc-1").2.succeeded = false ∧
    (create_chocolates emptyStub "bob" PRINTER "choc-1").1 = emptyStub :=
  ⟨Or.inl (by decide),
    create_chocolates_rejects emptyStub "bob" PRINTER "choc-1" (Or.inl (by decide))⟩

/-! ### Decoding what was marshalled -/

theorem decodeElems_str (l : List String) :
    ∀ old : List String, decodeElems (l.map Json.str) old = l := by
  induction l with
  | nil => exact fun _ => rfl
  | cons s l ih =>
    intro old
    cases old with
    | nil =>
      show (decodeString (.str s) "").1 :: decodeElems (l.map Json.str) [] = s :: l
      rw [ih]
      rfl
    | cons o os =>
      show (decodeString (.str s) o).1 :: decodeElems (l.map Json.str) os = s :: l
      rw [ih]
      rfl

theorem decodeElems_no_error (l : List String) :
    (l.map Json.str).any (fun e => (decodeString e "").2) = false := by
  induction l with
  | nil => rfl
  | cons s l ih =>
    show ((decodeString (.str s) "").2 || (l.map Json.str).any fun e => (decodeString e "").2) =
      false
    rw [ih]
    rfl

theorem decodeStrings_toJson (xs old : StringSlice) :
    decodeStrings xs.toJson old = (xs, false) := by
  cases xs with
  | none => rfl
  | some l =>
    show (some (decodeElems (l.map Json.str) old.elems),
      (l.map Json.str).any fun e => (decodeString e "").2) = (some l, false)
    rw [decodeElems_str, decodeElems_no_error]

theorem decodeInt_num (n old : Int) (h : FitsInt n) : decodeInt (.num n) old = (n, false) := by
  unfold FitsInt at h
  simp only [decodeInt, if_pos h]

theorem setMember_Chocolates_Chocolatier (c : Chocolates) (j : Json) :
    Chocolates.setMember c "chocolatier" j =
      ({ c with Chocolatier := (decodeString j c.Chocolatier).1 }, (decodeString j c.Chocolatier).2) := rfl

theorem setMember_Chocolates_EstablishDate (c : Chocolates) (j : Json) :
    Chocolates.setMember c "establishDate" j =
      ({ c with EstablishDate := (decodeString j c.EstablishDate).1 }, (decodeString j c.EstablishDate).2) := rfl

theorem setMember_Chocolates_ChocoID (c : Chocolates) (j : Json) :
    Chocolates.setMember c "ID" j =
      ({ c with ChocoID := (decodeString j c.ChocoID).1 }, (decodeString j c.ChocoID).2) := rfl

theorem setMember_Chocolates_BoxOrderDate (c : Chocolates) (j : Json) :
    Chocolates.setMember c "boxOrderDate" j =
      ({ c with BoxOrderDate := (decodeString j c.BoxOrderDate).1 }, (decodeString j c.BoxOrderDate).2) := rfl

theorem setMember_Chocolates_BoxDelvDate (c : Chocolates) (j : Json) :
    Chocolates.setMember c "boxDelvDate" j =
      ({ c with BoxDelvDate := (decodeString j c.BoxDelvDate).1 }, (decodeString j c.BoxDelvDate).2) := rfl

theorem setMember_Chocolates_IngredOrigin (c : Chocolates) (j : Json) :
    Chocolates.setMember c "ingredOrigin" j =
      ({ c with IngredOrigin := (decodeString j c.IngredOrigin).1 }, (decodeString j c.IngredOrigin).2) := rfl

theorem setMember_Chocolates_Contributers (c : Chocolates) (j : Json) :
    Chocolates.setMember c "contributers" j =
      ({ c with Contributers := (decodeStrings j c.Contributers).1 }, (decodeStrings j c.Contributers).2) := rfl

theorem setMember_Chocolates_Ingredients (c : Chocolates) (j : Json) :
    Chocolates.setMember c "ingredients" j =
      ({ c with Ingredients := (decodeStrings j c.Ingredients).1 }, (decodeStrings j c.Ingredients).2) := rfl

theorem setMember_Chocolates_Method (c : Chocolates) (j : Json) :
    Chocolates.setMember c "method" j =
      ({ c with Method := (decodeString j c.Method).1 }, (decodeString j c.Method).2) := rfl

theorem setMember_Chocolates_Test (c : Chocolates) (j : Json) :
    Chocolates.setMember c "test" j =
      ({ c with Test := (decodeString j c.Test).1 }, (decodeString j c.Test).2) := rfl

theorem setMember_Chocolates_Testers (c : Chocolates) (j : Json) :
    Chocolates.setMember c "testers" j =
      ({ c with Testers := (decodeStrings j c.Testers).1 }, (decodeStrings j c.Testers).2) := rfl

theorem setMember_Chocolates_Revisions (c : Chocolates) (j : Json) :
    Chocolates.setMember c "revisions" j =
      ({ c with Revisions := (decodeStrings j c.Revisions).1 }, (decodeStrings j c.Revisions).2) := rfl

theorem setMember_Chocolates_TestDate (c : Chocolates) (j : Json) :
    Chocolates.setMember c "testDate" j =
      ({ c with TestDate := (decodeString j c.TestDate).1 }, (decodeString j c.TestDate).2) := rfl

theorem setMember_Chocolates_DateFinalized (c : Chocolates) (j : Json) :
    Chocolates.setMember c "dateFinalized" j =
      ({ c with DateFinalized := (decodeString j c.DateFinalized).1 }, (decodeString j c.DateFinalized).2) := rfl

theorem setMember_Chocolates_DateProduced (c : Chocolates) (j : Json) :
    Chocolates.setMember c "dateProduced" j =
      ({ c with DateProduced := (decodeString j c.DateProduced).1 }, (decodeString j c.DateProduced).2) := rfl

theorem setMember_Chocolates_DatePackaged (c : Chocolates) (j : Json) :
    Chocolates.setMember c "datePackaged" j =
      ({ c with DatePackaged := (decodeString j c.DatePackaged).1 }, (decodeString j c.DatePackaged).2) := rfl

theorem setMember_Chocolates_DateArrived (c : Chocolates) (j : Json) :
    Chocolates.setMember c "dateArrived" j =
      ({ c with DateArrived := (decodeString j c.DateArrived).1 }, (decodeString j c.DateArrived).2) := rfl

theorem setMember_Chocolates_DelivererID (c : Chocolates) (j : Json) :
    Chocolates.setMember c "delivererID" j =
      ({ c with DelivererID := (decodeString j c.DelivererID).1 }, (decodeString j c.DelivererID).2) := rfl

theorem setMember_Chocolates_Owner (c : Chocolates) (j : Json) :
    Chocolates.setMember c "owner" j =
      ({ c with Owner := (decodeString j c.Owner).1 }, (decodeString j c.Owner).2) := rfl

theorem setMember_Chocolates_Delivered (c : Chocolates) (j : Json) :
    Chocolates.setMember c "delivered" j =
      ({ c with Delivered := (decodeBool j c.Delivered).1 }, (decodeBool j c.Delivered).2) := rfl

theorem setMember_Chocolates_Status (c : Chocolates) (j : Json) :
    Chocolates.setMember c "status" j =
      ({ c with Status := (decodeInt j c.Status).1 }, (decodeInt j c.Status).2) := rfl

theorem setMember_Vehicle_V5cID (v : Vehicle) (j : Json) :
    Vehicle.setMember v "v5cID" j =
      ({ v with V5cID := (decodeString j v.V5cID).1 }, (decodeString j v.V5cID).2) := rfl

theorem setMember_Vehicle_VIN (v : Vehicle) (j : Json) :
    Vehicle.setMember v "VIN" j =
      ({ v with VIN := (decodeInt j v.VIN).1 }, (decodeInt j v.VIN).2) := rfl

theorem setMember_Vehicle_Make (v : Vehicle) (j : Json) :
    Vehicle.setMember v "make" j =
      ({ v with Make := (decodeString j v.Make).1 }, (decodeString j v.Make).2) := rfl

theorem setMember_Vehicle_Model (v : Vehicle) (j : Json) :
    Vehicle.setMember v "model" j =
      ({ v with Model := (decodeString j v.Model).1 }, (decodeString j v.Model).2) := rfl

theorem setMember_Vehicle_Reg (v : Vehicle) (j : Json) :
    Vehicle.setMember v "reg" j =
      ({ v with Reg := (decodeString j v.Reg).1 }, (decodeString j v.Reg).2) := rfl

theorem setMember_Vehicle_Colour (v : Vehicle) (j : Json) :
    Vehicle.setMember v "colour" j =
      ({ v with Colour := (decodeString j v.Colour).1 }, (decodeString j v.Colour).2) := rfl

theorem setMember_Vehicle_Owner (v : Vehicle) (j : Json) :
    Vehicle.setMember v "owner" j =
      ({ v with Owner := (decodeString j v.Owner).1 }, (decodeString j v.Owner).2) := rfl

theorem setMember_Vehicle_Scrapped (v : Vehicle) (j : Json) :
    Vehicle.setMember v "scrapped" j =
      ({ v with Scrapped := (decodeBool j v.Scrapped).1 }, (decodeBool j v.Scrapped).2) := rfl

theorem setMember_Vehicle_Status (v : Vehicle) (j : Json) :
    Vehicle.setMember v "status" j =
      ({ v with Status := (decodeInt j v.Status).1 }, (decodeInt j v.Status).2) := rfl

theorem unmarshal_marshal_Chocolates (c : Chocolates) (h : FitsInt c.Status) :
    json_Unmarshal (some (json_Marshal c)) Chocolates.zero =
      ({ c with IngredOrderDate := "", IngredDelvDate := "" }, false) := by
  cases c
  simp only [json_Unmarshal, json_Marshal, Record.members, Chocolates.members, List.foldl,
    Record.setMember, setMember_Chocolates_Chocolatier, setMember_Chocolates_EstablishDate,
    setMember_Chocolates_ChocoID, setMember_Chocolates_BoxOrderDate,
    setMember_Chocolates_BoxDelvDate, setMember_Chocolates_IngredOrigin,
    setMember_Chocolates_Contributers, setMember_Chocolates_Ingredients,
    setMember_Chocolates_Method, setMember_Chocolates_Test, setMember_Chocolates_Testers,
    setMember_Chocolates_Revisions, setMember_Chocolates_TestDate,
    setMember_Chocolates_DateFinalized, setMember_Chocolates_DateProduced,
    setMember_Chocolates_DatePackaged, setMember_Chocolates_DateArrived,
    setMember_Chocolates_DelivererID, setMember_Chocolates_Owner,
    setMember_Chocolates_Delivered, setMember_Chocolates_Status, decodeStrings_toJson,
    decodeInt_num _ _ h, decodeString, decodeBool, Bool.or_false]
  rfl

theorem unmarshal_marshal_Vehicle (v : Vehicle) (h : FitsInt v.Status) (h2 : FitsInt v.VIN) :
    json_Unmarshal (some (json_Marshal v)) Vehicle.zero = (v, false) := by
  cases v
  simp only [json_Unmarshal, json_Marshal, Record.members, Vehicle.members, List.foldl,
    Record.setMember, setMember_Vehicle_V5cID, setMember_Vehicle_VIN, setMember_Vehicle_Make,
    setMember_Vehicle_Model, setMember_Vehicle_Reg, setMember_Vehicle_Colour,
    setMember_Vehicle_Owner, setMember_Vehicle_Scrapped, setMember_Vehicle_Status,
    decodeInt_num _ _ h, decodeInt_num _ _ h2, decodeString, decodeBool, Bool.or_false]

/-! ### The ledger after a write -/

theorem stored_put (α : Type) [Record α] (stub : ChaincodeStub) (key : String) (bytes : Bytes)
    (k : String) :
    stored α (stub.put key bytes) k =
      if k = key then
        (if (json_Unmarshal (some bytes) (Record.zero : α)).2 then none
          else some (json_Unmarshal (some bytes) (Record.zero : α)).1)
      else stored α stub k := by
  by_cases h : k = key
  · simp [stored, ChaincodeStub.put, h]
  · simp [stored, ChaincodeStub.put, h]

theorem rewrites_touches {α : Type} [Asset α] {owner : α → String} {status : α → Int}
    {retired : α → Bool} {caller : String} {stub stub1 : ChaincodeStub}
    (hstep : Rewrites α owner status retired caller stub stub1) :
    Touches α owner retired caller stub stub1 := by
  rcases hstep with h | ⟨target, r, bytes, r1, hr, hown, hnot, hput, hdec, hkey, _⟩
  · exact Or.inl h
  · refine Or.inr ⟨target, r, bytes, hr, hown, hnot, hput, fun x hx => ?_⟩
    rw [hdec] at hx
    rw [← (Prod.mk.inj hx).1]
    exact hkey

theorem touches_filed {α : Type} [Asset α] {owner : α → String}
    {retired : α → Bool} {caller : String} {stub stub1 : ChaincodeStub}
    (hstep : Touches α owner retired caller stub stub1)
    (hfiled : FiledUnderOwnId α owner stub) : FiledUnderOwnId α owner stub1 := by
  rcases hstep with h | ⟨target, r, bytes, _, _, _, hput, hkey⟩
  · rw [h]
    exact hfiled
  · intro k x hx hown
    rw [hput, stored_put] at hx
    by_cases hk : k = Asset.key r
    · rw [if_pos hk] at hx
      by_cases hu : (json_Unmarshal (some bytes) (Record.zero : α)).2 = true
      · rw [if_pos hu] at hx
        exact Option.noConfusion hx
      · rw [if_neg hu] at hx
        simp only [Option.some.injEq] at hx
        have hdec : json_Unmarshal (some bytes) (Record.zero : α) = (x, false) := by
          rw [← hx]
          exact Prod.ext rfl (by simpa using hu)
        rw [hkey x hdec, hk]
    · rw [if_neg hk] at hx
      exact hfiled k x hx hown

/-! ### Sequences of operations -/

theorem runAll_filed {α Op : Type} [Asset α] {owner : α → String}
    {retired : α → Bool} (run : ChaincodeStub → Op → ChaincodeStub × Result)
    (caller : Op → String)
    (hrun : ∀ stub op, Touches α owner retired (caller op) stub (run stub op).1)
    (ops : List Op) (stub : ChaincodeStub) (hfiled : FiledUnderOwnId α owner stub) :
    FiledUnderOwnId α owner (runAll run stub ops).1 := by
  induction ops generalizing stub with
  | nil => exact hfiled
  | cons op ops ih => exact ih (run stub op).1 (touches_filed (hrun stub op) hfiled)

/-! ### What was loaded fits in a Go `int` -/

theorem decodeInt_fits (j : Json) (old : Int) (h : FitsInt old) :
    FitsInt (decodeInt j old).1 := by
  unfold decodeInt
  split
  · split_ifs with hn
    · exact hn
    · exact h
  · exact h
  · exact h

theorem json_Unmarshal_invariant {α : Type} [Record α] (P : α → Prop)
    (hstep : ∀ a k j, P a → P (Record.setMember a k j).1) (data : Option Bytes) (c : α)
    (h : P c) : P (json_Unmarshal data c).1 := by
  have hfold : ∀ (members : List (String × Json)) (acc : α × Bool), P acc.1 →
      P (members.foldl (fun acc m => ((Record.setMember acc.1 m.1 m.2).1,
        acc.2 || (Record.setMember acc.1 m.1 m.2).2)) acc).1 := by
    intro members
    induction members with
    | nil => exact fun _ hacc => hacc
    | cons m ms ih => exact fun acc hacc => ih _ (hstep acc.1 m.1 m.2 hacc)
  unfold json_Unmarshal
  split
  · exact h
  · exact h
  · exact h
  · exact hfold _ _ h
  · exact h

theorem setMember_Chocolates_fits (c : Chocolates) (key : String) (j : Json)
    (h : FitsInt c.Status) : FitsInt (Chocolates.setMember c key j).1.Status := by
  unfold Chocolates.setMember
  by_cases h0 : keyIs key "chocolatier" = true
  · rw [if_pos h0]
    exact h
  rw [if_neg h0]
  by_cases h1 : keyIs key "establishDate" = true
  · rw [if_pos h1]
    exact h
  rw [if_neg h1]
  by_cases h2 : keyIs key "ID" = true
  · rw [if_pos h2]
    exact h
  rw [if_neg h2]
  by_cases h3 : keyIs key "boxOrderDate" = true
  · rw [if_pos h3]
    exact h
  rw [if_neg h3]
  by_cases h4 : keyIs key "boxDelvDate" = true
  · rw [if_pos h4]
    exact h
  rw [if_neg h4]
  by_cases h5 : keyIs key "ingredOrigin" = true
  · rw [if_pos h5]
    exact h
  rw [if_neg h5]
  by_cases h6 : keyIs key "contributers" = true
  · rw [if_pos h6]
    exact h
  rw [if_neg h6]
  by_cases h7 : keyIs key "ingredients" = true
  · rw [if_pos h7]
    exact h
  rw [if_neg h7]
  by_cases h8 : keyIs key "method" = true
  · rw [if_pos h8]
    exact h
  rw [if_neg h8]
  by_cases h9 : keyIs key "test" = true
  · rw [if_pos h9]
    exact h
  rw [if_neg h9]
  by_cases h10 : keyIs key "testers" = true
  · rw [if_pos h10]
    exact h
  rw [if_neg h10]
  by_cases h11 : keyIs key "revisions" = true
  · rw [if_pos h11]
    exact h
  rw [if_neg h11]
  by_cases h12 : keyIs key "testDate" = true
  · rw [if_pos h12]
    exact h
  rw [if_neg h12]
  by_cases h13 : keyIs key "dateFinalized" = true
  · rw [if_pos h13]
    exact h
  rw [if_neg h13]
  by_cases h14 : keyIs key "dateProduced" = true
  · rw [if_pos h14]
    exact h
  rw [if_neg h14]
  by_cases h15 : keyIs key "datePackaged" = true
  · rw [if_pos h15]
    exact h
  rw [if_neg h15]
  by_cases h16 : keyIs key "dateArrived" = true
  · rw [if_pos h16]
    exact h
  rw [if_neg h16]
  by_cases h17 : keyIs key "delivererID" = true
  · rw [if_pos h17]
    exact h
  rw [if_neg h17]
  by_cases h18 : keyIs key "owner" = true
  · rw [if_pos h18]
    exact h
  rw [if_neg h18]
  by_cases h19 : keyIs key "delivered" = true
  · rw [if_pos h19]
    exact h
  rw [if_neg h19]
  by_cases h20 : keyIs key "status" = true
  · rw [if_pos h20]
    exact decodeInt_fits j c.Status h
  rw [if_neg h20]
  exact h

theorem setMember_Vehicle_fits (v : Vehicle) (key : String) (j : Json)
    (h : FitsInt v.Status ∧ FitsInt v.VIN) :
    FitsInt (Vehicle.setMember v key j).1.Status ∧ FitsInt (Vehicle.setMember v key j).1.VIN := by
  unfold Vehicle.setMember
  by_cases h0 : keyIs key "v5cID" = true
  · rw [if_pos h0]
    exact h
  rw [if_neg h0]
  by_cases h1 : keyIs key "VIN" = true
  · rw [if_pos h1]
    exact ⟨h.1, decodeInt_fits j v.VIN h.2⟩
  rw [if_neg h1]
  by_cases h2 : keyIs key "make" = true
  · rw [if_pos h2]
    exact h
  rw [if_neg h2]
  by_cases h3 : keyIs key "model" = true
  · rw [if_pos h3]
    exact h
  rw [if_neg h3]
  by_cases h4 : keyIs key "reg" = true
  · rw [if_pos h4]
    exact h
  rw [if_neg h4]
  by_cases h5 : keyIs key "colour" = true
  · rw [if_pos h5]
    exact h
  rw [if_neg h5]
  by_cases h6 : keyIs key "owner" = true
  · rw [if_pos h6]
    exact h
  rw [if_neg h6]
  by_cases h7 : keyIs key "scrapped" = true
  · rw [if_pos h7]
    exact h
  rw [if_neg h7]
  by_cases h8 : keyIs key "status" = true
  · rw [if_pos h8]
    exact ⟨decodeInt_fits j v.Status h.1, h.2⟩
  rw [if_neg h8]
  exact h

theorem fitsInt_zero : FitsInt 0 := by
  unfold FitsInt
  decide

theorem stored_Chocolates_fits (stub : ChaincodeStub) (key : String) (c : Chocolates)
    (h : stored Chocolates stub key = some c) : FitsInt c.Status := by
  unfold stored at h
  split_ifs at h
  simp only [Option.some.injEq] at h
  rw [← h]
  exact json_Unmarshal_invariant (fun c : Chocolates => FitsInt c.Status)
    (fun a k j ha => setMember_Chocolates_fits a k j ha) _ _ fitsInt_zero

theorem stored_Vehicle_fits (stub : ChaincodeStub) (key : String) (v : Vehicle)
    (h : stored Vehicle stub key = some v) : FitsInt v.Status ∧ FitsInt v.VIN := by
  unfold stored at h
  split_ifs at h
  simp only [Option.some.injEq] at h
  rw [← h]
  exact json_Unmarshal_invariant (fun v : Vehicle => FitsInt v.Status ∧ FitsInt v.VIN)
    (fun a k j ha => setMember_Vehicle_fits a k j ha) _ _ ⟨fitsInt_zero, fitsInt_zero⟩

/-! ### One operation, seen from the ledger -/

theorem retrieve_chocoID_loaded (stub : ChaincodeStub) (chocoID : String) (c : Chocolates)
    (h : retrieve_chocoID stub chocoID = (c, none)) :
    stored Chocolates stub chocoID = some c := by
  unfold retrieve_chocoID ChaincodeStub.GetState at h
  by_cases hg : stub.getErr chocoID = true
  · simp [hg] at h
  · simp only [hg, Bool.false_eq_true, if_false] at h
    by_cases hu : (json_Unmarshal (stub.state chocoID) Chocolates.zero).2 = true
    · simp [hu] at h
    · simp only [hu, Bool.false_eq_true, if_false, Prod.mk.injEq, and_true] at h
      show (if (json_Unmarshal (stub.state chocoID) Chocolates.zero).2 = true then none
        else some (json_Unmarshal (stub.state chocoID) Chocolates.zero).1) = some c
      rw [if_neg hu]
      exact congrArg some h

theorem retrieve_v5c_loaded (stub : ChaincodeStub) (v5cID : String) (v : Vehicle)
    (h : retrieve_v5c stub v5cID = (v, none)) :
    stored Vehicle stub v5cID = some v := by
  unfold retrieve_v5c ChaincodeStub.GetState at h
  by_cases hg : stub.getErr v5cID = true
  · simp [hg] at h
  · simp only [hg, Bool.false_eq_true, if_false] at h
    cases hs : stub.state v5cID with
    | none => simp [hs] at h
    | some bytes =>
      simp only [hs] at h
      by_cases hu : (json_Unmarshal (some bytes) Vehicle.zero).2 = true
      · simp [hu] at h
      · simp only [hu, Bool.false_eq_true, if_false, Prod.mk.injEq, and_true] at h
        show (if (json_Unmarshal (stub.state v5cID) Vehicle.zero).2 = true then none
          else some (json_Unmarshal (stub.state v5cID) Vehicle.zero).1) = some v
        rw [hs, if_neg hu]
        exact congrArg some h

theorem concepting_to_printing_refused (stub : ChaincodeStub) (c : Chocolates) (caller : String)
    (ca : Int) (rn : String) (ra : Int) (hput : stub.putErr c.ChocoID = true)
    (hg : ConceptingToPrintingGuard c caller ca ra) :
    concepting_to_printing stub c caller ca rn ra =
      (stub, .error (errors_New "Error saving changes")) := by
  have hs := save_changes_err stub { c with Owner := rn, Status := STATE_PRINTING } hput
  unfold ConceptingToPrintingGuard at hg
  simp only [concepting_to_printing, if_pos hg, hs]

theorem printing_to_supplying_refused (stub : ChaincodeStub) (c : Chocolates)
    (caller : String) (ca : Int) (rn : String) (ra : Int) (h : ¬ ConceptIncomplete c)
    (hg : PrintingToSupplyingGuard c caller ca ra) (hput : stub.putErr c.ChocoID = true) :
    printing_to_supplying stub c caller ca rn ra =
      (stub, .error (errors_New "Error saving changes")) := by
  have hs := save_changes_err stub { c with Owner := rn, Status := STATE_SUPPLYING } hput
  unfold ConceptIncomplete at h
  unfold PrintingToSupplyingGuard at hg
  simp only [printing_to_supplying, if_neg h, if_pos hg, hs]

theorem fitsInt_one : FitsInt 1 := by
  unfold FitsInt
  decide

theorem fitsInt_two : FitsInt 2 := by
  unfold FitsInt
  decide

theorem concepting_to_printing_rewrites (stub : ChaincodeStub) (target : String)
    (c : Chocolates) (caller : String) (ca : Int) (rn : String) (ra : Int)
    (hc : stored Chocolates stub target = some c) :
    Rewrites Chocolates Chocolates.Owner Chocolates.Status Chocolates.Delivered caller stub
      (concepting_to_printing stub c caller ca rn ra).1 := by
  by_cases hg : ConceptingToPrintingGuard c caller ca ra
  · by_cases hp : stub.putErr c.ChocoID = true
    · rw [concepting_to_printing_refused stub c caller ca rn ra hp hg]
      exact Or.inl rfl
    · rw [concepting_to_printing_pass stub c caller ca rn ra (by simpa using hp) hg]
      refine Or.inr ⟨target, c, _, _, hc, hg.2.1, hg.2.2.2.2, rfl,
        unmarshal_marshal_Chocolates _ fitsInt_one, rfl, ?_⟩
      show c.Status ≤ STATE_PRINTING
      rw [hg.1]
      decide
  · rw [concepting_to_printing_deny stub c caller ca rn ra hg]
    exact Or.inl rfl

theorem printing_to_supplying_rewrites (stub : ChaincodeStub) (target : String)
    (c : Chocolates) (caller : String) (ca : Int) (rn : String) (ra : Int)
    (hc : stored Chocolates stub target = some c) :
    Rewrites Chocolates Chocolates.Owner Chocolates.Status Chocolates.Delivered caller stub
      (printing_to_supplying stub c caller ca rn ra).1 := by
  by_cases hi : ConceptIncomplete c
  · rw [printing_to_supplying_undefined stub c caller ca rn ra hi]
    exact Or.inl rfl
  by_cases hg : PrintingToSupplyingGuard c caller ca ra
  · by_cases hp : stub.putErr c.ChocoID = true
    · rw [printing_to_supplying_refused stub c caller ca rn ra hi hg hp]
      exact Or.inl rfl
    · rw [printing_to_supplying_pass stub c caller ca rn ra hi hg (by simpa using hp)]
      refine Or.inr ⟨target, c, _, _, hc, hg.2.1, hg.2.2.2.2, rfl,
        unmarshal_marshal_Chocolates _ fitsInt_two, rfl, ?_⟩
      show c.Status ≤ STATE_SUPPLYING
      rw [hg.1]
      decide
  · rw [printing_to_supplying_deny stub c caller ca rn ra hi hg]
    exact Or.inl rfl

theorem run_rewrites_Chocolates (stub : ChaincodeStub) (op : ChocolatesOp) :
    Rewrites Chocolates Chocolates.Owner Chocolates.Status Chocolates.Delivered op.caller stub
      (op.run stub).1 := by
  cases op with
  | create_chocolates caller ca chocoID =>
    simp only [ChocolatesOp.run, create_chocolates_eval]
    exact Or.inl rfl
  | concepting_to_printing chocoID caller ca rn ra =>
    rcases h : retrieve_chocoID stub chocoID with ⟨c, _ | e⟩
    · simp only [ChocolatesOp.run, h, ChocolatesOp.caller]
      exact concepting_to_printing_rewrites stub chocoID c caller ca rn ra
        (retrieve_chocoID_loaded stub chocoID c h)
    · simp only [ChocolatesOp.run, h]
      exact Or.inl rfl
  | printing_to_supplying chocoID caller ca rn ra =>
    rcases h : retrieve_chocoID stub chocoID with ⟨c, _ | e⟩
    · simp only [ChocolatesOp.run, h, ChocolatesOp.caller]
      exact printing_to_supplying_rewrites stub chocoID c caller ca rn ra
        (retrieve_chocoID_loaded stub chocoID c h)
    · simp only [ChocolatesOp.run, h]
      exact Or.inl rfl

theorem run_rejected_of_delivered (stub : ChaincodeStub) (op : ChocolatesOp)
    (c : Chocolates) (hc : stored Chocolates stub op.target = some c)
    (hd : c.Delivered = true) : Rejected stub (op.run stub) := by
  cases op with
  | create_chocolates caller ca chocoID =>
    simp only [ChocolatesOp.run, create_chocolates_eval]
    exact ⟨rfl, rfl⟩
  | concepting_to_printing chocoID caller ca rn ra =>
    rcases h : retrieve_chocoID stub chocoID with ⟨c0, _ | e⟩
    · have h0 := retrieve_chocoID_loaded stub chocoID c0 h
      simp only [ChocolatesOp.target] at hc
      rw [hc] at h0
      simp only [Option.some.injEq] at h0
      subst h0
      simp only [ChocolatesOp.run, h]
      refine rejected_of_eq (concepting_to_printing_deny stub c caller ca rn ra ?_)
      intro hg
      rw [hg.2.2.2.2] at hd
      exact Bool.noConfusion hd
    · simp only [ChocolatesOp.run, h]
      exact ⟨rfl, rfl⟩
  | printing_to_supplying chocoID caller ca rn ra =>
    rcases h : retrieve_chocoID stub chocoID with ⟨c0, _ | e⟩
    · have h0 := retrieve_chocoID_loaded stub chocoID c0 h
      simp only [ChocolatesOp.target] at hc
      rw [hc] at h0
      simp only [Option.some.injEq] at h0
      subst h0
      simp only [ChocolatesOp.run, h]
      refine printing_to_supplying_rejected stub c caller ca rn ra ?_
      intro hg
      rw [hg.2.2.2.2] at hd
      exact Bool.noConfusion hd
    · simp only [ChocolatesOp.run, h]
      exact ⟨rfl, rfl⟩

/-! ### The vehicle functions, seen from the ledger -/

theorem saveVehicle_rewrites (stub : ChaincodeStub) (target : String) (v v1 : Vehicle)
    (msg caller : String) (hv : stored Vehicle stub target = some v) (hown : v.Owner = caller)
    (hs : v.Scrapped = false) (hkey : v1.V5cID = v.V5cID)
    (hfit : FitsInt v1.Status ∧ FitsInt v1.VIN) (hle : v.Status ≤ v1.Status) :
    Rewrites Vehicle Vehicle.Owner Vehicle.Status Vehicle.Scrapped caller stub
      (saveVehicle stub v1 msg).1 := by
  by_cases hp : stub.putErr v1.V5cID = true
  · rw [saveVehicle_err stub v1 msg hp]
    exact Or.inl rfl
  · rw [saveVehicle_ok stub v1 msg (by simpa using hp)]
    refine Or.inr ⟨target, v, json_Marshal v1, v1, hv, hown, hs, ?_,
      unmarshal_marshal_Vehicle v1 hfit.1 hfit.2, hkey, hle⟩
    show stub.put v1.V5cID (json_Marshal v1) = stub.put v.V5cID (json_Marshal v1)
    rw [hkey]

theorem strconv_Atoi_fits (s : String) (n : Int) (h : strconv_Atoi s = some n) : FitsInt n := by
  unfold strconv_Atoi at h
  simp only at h
  split_ifs at h with h1 h2
  simp only [Option.some.injEq] at h
  rw [← h]
  exact h2

theorem apply_rewrites_Vehicle (K : VehicleConstants) (hK : K.Ordered)
    (stub : ChaincodeStub) (target : String) (v : Vehicle) (call : VehicleCall)
    (hv : stored Vehicle stub target = some v) :
    Rewrites Vehicle Vehicle.Owner Vehicle.Status Vehicle.Scrapped call.caller stub
      (call.apply K stub v).1 := by
  have hfit := stored_Vehicle_fits stub target v hv
  cases call with
  | private_to_private caller ca rn ra =>
    simp only [VehicleCall.apply, VehicleCall.caller, Chaincode.private_to_private]
    split_ifs with hg
    · exact saveVehicle_rewrites stub target v _ _ caller hv hg.2.1 hg.2.2.2.2 rfl hfit
        (le_refl _)
    · exact Or.inl rfl
  | private_to_lease_company caller ca rn ra =>
    simp only [VehicleCall.apply, VehicleCall.caller, Chaincode.private_to_lease_company]
    split_ifs with hg
    · exact saveVehicle_rewrites stub target v _ _ caller hv hg.2.1 hg.2.2.2.2 rfl hfit
        (le_refl _)
    · exact Or.inl rfl
  | lease_company_to_private caller ca rn ra =>
    simp only [VehicleCall.apply, VehicleCall.caller, Chaincode.lease_company_to_private]
    split_ifs with hg
    · exact saveVehicle_rewrites stub target v _ _ caller hv hg.2.1 hg.2.2.2.2 rfl hfit
        (le_refl _)
    · exact Or.inl rfl
  | private_to_scrap_merchant caller ca rn ra =>
    simp only [VehicleCall.apply, VehicleCall.caller, Chaincode.private_to_scrap_merchant]
    split_ifs with hg
    · refine saveVehicle_rewrites stub target v _ _ caller hv hg.2.1 hg.2.2.2.2 rfl
        ⟨hK.2, hfit.2⟩ ?_
      show v.Status ≤ K.STATE_BEING_SCRAPPED
      rw [hg.1]
      exact hK.1
    · exact Or.inl rfl
  | update_vin caller ca new_value =>
    simp only [VehicleCall.apply, VehicleCall.caller, Chaincode.update_vin]
    cases hn : strconv_Atoi new_value with
    | none => exact Or.inl rfl
    | some new_vin =>
      simp only
      split_ifs with hlen hg
      · exact Or.inl rfl
      · exact saveVehicle_rewrites stub target v _ _ caller hv hg.2.1 hg.2.2.2.2 rfl
          ⟨hfit.1, strconv_Atoi_fits new_value new_vin hn⟩ (le_refl _)
      · exact Or.inl rfl
  | update_registration caller ca new_value =>
    simp only [VehicleCall.apply, VehicleCall.caller, Chaincode.update_registration]
    split_ifs with hg
    · exact saveVehicle_rewrites stub target v _ _ caller hv hg.1 hg.2.2 rfl hfit (le_refl _)
    · exact Or.inl rfl
  | update_colour caller ca new_value =>
    simp only [VehicleCall.apply, VehicleCall.caller, Chaincode.update_colour]
    split_ifs with hg
    · exact saveVehicle_rewrites stub target v _ _ caller hv hg.1 hg.2.2 rfl hfit (le_refl _)
    · exact Or.inl rfl
  | update_make caller ca new_value =>
    simp only [VehicleCall.apply, VehicleCall.caller, Chaincode.update_make]
    split_ifs with hg
    · exact saveVehicle_rewrites stub target v _ _ caller hv hg.2.1 hg.2.2.2 rfl hfit
        (le_refl _)
    · exact Or.inl rfl
  | update_model caller ca new_value =>
    simp only [VehicleCall.apply, VehicleCall.caller, Chaincode.update_model]
    split_ifs with hg
    · exact saveVehicle_rewrites stub target v _ _ caller hv hg.2.1 hg.2.2.2 rfl hfit
        (le_refl _)
    · exact Or.inl rfl
  | scrap_vehicle caller ca =>
    simp only [VehicleCall.apply, VehicleCall.caller, Chaincode.scrap_vehicle]
    split_ifs with hg
    · exact saveVehicle_rewrites stub target v _ _ caller hv hg.2.1 hg.2.2.2 rfl hfit
        (le_refl _)
    · exact Or.inl rfl

theorem run_rewrites_Vehicle (K : VehicleConstants) (hK : K.Ordered) (stub : ChaincodeStub)
    (op : VehicleOp) :
    Rewrites Vehicle Vehicle.Owner Vehicle.Status Vehicle.Scrapped op.call.caller stub
      (op.run K stub).1 := by
  rcases h : retrieve_v5c stub op.v5cID with ⟨v, _ | e⟩
  · simp only [VehicleOp.run, h]
    exact apply_rewrites_Vehicle K hK stub op.v5cID v op.call
      (retrieve_v5c_loaded stub op.v5cID v h)
  · simp only [VehicleOp.run, h]
    exact Or.inl rfl

theorem unmarshal_marshal_Vehicle_key (v r1 : Vehicle)
    (h : json_Unmarshal (some (json_Marshal v)) Vehicle.zero = (r1, false)) :
    r1.V5cID = v.V5cID := by
  cases v
  simp only [json_Unmarshal, json_Marshal, Record.members, Vehicle.members, List.foldl,
    Record.setMember, setMember_Vehicle_V5cID, setMember_Vehicle_VIN, setMember_Vehicle_Make,
    setMember_Vehicle_Model, setMember_Vehicle_Reg, setMember_Vehicle_Colour,
    setMember_Vehicle_Owner, setMember_Vehicle_Scrapped, setMember_Vehicle_Status,
    decodeString, decodeBool, Bool.or_false] at h
  rw [← (Prod.mk.inj h).1]

theorem saveVehicle_touches (stub : ChaincodeStub) (target : String) (v v1 : Vehicle)
    (msg caller : String) (hv : stored Vehicle stub target = some v) (hown : v.Owner = caller)
    (hs : v.Scrapped = false) (hkey : v1.V5cID = v.V5cID) :
    Touches Vehicle Vehicle.Owner Vehicle.Scrapped caller stub (saveVehicle stub v1 msg).1 := by
  by_cases hp : stub.putErr v1.V5cID = true
  · rw [saveVehicle_err stub v1 msg hp]
    exact Or.inl rfl
  · rw [saveVehicle_ok stub v1 msg (by simpa using hp)]
    refine Or.inr ⟨target, v, json_Marshal v1, hv, hown, hs, ?_, fun r1 hr1 => ?_⟩
    · show stub.put v1.V5cID (json_Marshal v1) = stub.put v.V5cID (json_Marshal v1)
      rw [hkey]
    · show r1.V5cID = v.V5cID
      rw [unmarshal_marshal_Vehicle_key v1 r1 hr1, hkey]

theorem apply_touches_Vehicle (K : VehicleConstants) (stub : ChaincodeStub) (target : String)
    (v : Vehicle) (call : VehicleCall) (hv : stored Vehicle stub target = some v) :
    Touches Vehicle Vehicle.Owner Vehicle.Scrapped call.caller stub (call.apply K stub v).1 := by
  cases call with
  | private_to_private caller ca rn ra =>
    simp only [VehicleCall.apply, VehicleCall.caller, Chaincode.private_to_private]
    split_ifs with hg
    · exact saveVehicle_touches stub target v _ _ caller hv hg.2.1 hg.2.2.2.2 rfl
    · exact Or.inl rfl
  | private_to_lease_company caller ca rn ra =>
    simp only [VehicleCall.apply, VehicleCall.caller, Chaincode.private_to_lease_company]
    split_ifs with hg
    · exact saveVehicle_touches stub target v _ _ caller hv hg.2.1 hg.2.2.2.2 rfl
    · exact Or.inl rfl
  | lease_company_to_private caller ca rn ra =>
    simp only [VehicleCall.apply, VehicleCall.caller, Chaincode.lease_company_to_private]
    split_ifs with hg
    · exact saveVehicle_touches stub target v _ _ caller hv hg.2.1 hg.2.2.2.2 rfl
    · exact Or.inl rfl
  | private_to_scrap_merchant caller ca rn ra =>
    simp only [VehicleCall.apply, VehicleCall.caller, Chaincode.private_to_scrap_merchant]
    split_ifs with hg
    · exact saveVehicle_touches stub target v _ _ caller hv hg.2.1 hg.2.2.2.2 rfl
    · exact Or.inl rfl
  | update_registration caller ca new_value =>
    simp only [VehicleCall.apply, VehicleCall.caller, Chaincode.update_registration]
    split_ifs with hg
    · exact saveVehicle_touches stub target v _ _ caller hv hg.1 hg.2.2 rfl
    · exact Or.inl rfl
  | update_colour caller ca new_value =>
    simp only [VehicleCall.apply, VehicleCall.caller, Chaincode.update_colour]
    split_ifs with hg
    · exact saveVehicle_touches stub target v _ _ caller hv hg.1 hg.2.2 rfl
    · exact Or.inl rfl
  | update_make caller ca new_value =>
    simp only [VehicleCall.apply, VehicleCall.caller, Chaincode.update_make]
    split_ifs with hg
    · exact saveVehicle_touches stub target v _ _ caller hv hg.2.1 hg.2.2.2 rfl
    · exact Or.inl rfl
  | update_model caller ca new_value =>
    simp only [VehicleCall.apply, VehicleCall.caller, Chaincode.update_model]
    split_ifs with hg
    · exact saveVehicle_touches stub target v _ _ caller hv hg.2.1 hg.2.2.2 rfl
    · exact Or.inl rfl
  | scrap_vehicle caller ca =>
    simp only [VehicleCall.apply, VehicleCall.caller, Chaincode.scrap_vehicle]
    split_ifs with hg
    · exact saveVehicle_touches stub target v _ _ caller hv hg.2.1 hg.2.2.2 rfl
    · exact Or.inl rfl
  | update_vin caller ca new_value =>
    simp only [VehicleCall.apply, VehicleCall.caller, Chaincode.update_vin]
    cases strconv_Atoi new_value with
    | none => exact Or.inl rfl
    | some new_vin =>
      simp only
      split_ifs with hlen hg
      · exact Or.inl rfl
      · exact saveVehicle_touches stub target v _ _ caller hv hg.2.1 hg.2.2.2.2 rfl
      · exact Or.inl rfl

theorem run_touches_Vehicle (K : VehicleConstants) (stub : ChaincodeStub) (op : VehicleOp) :
    Touches Vehicle Vehicle.Owner Vehicle.Scrapped op.call.caller stub (op.run K stub).1 := by
  rcases h : retrieve_v5c stub op.v5cID with ⟨v, _ | e⟩
  · simp only [VehicleOp.run, h]
    exact apply_touches_Vehicle K stub op.v5cID v op.call
      (retrieve_v5c_loaded stub op.v5cID v h)
  · simp only [VehicleOp.run, h]
    exact Or.inl rfl

theorem apply_rejected_of_scrapped (K : VehicleConstants) (stub : ChaincodeStub)
    (v : Vehicle) (call : VehicleCall) (hs : v.Scrapped = true) :
    Rejected stub (call.apply K stub v) := by
  cases call with
  | private_to_private caller ca rn ra =>
    simp [VehicleCall.apply, Chaincode.private_to_private, hs, Rejected, Result.succeeded]
  | private_to_lease_company caller ca rn ra =>
    simp [VehicleCall.apply, Chaincode.private_to_lease_company, hs, Rejected, Result.succeeded]
  | lease_company_to_private caller ca rn ra =>
    simp [VehicleCall.apply, Chaincode.lease_company_to_private, hs, Rejected, Result.succeeded]
  | private_to_scrap_merchant caller ca rn ra =>
    simp [VehicleCall.apply, Chaincode.private_to_scrap_merchant, hs, Rejected, Result.succeeded]
  | update_vin caller ca new_value =>
    simp only [VehicleCall.apply, Chaincode.update_vin]
    cases strconv_Atoi new_value with
    | none => exact ⟨rfl, rfl⟩
    | some new_vin =>
      simp only
      split_ifs with hlen hg
      · exact ⟨rfl, rfl⟩
      · rw [hg.2.2.2.2] at hs
        exact Bool.noConfusion hs
      · exact ⟨rfl, rfl⟩
  | update_registration caller ca new_value =>
    simp [VehicleCall.apply, Chaincode.update_registration, hs, Rejected, Result.succeeded]
  | update_colour caller ca new_value =>
    simp [VehicleCall.apply, Chaincode.update_colour, hs, Rejected, Result.succeeded]
  | update_make caller ca new_value =>
    simp [VehicleCall.apply, Chaincode.update_make, hs, Rejected, Result.succeeded]
  | update_model caller ca new_value =>
    simp [VehicleCall.apply, Chaincode.update_model, hs, Rejected, Result.succeeded]
  | scrap_vehicle caller ca =>
    simp [VehicleCall.apply, Chaincode.scrap_vehicle, hs, Rejected, Result.succeeded]

theorem run_rejected_of_scrapped (K : VehicleConstants) (stub : ChaincodeStub)
    (op : VehicleOp) (v : Vehicle) (hv : stored Vehicle stub op.v5cID = some v)
    (hs : v.Scrapped = true) : Rejected stub (op.run K stub) := by
  rcases h : retrieve_v5c stub op.v5cID with ⟨v0, _ | e⟩
  · have h0 := retrieve_v5c_loaded stub op.v5cID v0 h
    rw [hv] at h0
    simp only [Option.some.injEq] at h0
    subst h0
    simp only [VehicleOp.run, h]
    exact apply_rejected_of_scrapped K stub v op.call hs
  · simp only [VehicleOp.run, h]
    exact ⟨rfl, rfl⟩

theorem runAll_rejected {Op : Type} (run : ChaincodeStub → Op → ChaincodeStub × Result)
    (stub : ChaincodeStub) (ops : List Op) (h : ∀ op ∈ ops, Rejected stub (run stub op)) :
    (runAll run stub ops).1 = stub ∧ ∀ r ∈ (runAll run stub ops).2, r.succeeded = false := by
  induction ops with
  | nil => exact ⟨rfl, fun r hr => absurd hr (List.not_mem_nil r)⟩
  | cons op ops ih =>
    have h1 := h op (List.mem_cons_self _ _)
    have h2 := ih (fun o ho => h o (List.mem_cons_of_mem _ ho))
    simp only [runAll, h1.1]
    refine ⟨h2.1, fun r hr => ?_⟩
    rcases List.mem_cons.1 hr with hr | hr
    · rw [hr]
      exact h1.2
    · exact h2.2 r hr

/-! ### Sample ledgers -/

theorem fitsInt_six : FitsInt 6 := by
  unfold FitsInt
  decide

theorem fitsInt_STATE_CONCEPTING : FitsInt STATE_CONCEPTING := fitsInt_zero

theorem stored_deliveredStub :
    stored Chocolates deliveredStub "AB1234567" = some (deliveredRecord "AB1234567" "dora") := by
  unfold deliveredStub
  rw [stored_put, if_pos rfl]
  show (if (json_Unmarshal (some (json_Marshal (deliveredRecord "AB1234567" "dora")))
      Chocolates.zero).2 = true then none
    else some (json_Unmarshal (some (json_Marshal (deliveredRecord "AB1234567" "dora")))
      Chocolates.zero).1) = _
  rw [unmarshal_marshal_Chocolates _ fitsInt_six]
  rfl

theorem stored_emptyStub (α : Type) [Record α] (key : String) : stored α emptyStub key = none := by
  simp [stored, emptyStub, json_Unmarshal]

theorem stored_put_same {α : Type} [Record α] (stub : ChaincodeStub) (key : String)
    (bytes : Bytes) (r : α) (hdec : json_Unmarshal (some bytes) (Record.zero : α) = (r, false)) :
    stored α (stub.put key bytes) key = some r := by
  rw [stored_put, if_pos rfl, hdec]
  rfl

theorem filed_put_empty {α : Type} [Asset α] (owner : α → String) (key : String)
    (bytes : Bytes) (r : α) (hdec : json_Unmarshal (some bytes) (Record.zero : α) = (r, false))
    (hkey : Asset.key r = key) : FiledUnderOwnId α owner (emptyStub.put key bytes) := by
  intro k x hx _
  by_cases hk : k = key
  · rw [hk, stored_put_same emptyStub key bytes r hdec] at hx
    simp only [Option.some.injEq] at hx
    rw [← hx, hk]
    exact hkey
  · rw [stored_put, if_neg hk, stored_emptyStub] at hx
    exact Option.noConfusion hx

theorem filed_deliveredStub : FiledUnderOwnId Chocolates Chocolates.Owner deliveredStub :=
  filed_put_empty Chocolates.Owner "AB1234567" _ _
    (unmarshal_marshal_Chocolates (deliveredRecord "AB1234567" "dora") fitsInt_six) rfl

theorem filed_conceptStub : FiledUnderOwnId Chocolates Chocolates.Owner conceptStub :=
  filed_put_empty Chocolates.Owner "AB1234567" _ _
    (unmarshal_marshal_Chocolates (conceptRecord "AB1234567" "alice") fitsInt_zero) rfl

theorem stored_conceptStub :
    stored Chocolates conceptStub "AB1234567" = some (conceptRecord "AB1234567" "alice") :=
  stored_put_same emptyStub "AB1234567" _ _
    (unmarshal_marshal_Chocolates (conceptRecord "AB1234567" "alice") fitsInt_zero)

theorem fitsInt_carLease : FitsInt 2 ∧ FitsInt 0 := by
  unfold FitsInt
  decide

theorem filed_privateStub : FiledUnderOwnId Vehicle Vehicle.Owner privateStub :=
  filed_put_empty Vehicle.Owner "AB1234567" _ _
    (unmarshal_marshal_Vehicle privateVehicle fitsInt_carLease.1 fitsInt_carLease.2) rfl

theorem stored_privateStub : stored Vehicle privateStub "AB1234567" = some privateVehicle :=
  stored_put_same emptyStub "AB1234567" _ _
    (unmarshal_marshal_Vehicle privateVehicle fitsInt_carLease.1 fitsInt_carLease.2)

theorem fitsInt_four : FitsInt 4 := by
  unfold FitsInt
  decide

theorem filed_scrappedStub : FiledUnderOwnId Vehicle Vehicle.Owner scrappedStub :=
  filed_put_empty Vehicle.Owner "XY7654321" _ _
    (unmarshal_marshal_Vehicle scrappedVehicle fitsInt_four fitsInt_zero) rfl

theorem stored_scrappedStub : stored Vehicle scrappedStub "XY7654321" = some scrappedVehicle :=
  stored_put_same emptyStub "XY7654321" _ _
    (unmarshal_marshal_Vehicle scrappedVehicle fitsInt_four fitsInt_zero)

theorem carLeaseConstants_ordered : carLeaseConstants.Ordered := by
  unfold VehicleConstants.Ordered FitsInt carLeaseConstants
  decide

theorem retrieve_chocoID_of_stored (stub : ChaincodeStub) (chocoID : String) (c : Chocolates)
    (hget : stub.getErr chocoID = false) (h : stored Chocolates stub chocoID = some c) :
    retrieve_chocoID stub chocoID = (c, none) := by
  have h1 : (if (json_Unmarshal (stub.state chocoID) Chocolates.zero).2 = true then none
      else some (json_Unmarshal (stub.state chocoID) Chocolates.zero).1) = some c := h
  by_cases hu : (json_Unmarshal (stub.state chocoID) Chocolates.zero).2 = true
  · rw [if_pos hu] at h1
    exact Option.noConfusion h1
  · rw [if_neg hu] at h1
    simp only [Option.some.injEq] at h1
    simp only [retrieve_chocoID, ChaincodeStub.GetState, hget, Bool.false_eq_true, if_false,
      hu, h1]

/-! ### Creation of an id that is taken -/

/-- C11 (the code at the failing input): on a ledger that already holds a record under
`AB1234567`, `create_chocolates` with that id does not return `Chocolates already
exists`; it returns `Invalid chocoID provided` (and leaves the ledger as it was). -/
theorem create_chocolates_duplicate_error :
    (stored Chocolates deliveredStub "AB1234567").isSome = true ∧
    (create_chocolates deliveredStub "alice" DU_RHONE "AB1234567").2.errorMsg =
      some "Invalid chocoID provided" ∧
    (create_chocolates deliveredStub "alice" DU_RHONE "AB1234567").2.errorMsg ≠
      some "Chocolates already exists" ∧
    (create_chocolates deliveredStub "alice" DU_RHONE "AB1234567").1 = deliveredStub := by
  rw [create_chocolates_eval, stored_deliveredStub]
  exact ⟨rfl, rfl, by decide, rfl⟩

/-! ### Field updates -/

theorem saveVehicle_succeeded (stub : ChaincodeStub) (v : Vehicle) (msg : String)
    (h : (saveVehicle stub v msg).2.succeeded = true) :
    saveVehicle stub v msg = (stub.put v.V5cID (json_Marshal v), .ok none) := by
  by_cases hp : stub.putErr v.V5cID = true
  · rw [saveVehicle_err stub v msg hp] at h
    exact Bool.noConfusion h
  · exact saveVehicle_ok stub v msg (by simpa using hp)

theorem stored_after_save (stub : ChaincodeStub) (v : Vehicle)
    (hfit : FitsInt v.Status ∧ FitsInt v.VIN) :
    stored Vehicle (stub.put v.V5cID (json_Marshal v)) v.V5cID = some v :=
  stored_put_same stub v.V5cID _ v (unmarshal_marshal_Vehicle v hfit.1 hfit.2)

theorem update_vin_invalid (K : VehicleConstants) (stub : ChaincodeStub) (v : Vehicle)
    (caller : String) (ca : Int) (new_value : String) (h : ¬ AcceptedVIN new_value) :
    update_vin K stub v caller ca new_value =
      (stub, .error (errors_New "Invalid value passed for new VIN")) := by
  unfold AcceptedVIN at h
  unfold update_vin
  cases hn : strconv_Atoi new_value with
  | none => rfl
  | some n =>
    simp only
    have hlen : new_value.utf8ByteSize ≠ 15 := by
      intro hl
      exact h ⟨by rw [hn]; rfl, hl⟩
    rw [if_pos hlen]

theorem update_vin_denied (K : VehicleConstants) (stub : ChaincodeStub) (v : Vehicle)
    (caller : String) (ca : Int) (new_value : String) (h : AcceptedVIN new_value)
    (hg : ¬ UpdateVinGuard K v caller ca) :
    update_vin K stub v caller ca new_value =
      (stub, .error (errors_New "Permission denied")) := by
  unfold AcceptedVIN at h
  unfold UpdateVinGuard at hg
  unfold update_vin
  cases hn : strconv_Atoi new_value with
  | none =>
    rw [hn] at h
    exact absurd h.1 (by decide)
  | some n =>
    simp only
    rw [if_neg (not_not.2 h.2), if_neg hg]

theorem update_vin_guarded (K : VehicleConstants) (stub : ChaincodeStub) (v : Vehicle)
    (caller : String) (ca : Int) (new_value : String) (new_vin : Int)
    (hn : strconv_Atoi new_value = some new_vin) (hlen : new_value.utf8ByteSize = 15)
    (hg : UpdateVinGuard K v caller ca) :
    update_vin K stub v caller ca new_value =
      saveVehicle stub { v with VIN := new_vin } "Error saving changes" := by
  unfold UpdateVinGuard at hg
  unfold update_vin
  rw [hn]
  simp only
  rw [if_neg (not_not.2 hlen), if_pos hg]

theorem update_vin_succeeded (K : VehicleConstants) (stub : ChaincodeStub) (v : Vehicle)
    (caller : String) (ca : Int) (new_value : String)
    (h : (update_vin K stub v caller ca new_value).2.succeeded = true) :
    ∃ new_vin, strconv_Atoi new_value = some new_vin ∧ AcceptedVIN new_value ∧
      UpdateVinGuard K v caller ca ∧
      update_vin K stub v caller ca new_value =
        (stub.put v.V5cID (json_Marshal { v with VIN := new_vin }), .ok none) := by
  by_cases ha : AcceptedVIN new_value
  · by_cases hg : UpdateVinGuard K v caller ca
    · cases hn : strconv_Atoi new_value with
      | none =>
        rw [AcceptedVIN, hn] at ha
        exact absurd ha.1 (by decide)
      | some n =>
        have hrun := update_vin_guarded K stub v caller ca new_value n hn ha.2 hg
        rw [hrun] at h
        exact ⟨n, rfl, ha, hg, hrun.trans (saveVehicle_succeeded stub _ _ h)⟩
    · rw [update_vin_denied K stub v caller ca new_value ha hg] at h
      exact Bool.noConfusion h
  · rw [update_vin_invalid K stub v caller ca new_value ha] at h
    exact Bool.noConfusion h

/-- C12: whenever one of the five field updates succeeds, what it has put in the ledger,
under the record's id, is the marshalled record with the one field it names replaced
(the VIN by the number read from the new value) and every other field, owner, status,
id and the scrapped flag among them, as before; and for a record whose numbers are Go
`int`s, as every loaded record's are, that is the record read back from the ledger. -/
theorem field_update_changes_one_field (K : VehicleConstants) (stub : ChaincodeStub)
    (v : Vehicle) (caller : String) (caller_affiliation : Int) (new_value : String) :
    ((update_vin K stub v caller caller_affiliation new_value).2.succeeded = true →
      ∃ new_vin, strconv_Atoi new_value = some new_vin ∧
        (update_vin K stub v caller caller_affiliation new_value).1 =
          stub.put v.V5cID (json_Marshal { v with VIN := new_vin }) ∧
        (FitsInt v.Status →
          stored Vehicle (update_vin K stub v caller caller_affiliation new_value).1 v.V5cID =
            some { v with VIN := new_vin })) ∧
    ((update_registration K stub v caller caller_affiliation new_value).2.succeeded = true →
      (update_registration K stub v caller caller_affiliation new_value).1 =
        stub.put v.V5cID (json_Marshal { v with Reg := new_value }) ∧
      (FitsInt v.Status ∧ FitsInt v.VIN →
        stored Vehicle (update_registration K stub v caller caller_affiliation new_value).1
          v.V5cID = some { v with Reg := new_value })) ∧
    ((update_colour K stub v caller caller_affiliation new_value).2.succeeded = true →
      (update_colour K stub v caller caller_affiliation new_value).1 =
        stub.put v.V5cID (json_Marshal { v with Colour := new_value }) ∧
      (FitsInt v.Status ∧ FitsInt v.VIN →
        stored Vehicle (update_colour K stub v caller caller_affiliation new_value).1
          v.V5cID = some { v with Colour := new_value })) ∧
    ((update_make K stub v caller caller_affiliation new_value).2.succeeded = true →
      (update_make K stub v caller caller_affiliation new_value).1 =
        stub.put v.V5cID (json_Marshal { v with Make := new_value }) ∧
      (FitsInt v.Status ∧ FitsInt v.VIN →
        stored Vehicle (update_make K stub v caller caller_affiliation new_value).1
          v.V5cID = some { v with Make := new_value })) ∧
    ((update_model K stub v caller caller_affiliation new_value).2.succeeded = true →
      (update_model K stub v caller caller_affiliation new_value).1 =
        stub.put v.V5cID (json_Marshal { v with Model := new_value }) ∧
      (FitsInt v.Status ∧ FitsInt v.VIN →
        stored Vehicle (update_model K stub v caller caller_affiliation new_value).1
          v.V5cID = some { v with Model := new_value })) := by
  refine ⟨fun h => ?_, fun h => ?_, fun h => ?_, fun h => ?_, fun h => ?_⟩
  · obtain ⟨n, hn, _, _, hrun⟩ := update_vin_succeeded K stub v caller caller_affiliation
      new_value h
    refine ⟨n, hn, by rw [hrun], fun hfit => ?_⟩
    rw [hrun]
    exact stored_after_save stub { v with VIN := n } ⟨hfit, strconv_Atoi_fits new_value n hn⟩
  · unfold update_registration at h ⊢
    split_ifs at h ⊢ with hg
    · rw [saveVehicle_succeeded stub _ _ h]
      exact ⟨rfl, fun hfit => stored_after_save stub { v with Reg := new_value } hfit⟩
    · exact Bool.noConfusion h
  · unfold update_colour at h ⊢
    split_ifs at h ⊢ with hg
    · rw [saveVehicle_succeeded stub _ _ h]
      exact ⟨rfl, fun hfit => stored_after_save stub { v with Colour := new_value } hfit⟩
    · exact Bool.noConfusion h
  · unfold update_make at h ⊢
    split_ifs at h ⊢ with hg
    · rw [saveVehicle_succeeded stub _ _ h]
      exact ⟨rfl, fun hfit => stored_after_save stub { v with Make := new_value } hfit⟩
    · exact Bool.noConfusion h
  · unfold update_model at h ⊢
    split_ifs at h ⊢ with hg
    · rw [saveVehicle_succeeded stub _ _ h]
      exact ⟨rfl, fun hfit => stored_after_save stub { v with Model := new_value } hfit⟩
    · exact Bool.noConfusion h

/-- The witness of C12: the manufacturer sets the colour, and the VIN, of a vehicle it
owns. -/
theorem field_update_changes_one_field_witness :
    (update_colour carLeaseConstants emptyStub manufactureVehicle "mia" 2 "red").1 =
      emptyStub.put "AB1234567" (json_Marshal { manufactureVehicle with Colour := "red" }) ∧
    (∃ new_vin, strconv_Atoi "123456789012345" = some new_vin ∧
      (update_vin carLeaseConstants emptyStub manufactureVehicle "mia" 2 "123456789012345").1 =
        emptyStub.put "AB1234567" (json_Marshal { manufactureVehicle with VIN := new_vin }) ∧
      (FitsInt manufactureVehicle.Status →
        stored Vehicle
          (update_vin carLeaseConstants emptyStub manufactureVehicle "mia" 2
            "123456789012345").1 "AB1234567" =
          some { manufactureVehicle with VIN := new_vin })) :=
  ⟨((field_update_changes_one_field carLeaseConstants emptyStub manufactureVehicle "mia" 2
      "red").2.2.1 (by decide)).1,
    (field_update_changes_one_field carLeaseConstants emptyStub manufactureVehicle "mia" 2
      "123456789012345").1 (by decide)⟩

/-- C13 (as stated, refuted): `update_vin` called by someone who is not the owner, with
a new value that is not a number, does not return `Permission denied`; it returns
`Invalid value passed for new VIN`. -/
theorem update_vin_guard_failure_not_denied :
    manufactureVehicle.Owner ≠ "mallory" ∧
    (update_vin carLeaseConstants emptyStub manufactureVehicle "mallory" 2 "no number").2.errorMsg =
      some "Invalid value passed for new VIN" ∧
    (update_vin carLeaseConstants emptyStub manufactureVehicle "mallory" 2 "no number").2.errorMsg ≠
      some "Permission denied" := by
  rw [update_vin_invalid carLeaseConstants emptyStub manufactureVehicle "mallory" 2 "no number"
    (by unfold AcceptedVIN; decide)]
  exact ⟨by decide, rfl, by decide⟩

/-- C13 (amended): each field update succeeds only under its guard: `update_registration`
only for the owner, with a role other than `SCRAP_MERCHANT`, on a record that is not
scrapped; `update_colour` only for the owner, with the role `MANUFACTURER`, on a record
that is not scrapped; `update_make`, `update_model` and `update_vin` in addition only in
`STATE_MANUFACTURE`.  When the guard fails the ledger is left as it was and the error is
`Permission denied`, except that `update_vin` returns `Invalid value passed for new VIN`
when the new value does not pass its validation. -/
theorem field_update_guards (K : VehicleConstants) (stub : ChaincodeStub) (v : Vehicle)
    (caller : String) (caller_affiliation : Int) (new_value : String) :
    ((update_registration K stub v caller caller_affiliation new_value).2.succeeded = true →
      v.Owner = caller ∧ caller_affiliation ≠ K.SCRAP_MERCHANT ∧ v.Scrapped = false) ∧
    (¬ (v.Owner = caller ∧ caller_affiliation ≠ K.SCRAP_MERCHANT ∧ v.Scrapped = false) →
      update_registration K stub v caller caller_affiliation new_value =
        (stub, .error (errors_New "Permission denied"))) ∧
    ((update_colour K stub v caller caller_affiliation new_value).2.succeeded = true →
      v.Owner = caller ∧ caller_affiliation = K.MANUFACTURER ∧ v.Scrapped = false) ∧
    (¬ (v.Owner = caller ∧ caller_affiliation = K.MANUFACTURER ∧ v.Scrapped = false) →
      update_colour K stub v caller caller_affiliation new_value =
        (stub, .error (errors_New "Permission denied"))) ∧
    ((update_make K stub v caller caller_affiliation new_value).2.succeeded = true →
      v.Status = K.STATE_MANUFACTURE ∧ v.Owner = caller ∧
        caller_affiliation = K.MANUFACTURER ∧ v.Scrapped = false) ∧
    (¬ (v.Status = K.STATE_MANUFACTURE ∧ v.Owner = caller ∧
        caller_affiliation = K.MANUFACTURER ∧ v.Scrapped = false) →
      update_make K stub v caller caller_affiliation new_value =
        (stub, .error (errors_New "Permission denied"))) ∧
    ((update_model K stub v caller caller_affiliation new_value).2.succeeded = true →
      v.Status = K.STATE_MANUFACTURE ∧ v.Owner = caller ∧
        caller_affiliation = K.MANUFACTURER ∧ v.Scrapped = false) ∧
    (¬ (v.Status = K.STATE_MANUFACTURE ∧ v.Owner = caller ∧
        caller_affiliation = K.MANUFACTURER ∧ v.Scrapped = false) →
      update_model K stub v caller caller_affiliation new_value =
        (stub, .error (errors_New "Permission denied"))) ∧
    ((update_vin K stub v caller caller_affiliation new_value).2.succeeded = true →
      v.Status = K.STATE_MANUFACTURE ∧ v.Owner = caller ∧
        caller_affiliation = K.MANUFACTURER ∧ v.Scrapped = false) ∧
    (¬ (v.Status = K.STATE_MANUFACTURE ∧ v.Owner = caller ∧
        caller_affiliation = K.MANUFACTURER ∧ v.Scrapped = false) →
      (AcceptedVIN new_value →
        update_vin K stub v caller caller_affiliation new_value =
          (stub, .error (errors_New "Permission denied"))) ∧
      (¬ AcceptedVIN new_value →
        update_vin K stub v caller caller_affiliation new_value =
          (stub, .error (errors_New "Invalid value passed for new VIN")))) := by
  refine ⟨fun h => ?_, fun hg => ?_, fun h => ?_, fun hg => ?_, fun h => ?_, fun hg => ?_,
    fun h => ?_, fun hg => ?_, fun h => ?_, fun hg => ⟨fun ha => ?_, fun ha => ?_⟩⟩
  · unfold update_registration at h
    split_ifs at h with hg
    · exact hg
    · exact Bool.noConfusion h
  · simp only [update_registration, if_neg hg]
  · unfold update_colour at h
    split_ifs at h with hg
    · exact hg
    · exact Bool.noConfusion h
  · simp only [update_colour, if_neg hg]
  · unfold update_make at h
    split_ifs at h with hg
    · exact hg
    · exact Bool.noConfusion h
  · simp only [update_make, if_neg hg]
  · unfold update_model at h
    split_ifs at h with hg
    · exact hg
    · exact Bool.noConfusion h
  · simp only [update_model, if_neg hg]
  · obtain ⟨_, _, _, hg, _⟩ := update_vin_succeeded K stub v caller caller_affiliation
      new_value h
    exact ⟨hg.1, hg.2.1, hg.2.2.1, hg.2.2.2.2⟩
  · exact update_vin_denied K stub v caller caller_affiliation new_value ha
      (fun h => hg ⟨h.1, h.2.1, h.2.2.1, h.2.2.2.2⟩)
  · exact update_vin_invalid K stub v caller caller_affiliation new_value ha

/-- The witness of C13 (amended): someone who is not the owner tries to re-register a
vehicle, and to give it a well-formed VIN. -/
theorem field_update_guards_witness :
    update_registration carLeaseConstants emptyStub manufactureVehicle "mallory" 2 "NEW 1" =
      (emptyStub, .error (errors_New "Permission denied")) ∧
    update_vin carLeaseConstants emptyStub manufactureVehicle "mallory" 2 "123456789012345" =
      (emptyStub, .error (errors_New "Permission denied")) :=
  ⟨(field_update_guards carLeaseConstants emptyStub manufactureVehicle "mallory" 2
      "NEW 1").2.1 (by decide),
    ((field_update_guards carLeaseConstants emptyStub manufactureVehicle "mallory" 2
      "123456789012345").2.2.2.2.2.2.2.2.2 (by decide)).1 (by unfold AcceptedVIN; decide)⟩

/-- C14 (as stated, refuted): for a scrapped vehicle, a caller who is neither its owner
nor a manufacturer, and a new value of five digits, both the authorization guard and the
validation fail, and `update_vin` returns the invalid-value error, not
`Permission denied`. -/
theorem update_vin_reports_validation_first :
    ¬ UpdateVinGuard carLeaseConstants scrappedVehicle "mallory" 3 ∧
    ¬ AcceptedVIN "12345" ∧
    (update_vin carLeaseConstants emptyStub scrappedVehicle "mallory" 3 "12345").2.errorMsg =
      some "Invalid value passed for new VIN" := by
  refine ⟨by unfold UpdateVinGuard; decide, by unfold AcceptedVIN; decide, ?_⟩
  rw [update_vin_invalid carLeaseConstants emptyStub scrappedVehicle "mallory" 3 "12345"
    (by unfold AcceptedVIN; decide)]
  rfl

/-- C14 (amended): in `update_vin` the validation of the value comes first: for a new
value that does not pass it the error is `Invalid value passed for new VIN`, whether the
authorization guard holds or not; `Permission denied` is the error exactly for a value
that passes the validation with a guard that fails.  The ledger is left as it was in
both cases. -/
theorem update_vin_validation_precedes (K : VehicleConstants) (stub : ChaincodeStub)
    (v : Vehicle) (caller : String) (caller_affiliation : Int) (new_value : String) :
    (¬ AcceptedVIN new_value →
      update_vin K stub v caller caller_affiliation new_value =
        (stub, .error (errors_New "Invalid value passed for new VIN"))) ∧
    (AcceptedVIN new_value → ¬ UpdateVinGuard K v caller caller_affiliation →
      update_vin K stub v caller caller_affiliation new_value =
        (stub, .error (errors_New "Permission denied"))) ∧
    ((update_vin K stub v caller caller_affiliation new_value).2.errorMsg =
        some "Permission denied" →
      AcceptedVIN new_value ∧ ¬ UpdateVinGuard K v caller caller_affiliation) := by
  refine ⟨update_vin_invalid K stub v caller caller_affiliation new_value,
    update_vin_denied K stub v caller caller_affiliation new_value, fun h => ?_⟩
  by_cases ha : AcceptedVIN new_value
  · refine ⟨ha, fun hg => ?_⟩
    cases hn : strconv_Atoi new_value with
    | none =>
      rw [AcceptedVIN, hn] at ha
      exact absurd ha.1 (by decide)
    | some n =>
      rw [update_vin_guarded K stub v caller caller_affiliation new_value n hn ha.2 hg] at h
      by_cases hp : stub.putErr v.V5cID = true
      · rw [saveVehicle_err stub { v with VIN := n } _ hp] at h
        simp only [Result.errorMsg, errors_New, Option.some.injEq] at h
        exact absurd h (by decide)
      · rw [saveVehicle_ok stub { v with VIN := n } _ (by simpa using hp)] at h
        exact Option.noConfusion h
  · rw [update_vin_invalid K stub v caller caller_affiliation new_value ha] at h
    simp only [Result.errorMsg, errors_New, Option.some.injEq] at h
    exact absurd h (by decide)

/-- The witness of C14 (amended): a malformed value from the owner, and a well-formed
one from someone else. -/
theorem update_vin_validation_precedes_witness :
    update_vin carLeaseConstants emptyStub manufactureVehicle "mia" 2 "12345" =
      (emptyStub, .error (errors_New "Invalid value passed for new VIN")) ∧
    update_vin carLeaseConstants emptyStub manufactureVehicle "mallory" 2 "123456789012345" =
      (emptyStub, .error (errors_New "Permission denied")) :=
  ⟨(update_vin_validation_precedes carLeaseConstants emptyStub manufactureVehicle "mia" 2
      "12345").1 (by unfold AcceptedVIN; decide),
    (update_vin_validation_precedes carLeaseConstants emptyStub manufactureVehicle "mallory" 2
      "123456789012345").2.1 (by unfold AcceptedVIN; decide)
      (by unfold UpdateVinGuard; decide)⟩

/-! ### The VIN after its first assignment -/

theorem retrieve_v5c_of_stored (stub : ChaincodeStub) (v5cID : String) (v : Vehicle)
    (hget : stub.getErr v5cID = false) (h : stored Vehicle stub v5cID = some v) :
    retrieve_v5c stub v5cID = (v, none) := by
  have h1 : (if (json_Unmarshal (stub.state v5cID) Vehicle.zero).2 = true then none
      else some (json_Unmarshal (stub.state v5cID) Vehicle.zero).1) = some v := h
  cases hs : stub.state v5cID with
  | none =>
    rw [hs] at h1
    exact absurd h1 (by simp [json_Unmarshal])
  | some bytes =>
    rw [hs] at h1
    by_cases hu : (json_Unmarshal (some bytes) Vehicle.zero).2 = true
    · rw [if_pos hu] at h1
      exact Option.noConfusion h1
    · rw [if_neg hu] at h1
      simp only [Option.some.injEq] at h1
      simp only [retrieve_v5c, ChaincodeStub.GetState, hget, Bool.false_eq_true, if_false,
        hs, hu, h1]

theorem retrieve_v5c_of_not_stored (stub : ChaincodeStub) (v5cID : String)
    (h : stored Vehicle stub v5cID = none) :
    ∃ e, retrieve_v5c stub v5cID = (Vehicle.zero, some e) := by
  have h1 : (if (json_Unmarshal (stub.state v5cID) Vehicle.zero).2 = true then none
      else some (json_Unmarshal (stub.state v5cID) Vehicle.zero).1) = none := h
  unfold retrieve_v5c ChaincodeStub.GetState
  by_cases hg : stub.getErr v5cID = true
  · exact ⟨errors_New "NotFound", by simp only [hg, if_true]⟩
  · cases hs : stub.state v5cID with
    | none => exact ⟨errors_New "NotFound", by simp only [hg, Bool.false_eq_true, if_false]⟩
    | some bytes =>
      rw [hs] at h1
      by_cases hu : (json_Unmarshal (some bytes) Vehicle.zero).2 = true
      · exact ⟨errors_New "CorruptRecord",
          by simp only [hg, Bool.false_eq_true, if_false, hu, if_true]⟩
      · rw [if_neg hu] at h1
        exact Option.noConfusion h1

theorem run_update_vin_ok (K : VehicleConstants) (stub : ChaincodeStub) (v5cID : String)
    (v : Vehicle) (caller : String) (ca : Int) (new_value : String) (n : Int)
    (hget : stub.getErr v5cID = false) (hv : stored Vehicle stub v5cID = some v)
    (hn : strconv_Atoi new_value = some n) (hlen : new_value.utf8ByteSize = 15)
    (hg : UpdateVinGuard K v caller ca) (hput : stub.putErr v.V5cID = false) :
    VehicleOp.run K stub ⟨v5cID, VehicleCall.update_vin caller ca new_value⟩ =
      (stub.put v.V5cID (json_Marshal { v with VIN := n }), .ok none) := by
  simp only [VehicleOp.run, retrieve_v5c_of_stored stub v5cID v hget hv, VehicleCall.apply,
    update_vin_guarded K stub v caller ca new_value n hn hlen hg]
  exact saveVehicle_ok stub { v with VIN := n } _ hput

theorem stored_manufactureStub :
    stored Vehicle manufactureStub "AB1234567" = some manufactureVehicle :=
  stored_after_save emptyStub manufactureVehicle ⟨fitsInt_one, fitsInt_zero⟩

theorem first_vin_run :
    VehicleOp.run carLeaseConstants manufactureStub
        ⟨"AB1234567", VehicleCall.update_vin "mia" 2 "000000000000000"⟩ =
      (manufactureStub.put "AB1234567" (json_Marshal manufactureVehicle), .ok none) :=
  run_update_vin_ok carLeaseConstants manufactureStub "AB1234567" manufactureVehicle "mia" 2
    "000000000000000" 0 rfl stored_manufactureStub (by decide) (by decide)
    (by unfold UpdateVinGuard; decide) rfl

theorem stored_after_first_vin :
    stored Vehicle (manufactureStub.put "AB1234567" (json_Marshal manufactureVehicle))
      "AB1234567" = some manufactureVehicle :=
  stored_after_save manufactureStub manufactureVehicle ⟨fitsInt_one, fitsInt_zero⟩

theorem second_vin_run :
    VehicleOp.run carLeaseConstants
        (manufactureStub.put "AB1234567" (json_Marshal manufactureVehicle))
        ⟨"AB1234567", VehicleCall.update_vin "mia" 2 "123456789012345"⟩ =
      ((manufactureStub.put "AB1234567" (json_Marshal manufactureVehicle)).put "AB1234567"
        (json_Marshal { manufactureVehicle with VIN := 123456789012345 }), .ok none) :=
  run_update_vin_ok carLeaseConstants _ "AB1234567" manufactureVehicle "mia" 2
    "123456789012345" 123456789012345 rfl stored_after_first_vin (by decide) (by decide)
    (by unfold UpdateVinGuard; decide) rfl

/-- C15 (the code at the failing input): the manufacturer assigns the VIN
`000000000000000` to its vehicle, which `update_vin` accepts and which leaves the stored
VIN at `0`; a later `update_vin` on that vehicle then succeeds as well and changes the
stored VIN to `123456789012345`. -/
theorem update_vin_after_zero_assignment :
    (VehicleOp.run carLeaseConstants manufactureStub
      ⟨"AB1234567", VehicleCall.update_vin "mia" 2 "000000000000000"⟩).2.succeeded = true ∧
    (stored Vehicle (VehicleOp.run carLeaseConstants manufactureStub
      ⟨"AB1234567", VehicleCall.update_vin "mia" 2 "000000000000000"⟩).1 "AB1234567").map
        Vehicle.VIN = some 0 ∧
    (VehicleOp.run carLeaseConstants
      (VehicleOp.run carLeaseConstants manufactureStub
        ⟨"AB1234567", VehicleCall.update_vin "mia" 2 "000000000000000"⟩).1
      ⟨"AB1234567", VehicleCall.update_vin "mia" 2 "123456789012345"⟩).2.succeeded = true ∧
    (stored Vehicle (VehicleOp.run carLeaseConstants
      (VehicleOp.run carLeaseConstants manufactureStub
        ⟨"AB1234567", VehicleCall.update_vin "mia" 2 "000000000000000"⟩).1
      ⟨"AB1234567", VehicleCall.update_vin "mia" 2 "123456789012345"⟩).1 "AB1234567").map
        Vehicle.VIN = some 123456789012345 := by
  rw [first_vin_run]
  simp only
  rw [second_vin_run]
  simp only
  refine ⟨rfl, ?_, rfl, ?_⟩
  · rw [stored_after_first_vin]
    rfl
  · have h := stored_after_save
      (manufactureStub.put "AB1234567" (json_Marshal manufactureVehicle))
      { manufactureVehicle with VIN := 123456789012345 }
      ⟨fitsInt_one, by unfold FitsInt; decide⟩
    exact (congrArg (Option.map Vehicle.VIN) h).trans rfl

/-! ### Reading -/

/-- C16: `get_vehicle_details` returns the marshalled record exactly when the caller is
the owner or has the role `AUTHORITY`, and `Permission Denied` (no payload) otherwise;
the payload is the whole record: decoded, it is the record again. -/
theorem get_vehicle_details_spec (K : VehicleConstants) (stub : ChaincodeStub) (v : Vehicle)
    (caller : String) (caller_affiliation : Int) :
    (get_vehicle_details K stub v caller caller_affiliation = .ok (some (json_Marshal v)) ↔
      (v.Owner = caller ∨ caller_affiliation = K.AUTHORITY)) ∧
    (¬ (v.Owner = caller ∨ caller_affiliation = K.AUTHORITY) →
      get_vehicle_details K stub v caller caller_affiliation =
        .error (errors_New "Permission Denied")) ∧
    (FitsInt v.Status ∧ FitsInt v.VIN →
      json_Unmarshal (some (json_Marshal v)) Vehicle.zero = (v, false)) := by
  refine ⟨?_, fun hg => ?_, fun hfit => unmarshal_marshal_Vehicle v hfit.1 hfit.2⟩
  · by_cases hg : v.Owner = caller ∨ caller_affiliation = K.AUTHORITY
    · have hrun : get_vehicle_details K stub v caller caller_affiliation =
          .ok (some (json_Marshal v)) := by
        simp only [get_vehicle_details, if_pos hg]
      exact ⟨fun _ => hg, fun _ => hrun⟩
    · have hrun : get_vehicle_details K stub v caller caller_affiliation =
          .error (errors_New "Permission Denied") := by
        simp only [get_vehicle_details, if_neg hg]
      rw [hrun]
      exact ⟨fun h => Except.noConfusion h, fun h => absurd h hg⟩
  · simp only [get_vehicle_details, if_neg hg]

/-- The witness of C16: a stranger without the authority role is denied, the owner is
not. -/
theorem get_vehicle_details_spec_witness :
    get_vehicle_details carLeaseConstants emptyStub manufactureVehicle "mallory" 3 =
      .error (errors_New "Permission Denied") ∧
    get_vehicle_details carLeaseConstants emptyStub manufactureVehicle "mia" 2 =
      .ok (some (json_Marshal manufactureVehicle)) :=
  ⟨(get_vehicle_details_spec carLeaseConstants emptyStub manufactureVehicle "mallory" 3).2.1
      (by decide),
    (get_vehicle_details_spec carLeaseConstants emptyStub manufactureVehicle "mia" 2).1.2
      (Or.inl rfl)⟩

/-! ### The listing -/

theorem get_vehicles_loop_step (K : VehicleConstants) (stub : ChaincodeStub) (caller : String)
    (ca : Int) (v5c : String) (rest : List String) (result : List Json) (v : Vehicle)
    (hget : stub.getErr v5c = false) (hv : stored Vehicle stub v5c = some v) :
    get_vehicles_loop K stub caller ca (v5c :: rest) result =
      get_vehicles_loop K stub caller ca rest
        (result ++ ([v].filter (Viewable K caller ca)).map Vehicle.toJson) := by
  by_cases hg : v.Owner = caller ∨ ca = K.AUTHORITY
  · have hview : Viewable K caller ca v = true := by simp [Viewable, hg]
    simp only [get_vehicles_loop, retrieve_v5c_of_stored stub v5c v hget hv,
      get_vehicle_details, if_pos hg, json_Marshal, List.filter, hview, List.map]
    rfl
  · have hview : Viewable K caller ca v = false := by simp [Viewable, hg]
    simp only [get_vehicles_loop, retrieve_v5c_of_stored stub v5c v hget hv,
      get_vehicle_details, if_neg hg, List.filter, hview, List.map, List.append_nil]

theorem get_vehicles_loop_ok (K : VehicleConstants) (stub : ChaincodeStub) (caller : String)
    (ca : Int) (ids : List String) (result : List Json)
    (hall : ∀ id ∈ ids, stub.getErr id = false ∧ (stored Vehicle stub id).isSome = true) :
    get_vehicles_loop K stub caller ca ids result =
      .ok (result ++ (((ids.filterMap (stored Vehicle stub)).filter
        (Viewable K caller ca)).map Vehicle.toJson)) := by
  induction ids generalizing result with
  | nil => simp [get_vehicles_loop]
  | cons id rest ih =>
    obtain ⟨hget, hsome⟩ := hall id (List.mem_cons_self _ _)
    obtain ⟨v, hv⟩ := Option.isSome_iff_exists.1 hsome
    rw [get_vehicles_loop_step K stub caller ca id rest result v hget hv,
      ih _ (fun i hi => hall i (List.mem_cons_of_mem _ hi))]
    simp only [List.filterMap_cons, hv, List.filter_cons, List.filter_nil]
    cases Viewable K caller ca v <;> simp

theorem get_vehicles_loop_aborts (K : VehicleConstants) (stub : ChaincodeStub)
    (caller : String) (ca : Int) (ids : List String) (result : List Json)
    (hbad : ∃ id ∈ ids, stored Vehicle stub id = none) :
    get_vehicles_loop K stub caller ca ids result =
      .error (errors_New "Failed to retrieve V5C") := by
  induction ids generalizing result with
  | nil =>
    obtain ⟨id, hid, _⟩ := hbad
    exact absurd hid (List.not_mem_nil id)
  | cons id rest ih =>
    rcases hr : retrieve_v5c stub id with ⟨v, _ | e⟩
    · have hrest : ∃ i ∈ rest, stored Vehicle stub i = none := by
        obtain ⟨i, hi, hnone⟩ := hbad
        rcases List.mem_cons.1 hi with h | h
        · obtain ⟨e, he⟩ := retrieve_v5c_of_not_stored stub id (by rw [← h]; exact hnone)
          rw [he] at hr
          exact absurd (Prod.mk.inj hr).2 (by simp)
        · exact ⟨i, h, hnone⟩
      simp only [get_vehicles_loop, hr]
      cases get_vehicle_details K stub v caller ca with
      | error e => exact ih _ hrest
      | ok payload =>
        cases payload with
        | none => exact ih _ hrest
        | some bytes =>
          cases bytes with
          | text t => exact ih _ hrest
          | json j => exact ih _ hrest
    · simp only [get_vehicles_loop, hr]

theorem get_vehicles_of_index (K : VehicleConstants) (stub : ChaincodeStub) (caller : String)
    (ca : Int) (h : V5C_Holder) (hget : stub.getErr "v5cIDs" = false)
    (hidx : stored V5C_Holder stub "v5cIDs" = some h) :
    get_vehicles K stub caller ca =
      match get_vehicles_loop K stub caller ca h.V5Cs.elems [] with
      | .error e => .error e
      | .ok result => .ok (some (.json (.arr result))) := by
  unfold stored at hidx
  by_cases hu : (json_Unmarshal (stub.state "v5cIDs") (Record.zero : V5C_Holder)).2 = true
  · rw [if_pos hu] at hidx
    exact Option.noConfusion hidx
  · rw [if_neg hu] at hidx
    simp only [Option.some.injEq] at hidx
    simp only [get_vehicles, ChaincodeStub.GetState, hget, Bool.false_eq_true, if_false, hu,
      hidx]

theorem get_vehicles_listing (K : VehicleConstants) (stub : ChaincodeStub) (caller : String)
    (ca : Int) (h : V5C_Holder) (hget : stub.getErr "v5cIDs" = false)
    (hidx : stored V5C_Holder stub "v5cIDs" = some h)
    (hall : ∀ id ∈ h.V5Cs.elems,
      stub.getErr id = false ∧ (stored Vehicle stub id).isSome = true) :
    get_vehicles K stub caller ca =
      .ok (some (.json (.arr (((h.V5Cs.elems.filterMap (stored Vehicle stub)).filter
        (Viewable K caller ca)).map Vehicle.toJson)))) := by
  rw [get_vehicles_of_index K stub caller ca h hget hidx,
    get_vehicles_loop_ok K stub caller ca _ [] hall]
  rfl

theorem get_vehicles_aborts (K : VehicleConstants) (stub : ChaincodeStub) (caller : String)
    (ca : Int) (h : V5C_Holder) (hget : stub.getErr "v5cIDs" = false)
    (hidx : stored V5C_Holder stub "v5cIDs" = some h)
    (hbad : ∃ id ∈ h.V5Cs.elems, stored Vehicle stub id = none) :
    get_vehicles K stub caller ca = .error (errors_New "Failed to retrieve V5C") := by
  rw [get_vehicles_of_index K stub caller ca h hget hidx,
    get_vehicles_loop_aborts K stub caller ca _ [] hbad]

theorem unmarshal_marshal_V5C_Holder (h : V5C_Holder) :
    json_Unmarshal (some (json_Marshal h)) (Record.zero : V5C_Holder) = (h, false) := by
  have hk : keyIs "v5cs" "v5cs" = true := by decide
  cases h
  simp only [json_Unmarshal, json_Marshal, Record.members, List.foldl, Record.setMember, hk,
    if_true, decodeStrings_toJson, Bool.or_false]

theorem stored_index_danglingStub : stored V5C_Holder danglingStub "v5cIDs" = some twoIds :=
  stored_put_same _ "v5cIDs" _ twoIds (unmarshal_marshal_V5C_Holder twoIds)

theorem stored_index_listedStub : stored V5C_Holder listedStub "v5cIDs" = some twoIds :=
  stored_put_same _ "v5cIDs" _ twoIds (unmarshal_marshal_V5C_Holder twoIds)

theorem stored_danglingStub_missing : stored Vehicle danglingStub "AB1234567" = none := by
  unfold danglingStub
  rw [stored_put, if_neg (by decide), stored_put, if_neg (by decide), stored_emptyStub]

theorem stored_danglingStub_scrapped :
    stored Vehicle danglingStub "XY7654321" = some scrappedVehicle := by
  unfold danglingStub
  rw [stored_put, if_neg (by decide)]
  exact stored_after_save emptyStub scrappedVehicle ⟨fitsInt_four, fitsInt_zero⟩

theorem stored_listedStub_scrapped :
    stored Vehicle listedStub "XY7654321" = some scrappedVehicle := by
  unfold listedStub
  rw [stored_put, if_neg (by decide), stored_put, if_neg (by decide)]
  exact stored_after_save emptyStub scrappedVehicle ⟨fitsInt_four, fitsInt_zero⟩

theorem stored_listedStub_manufacture :
    stored Vehicle listedStub "AB1234567" = some manufactureVehicle := by
  unfold listedStub
  rw [stored_put, if_neg (by decide)]
  exact stored_after_save _ manufactureVehicle ⟨fitsInt_one, fitsInt_zero⟩

theorem listedStub_all_decode : ∀ id ∈ twoIds.V5Cs.elems,
    listedStub.getErr id = false ∧ (stored Vehicle listedStub id).isSome = true := by
  intro id hid
  simp only [twoIds, StringSlice.elems, List.mem_cons, List.mem_singleton, List.not_mem_nil,
    or_false] at hid
  rcases hid with h | h
  · rw [h, stored_listedStub_scrapped]
    exact ⟨rfl, rfl⟩
  · rw [h, stored_listedStub_manufacture]
    exact ⟨rfl, rfl⟩

/-- C17: when the index can be read and decodes, and every indexed id can be read and
has a record that decodes, `get_vehicles` does not fail and returns the JSON array of
the indexed records the caller may view, in index order (the empty array when there are
none): all of them for a caller with the role `AUTHORITY`, and for any other caller
exactly those whose owner is the caller. -/
theorem get_vehicles_spec (K : VehicleConstants) (stub : ChaincodeStub) (caller : String)
    (caller_affiliation : Int) (h : V5C_Holder) (hget : stub.getErr "v5cIDs" = false)
    (hidx : stored V5C_Holder stub "v5cIDs" = some h)
    (hall : ∀ id ∈ h.V5Cs.elems,
      stub.getErr id = false ∧ (stored Vehicle stub id).isSome = true) :
    (h.V5Cs.elems.filterMap (stored Vehicle stub)).length = h.V5Cs.elems.length ∧
    (caller_affiliation = K.AUTHORITY →
      get_vehicles K stub caller caller_affiliation =
        .ok (some (.json (.arr
          ((h.V5Cs.elems.filterMap (stored Vehicle stub)).map Vehicle.toJson))))) ∧
    (caller_affiliation ≠ K.AUTHORITY →
      get_vehicles K stub caller caller_affiliation =
        .ok (some (.json (.arr
          (((h.V5Cs.elems.filterMap (stored Vehicle stub)).filter
            (fun v => decide (v.Owner = caller))).map Vehicle.toJson))))) := by
  have hmain := get_vehicles_listing K stub caller caller_affiliation h hget hidx hall
  refine ⟨?_, fun hca => ?_, fun hca => ?_⟩
  · have hlen : ∀ ids : List String,
        (∀ id ∈ ids, stub.getErr id = false ∧ (stored Vehicle stub id).isSome = true) →
        (ids.filterMap (stored Vehicle stub)).length = ids.length := by
      intro ids
      induction ids with
      | nil => exact fun _ => rfl
      | cons id rest ih =>
        intro hids
        obtain ⟨v, hv⟩ := Option.isSome_iff_exists.1 (hids id (List.mem_cons_self _ _)).2
        rw [List.filterMap_cons, hv]
        simp only [List.length_cons]
        rw [ih (fun i hi => hids i (List.mem_cons_of_mem _ hi))]
    exact hlen _ hall
  · rw [hmain]
    have hf : (h.V5Cs.elems.filterMap (stored Vehicle stub)).filter
        (Viewable K caller caller_affiliation) =
        h.V5Cs.elems.filterMap (stored Vehicle stub) := by
      apply List.filter_eq_self.2
      intro v _
      simp [Viewable, hca]
    rw [hf]
  · rw [hmain]
    have hf : (h.V5Cs.elems.filterMap (stored Vehicle stub)).filter
        (Viewable K caller caller_affiliation) =
        (h.V5Cs.elems.filterMap (stored Vehicle stub)).filter
          (fun v => decide (v.Owner = caller)) := by
      apply List.filter_congr
      intro v _
      simp [Viewable, hca]
    rw [hf]

/-- The witness of C17: a ledger with two indexed vehicles, listed for the scrap
merchant who owns one of them. -/
theorem get_vehicles_spec_witness :
    listedStub.getErr "v5cIDs" = false ∧
    stored V5C_Holder listedStub "v5cIDs" = some twoIds ∧
    get_vehicles carLeaseConstants listedStub "sam" 5 =
      .ok (some (.json (.arr
        (((twoIds.V5Cs.elems.filterMap (stored Vehicle listedStub)).filter
          (fun v => decide (v.Owner = "sam"))).map Vehicle.toJson)))) :=
  ⟨rfl, stored_index_listedStub,
    (get_vehicles_spec carLeaseConstants listedStub "sam" 5 twoIds rfl stored_index_listedStub
      listedStub_all_decode).2.2 (by decide)⟩

/-- C18 (as stated, refuted): on a ledger whose index names `XY7654321`, which has a
record owned by the caller, and `AB1234567`, which has none, `get_vehicles` does not
return the one good record; it fails with `Failed to retrieve V5C`. -/
theorem get_vehicles_fails_on_missing_record :
    stored V5C_Holder danglingStub "v5cIDs" = some twoIds ∧
    stored Vehicle danglingStub "XY7654321" = some scrappedVehicle ∧
    stored Vehicle danglingStub "AB1234567" = none ∧
    get_vehicles carLeaseConstants danglingStub "sam" 5 =
      .error (errors_New "Failed to retrieve V5C") :=
  ⟨stored_index_danglingStub, stored_danglingStub_scrapped, stored_danglingStub_missing,
    get_vehicles_aborts carLeaseConstants danglingStub "sam" 5 twoIds rfl
      stored_index_danglingStub
      ⟨"AB1234567", by simp [twoIds, StringSlice.elems], stored_danglingStub_missing⟩⟩

/-- C18 (amended): `get_vehicles` passes over a record the caller may not view, but it
aborts on a bad record: when the index can be read and decodes and some indexed id has a
record that is missing or does not decode, it fails with `Failed to retrieve V5C` and
returns no record. -/
theorem get_vehicles_aborts_on_bad_record (K : VehicleConstants) (stub : ChaincodeStub)
    (caller : String) (caller_affiliation : Int) (h : V5C_Holder)
    (hget : stub.getErr "v5cIDs" = false)
    (hidx : stored V5C_Holder stub "v5cIDs" = some h) :
    ((∃ id ∈ h.V5Cs.elems, stored Vehicle stub id = none) →
      get_vehicles K stub caller caller_affiliation =
        .error (errors_New "Failed to retrieve V5C")) ∧
    (∀ (id : String) (rest : List String) (result : List Json) (v : Vehicle),
      stub.getErr id = false → stored Vehicle stub id = some v →
      Viewable K caller caller_affiliation v = false →
      get_vehicles_loop K stub caller caller_affiliation (id :: rest) result =
        get_vehicles_loop K stub caller caller_affiliation rest result) := by
  refine ⟨get_vehicles_aborts K stub caller caller_affiliation h hget hidx,
    fun id rest result v hg hv hview => ?_⟩
  rw [get_vehicles_loop_step K stub caller caller_affiliation id rest result v hg hv]
  simp [List.filter, hview]

/-- The witness of C18 (amended): the ledger whose index names an id without a record. -/
theorem get_vehicles_aborts_on_bad_record_witness :
    danglingStub.getErr "v5cIDs" = false ∧
    stored V5C_Holder danglingStub "v5cIDs" = some twoIds ∧
    (∃ id ∈ twoIds.V5Cs.elems, stored Vehicle danglingStub id = none) ∧
    get_vehicles carLeaseConstants danglingStub "mia" 2 =
      .error (errors_New "Failed to retrieve V5C") :=
  ⟨rfl, stored_index_danglingStub,
    ⟨"AB1234567", by simp [twoIds, StringSlice.elems], stored_danglingStub_missing⟩,
    (get_vehicles_aborts_on_bad_record carLeaseConstants danglingStub "mia" 2 twoIds rfl
      stored_index_danglingStub).1
      ⟨"AB1234567", by simp [twoIds, StringSlice.elems], stored_danglingStub_missing⟩⟩

/-! ### Roles and dispatch -/

/-- C20 (the code at the failing inputs): for a certificate whose common name has a
third field that is not a number, `check_affiliation` returns the role `0` and no
error; for one whose common name has a single field it panics on `res[2]` (the result
`none`). -/
theorem check_affiliation_malformed_name :
    check_affiliation (outsideWith "alice\\dept\\admin") "pem" = some (.ok 0) ∧
    check_affiliation (outsideWith "alice") "pem" = none ∧
    check_affiliation (outsideWith "alice\\dept") "pem" = none := by
  refine ⟨?_, ?_, ?_⟩ <;> rfl

theorem get_caller_data_outsideWith :
    get_caller_data (outsideWith "alice\\dept\\1") emptyStub =
      some (.ok ("alice\\dept\\1", 1)) := by
  rfl

theorem Query_unknown (O : Outside) (A : Absent) (stub : ChaincodeStub) (function : String)
    (args : List String) (caller : String) (ca : Int)
    (hcaller : get_caller_data O stub = some (.ok (caller, ca)))
    (hname : function ∉ queryNames) :
    Query O A stub function args =
      (stub, some (.error (errors_New "Received unknown function invocation"))) := by
  have h1 : function ≠ "get_chocolate_details" := fun h => hname (by simp [queryNames, h])
  have h2 : function ≠ "get_chocos" := fun h => hname (by simp [queryNames, h])
  simp only [Query, hcaller, if_neg h1, if_neg h2]

theorem Invoke_unknown (O : Outside) (A : Absent) (stub : ChaincodeStub) (function : String)
    (args : List String) (caller : String) (ca : Int)
    (hcaller : get_caller_data O stub = some (.ok (caller, ca)))
    (hname : function ∉ invokeNames) :
    (Invoke O A stub function args).1 = stub ∧
    (∀ chocoID c, args[1]? = some chocoID → retrieve_chocoID stub chocoID = (c, none) →
      (strings_Contains function "update" = true ∨
        ∃ arg0 ecert ra, args[0]? = some arg0 ∧ get_ecert O stub arg0 = .ok ecert ∧
          check_affiliation O ecert = some (.ok ra)) →
      Invoke O A stub function args =
        (stub, some (.error (errors_New "Function of that name doesn't exist.")))) := by
  have h1 : function ≠ "create_chocolates" := fun h => hname (by simp [invokeNames, h])
  have h2 : function ≠ "concepting_to_printing" := fun h => hname (by simp [invokeNames, h])
  have h3 : function ≠ "printing_to_supplying" := fun h => hname (by simp [invokeNames, h])
  have h4 : function ∉ absentTransfers := fun h =>
    hname (List.mem_append_left _ (List.mem_append_left _ (List.mem_append_right _ h)))
  have h5 : function ∉ absentUpdates := fun h =>
    hname (List.mem_append_left _ (List.mem_append_right _ h))
  have h6 : function ≠ "finish_delivery" := fun h => hname (by simp [invokeNames, h])
  simp only [Invoke, hcaller, if_neg h1, if_neg h6]
  cases ha : args[1]? with
  | none => exact ⟨rfl, fun chocoID c hc => Option.noConfusion hc⟩
  | some id =>
    simp only
    rcases hr : retrieve_chocoID stub id with ⟨c0, _ | e⟩
    · simp only
      by_cases hu : strings_Contains function "update" = true
      · have hcond : ¬ (strings_Contains function "update" = false ∧
            function ≠ "finish_delivery") := by
          rw [hu]
          exact fun h => Bool.noConfusion h.1
        simp only [if_neg hcond, if_neg h5, if_neg h6]
        exact ⟨trivial, fun _ _ _ _ _ => trivial⟩
      · have hcond : strings_Contains function "update" = false ∧
            function ≠ "finish_delivery" := ⟨by simpa using hu, h6⟩
        simp only [if_pos hcond]
        cases h0 : args[0]? with
        | none =>
          refine ⟨rfl, fun _ _ _ _ hres => ?_⟩
          rcases hres with hres | ⟨arg0, _, _, harg, _, _⟩
          · exact absurd hres hu
          · exact Option.noConfusion harg
        | some arg0 =>
          simp only
          cases he : get_ecert O stub arg0 with
          | error e =>
            refine ⟨rfl, fun _ _ _ _ hres => ?_⟩
            rcases hres with hres | ⟨a, ecert, _, harg, hec, _⟩
            · exact absurd hres hu
            · simp only [Option.some.injEq] at harg
              rw [← harg, he] at hec
              exact Except.noConfusion hec
          | ok ecert =>
            simp only
            cases hc : check_affiliation O ecert with
            | none =>
              refine ⟨rfl, fun _ _ _ _ hres => ?_⟩
              rcases hres with hres | ⟨a, ecert1, _, harg, hec, hchk⟩
              · exact absurd hres hu
              · simp only [Option.some.injEq] at harg
                rw [← harg, he] at hec
                simp only [Except.ok.injEq] at hec
                rw [← hec, hc] at hchk
                exact Option.noConfusion hchk
            | some r =>
              cases r with
              | error e =>
                refine ⟨rfl, fun _ _ _ _ hres => ?_⟩
                rcases hres with hres | ⟨a, ecert1, _, harg, hec, hchk⟩
                · exact absurd hres hu
                · simp only [Option.some.injEq] at harg
                  rw [← harg, he] at hec
                  simp only [Except.ok.injEq] at hec
                  rw [← hec, hc] at hchk
                  simp only [Option.some.injEq] at hchk
                  exact Except.noConfusion hchk
              | ok ra =>
                simp only [if_neg h2, if_neg h3, if_neg h4]
                exact ⟨trivial, fun _ _ _ _ _ => trivial⟩
    · simp only
      refine ⟨trivial, fun chocoID c hc hret => ?_⟩
      simp only [Option.some.injEq] at hc
      rw [← hc, hr] at hret
      exact absurd (Prod.mk.inj hret).2 (by simp)

/-- C19 (as stated, refuted): with a caller that resolves, `Invoke` of a name it does not
dispatch on fails with `Error retrieving chocoID` when no record is stored under the
second argument, and panics on `args[1]` when the argument list is empty; neither is
the unknown-operation error. -/
theorem Invoke_unknown_name_fails_earlier :
    "no_such_operation" ∉ invokeNames ∧
    get_caller_data (outsideWith "alice\\dept\\1") emptyStub =
      some (.ok ("alice\\dept\\1", 1)) ∧
    Invoke (outsideWith "alice\\dept\\1") absentFunctions emptyStub "no_such_operation"
        ["bob", "AB1234567"] =
      (emptyStub, some (.error (errors_New "Error retrieving chocoID"))) ∧
    Invoke (outsideWith "alice\\dept\\1") absentFunctions emptyStub "no_such_operation" [] =
      (emptyStub, none) := by
  refine ⟨by decide, rfl, rfl, rfl⟩

/-- C19 (amended): with a caller that resolves, `Query` of a name it does not dispatch
on fails with `Received unknown function invocation` and leaves the ledger as it was,
whatever the arguments; `Invoke` of a name it does not dispatch on leaves the ledger as
it was, and fails with `Function of that name doesn't exist.` when a record can be
retrieved under the second argument and, unless the name contains `update`, the first
argument resolves to a recipient with a role. -/
theorem unknown_operation_rejected (O : Outside) (A : Absent) (stub : ChaincodeStub)
    (function : String) (args : List String) (caller : String) (caller_affiliation : Int)
    (hcaller : get_caller_data O stub = some (.ok (caller, caller_affiliation))) :
    (function ∉ queryNames →
      Query O A stub function args =
        (stub, some (.error (errors_New "Received unknown function invocation")))) ∧
    (function ∉ invokeNames →
      (Invoke O A stub function args).1 = stub ∧
      (∀ chocoID c, args[1]? = some chocoID → retrieve_chocoID stub chocoID = (c, none) →
        (strings_Contains function "update" = true ∨
          ∃ arg0 ecert ra, args[0]? = some arg0 ∧ get_ecert O stub arg0 = .ok ecert ∧
            check_affiliation O ecert = some (.ok ra)) →
        Invoke O A stub function args =
          (stub, some (.error (errors_New "Function of that name doesn't exist."))))) :=
  ⟨Query_unknown O A stub function args caller caller_affiliation hcaller,
    Invoke_unknown O A stub function args caller caller_affiliation hcaller⟩

/-- The witness of C19 (amended): an unknown name sent to `Query`, and to `Invoke` with
the id of a stored record and a recipient that resolves. -/
theorem unknown_operation_rejected_witness :
    Query (outsideWith "alice\\dept\\1") absentFunctions conceptStub "no_such_operation" [] =
      (conceptStub, some (.error (errors_New "Received unknown function invocation"))) ∧
    Invoke (outsideWith "alice\\dept\\1") absentFunctions conceptStub "no_such_operation"
        ["bob", "AB1234567"] =
      (conceptStub, some (.error (errors_New "Function of that name doesn't exist."))) :=
  ⟨(unknown_operation_rejected (outsideWith "alice\\dept\\1") absentFunctions conceptStub
      "no_such_operation" [] "alice\\dept\\1" 1 rfl).1 (by decide),
    ((unknown_operation_rejected (outsideWith "alice\\dept\\1") absentFunctions conceptStub
      "no_such_operation" ["bob", "AB1234567"] "alice\\dept\\1" 1 rfl).2 (by decide)).2
      "AB1234567" (conceptRecord "AB1234567" "alice") rfl
      (retrieve_chocoID_of_stored conceptStub "AB1234567" _ rfl stored_conceptStub)
      (Or.inr ⟨"bob", "pem", 1, rfl, rfl, rfl⟩)⟩

/-! ### Loading a record that is not there -/

theorem retrieve_chocoID_read_failed (stub : ChaincodeStub) (chocoID : String)
    (hget : stub.getErr chocoID = true) :
    retrieve_chocoID stub chocoID =
      (Chocolates.zero, some (errors_New
        ("RETRIEVE_CHOCOID: Error retrieving chocolates with chocoID = " ++ chocoID))) := by
  simp only [retrieve_chocoID, ChaincodeStub.GetState, hget, if_true]

theorem retrieve_chocoID_not_decoded (stub : ChaincodeStub) (chocoID : String)
    (hget : stub.getErr chocoID = false) (h : stored Chocolates stub chocoID = none) :
    retrieve_chocoID stub chocoID =
      ((json_Unmarshal (stub.state chocoID) Chocolates.zero).1,
        some ⟨"RETRIEVE_CHOCOID: Corrupt chocolates record", stub.state chocoID⟩) := by
  have h1 : (if (json_Unmarshal (stub.state chocoID) Chocolates.zero).2 = true then none
      else some (json_Unmarshal (stub.state chocoID) Chocolates.zero).1) = none := h
  by_cases hu : (json_Unmarshal (stub.state chocoID) Chocolates.zero).2 = true
  · simp only [retrieve_chocoID, ChaincodeStub.GetState, hget, Bool.false_eq_true, if_false,
      hu, if_true]
  · rw [if_neg hu] at h1
    exact Option.noConfusion h1

theorem json_Unmarshal_not_object {α : Type} [Record α] (data : Option Bytes) (c : α)
    (h : ∀ members, data ≠ some (.json (.obj members))) : (json_Unmarshal data c).1 = c := by
  cases data with
  | none => rfl
  | some b =>
    cases b with
    | text s => rfl
    | json j =>
      cases j with
      | obj members => exact absurd rfl (h members)
      | null => rfl
      | bool b => rfl
      | num n => rfl
      | frac t => rfl
      | str s => rfl
      | arr elems => rfl

theorem retrieval_error_ne_corrupt (chocoID : String) (tail : Option Bytes) :
    errors_New ("RETRIEVE_CHOCOID: Error retrieving chocolates with chocoID = " ++ chocoID) ≠
      ⟨"RETRIEVE_CHOCOID: Corrupt chocolates record", tail⟩ := by
  intro h
  have h1 := congrArg (fun e : GoError => e.msg.data.take 19) h
  simp only [errors_New, String.data_append] at h1
  rw [List.take_append_of_le_length (by decide)] at h1
  exact absurd h1 (by decide)

/-- A record whose decoding fails on a field of the wrong type is returned with the
fields that did decode. -/
theorem retrieve_chocoID_mistyped :
    (retrieve_chocoID mistypedStub "AB1234567").2.isSome = true ∧
    (retrieve_chocoID mistypedStub "AB1234567").1.ChocoID = "AB1234567" := by
  refine ⟨?_, ?_⟩ <;> rfl

/-- C21 (as stated, refuted): on a ledger that holds nothing under `AB1234567` and
answers the read, `retrieve_chocoID` fails with the corrupt-record error, not with the
retrieval error. -/
theorem retrieve_chocoID_absent_reported_corrupt :
    emptyStub.GetState "AB1234567" = .ok none ∧
    (retrieve_chocoID emptyStub "AB1234567").2 =
      some ⟨"RETRIEVE_CHOCOID: Corrupt chocolates record", none⟩ ∧
    (retrieve_chocoID emptyStub "AB1234567").2 ≠
      some (errors_New
        ("RETRIEVE_CHOCOID: Error retrieving chocolates with chocoID = " ++ "AB1234567")) := by
  refine ⟨rfl, rfl, fun h => ?_⟩
  have h1 : (retrieve_chocoID emptyStub "AB1234567").2 =
      some ⟨"RETRIEVE_CHOCOID: Corrupt chocolates record", none⟩ := rfl
  rw [h1] at h
  simp only [Option.some.injEq] at h
  exact retrieval_error_ne_corrupt "AB1234567" none h.symm

/-- C21 (amended): `retrieve_chocoID` tells a failed read from a value that does not
decode, not absence from corruption.  When the ledger refuses the read it fails with the
retrieval error and returns the empty record.  When the read is answered and the value
does not decode, which is the case when nothing is stored under the id, it fails with
the corrupt-record error (followed by the bytes read); the returned record is the empty
record when nothing is stored and whenever the value is not a JSON object.  The two
errors are different. -/
theorem retrieve_chocoID_errors (stub : ChaincodeStub) (chocoID : String) :
    (stub.getErr chocoID = true →
      retrieve_chocoID stub chocoID =
        (Chocolates.zero, some (errors_New
          ("RETRIEVE_CHOCOID: Error retrieving chocolates with chocoID = " ++ chocoID)))) ∧
    (stub.getErr chocoID = false → stored Chocolates stub chocoID = none →
      (retrieve_chocoID stub chocoID).2 =
        some ⟨"RETRIEVE_CHOCOID: Corrupt chocolates record", stub.state chocoID⟩) ∧
    (stub.getErr chocoID = false → stub.state chocoID = none →
      retrieve_chocoID stub chocoID =
        (Chocolates.zero, some ⟨"RETRIEVE_CHOCOID: Corrupt chocolates record", none⟩)) ∧
    (stub.getErr chocoID = false → stored Chocolates stub chocoID = none →
      (∀ members, stub.state chocoID ≠ some (.json (.obj members))) →
      (retrieve_chocoID stub chocoID).1 = Chocolates.zero) ∧
    (∀ tail,
      errors_New ("RETRIEVE_CHOCOID: Error retrieving chocolates with chocoID = " ++ chocoID) ≠
        ⟨"RETRIEVE_CHOCOID: Corrupt chocolates record", tail⟩) := by
  refine ⟨retrieve_chocoID_read_failed stub chocoID, fun hget h => ?_, fun hget h => ?_,
    fun hget h hobj => ?_, retrieval_error_ne_corrupt chocoID⟩
  · rw [retrieve_chocoID_not_decoded stub chocoID hget h]
  · have hs : stored Chocolates stub chocoID = none := by
      simp [stored, h, json_Unmarshal]
    rw [retrieve_chocoID_not_decoded stub chocoID hget hs, h]
    rfl
  · rw [retrieve_chocoID_not_decoded stub chocoID hget h]
    exact json_Unmarshal_not_object _ _ hobj

/-- The witness of C21 (amended): a ledger that refuses the read, a ledger that holds
nothing under the id, and a ledger that holds text that is not JSON. -/
theorem retrieve_chocoID_errors_witness :
    retrieve_chocoID unreadableStub "AB1234567" =
      (Chocolates.zero, some (errors_New
        ("RETRIEVE_CHOCOID: Error retrieving chocolates with chocoID = " ++ "AB1234567"))) ∧
    retrieve_chocoID emptyStub "AB1234567" =
      (Chocolates.zero, some ⟨"RETRIEVE_CHOCOID: Corrupt chocolates record", none⟩) ∧
    (retrieve_chocoID garbledStub "AB1234567").2 =
      some ⟨"RETRIEVE_CHOCOID: Corrupt chocolates record", some (.text "not json")⟩ ∧
    (retrieve_chocoID garbledStub "AB1234567").1 = Chocolates.zero :=
  ⟨(retrieve_chocoID_errors unreadableStub "AB1234567").1 rfl,
    (retrieve_chocoID_errors emptyStub "AB1234567").2.2.1 rfl rfl,
    (retrieve_chocoID_errors garbledStub "AB1234567").2.1 rfl rfl,
    (retrieve_chocoID_errors garbledStub "AB1234567").2.2.2.1 rfl rfl
      (fun _ h => Bytes.noConfusion (Option.some.inj h))⟩

/-! ### Writes that the ledger refuses -/

/-- C22 (the code at the failing input): on a ledger that refuses the write of the index
record and accepts the write of the peer address, `Init` returns `nil, nil`; the error of
the first `PutState` (line 122) is overwritten by the second (line 125), and the ledger
is left without an index. -/
theorem Init_ignores_index_write_failure :
    indexRefusedStub.putErr "chocoIDs" = true ∧
    (Init indexRefusedStub "init" ["localhost:7050"]).2.map Result.succeeded = some true ∧
    ((Init indexRefusedStub "init" ["localhost:7050"]).1.state "chocoIDs").isNone = true ∧
    ((Init indexRefusedStub "init" ["localhost:7050"]).1.state "Peer_Address").isSome = true := by
  refine ⟨rfl, rfl, rfl, rfl⟩

/-! ### What is read back after a save -/

/-- C25 (the code at the failing input): a record whose ingredient dates are set is
saved and read back; the save succeeds, the read succeeds, and the record read has both
dates empty, so it is not the record that was saved. -/
theorem save_changes_drops_ingredient_dates :
    datedRecord.IngredOrderDate = "2016-08-01" ∧ datedRecord.IngredDelvDate = "2016-08-09" ∧
    save_changes emptyStub datedRecord =
      (emptyStub.put "AB1234567" (json_Marshal datedRecord), .ok true) ∧
    (retrieve_chocoID (save_changes emptyStub datedRecord).1 "AB1234567").2.isNone = true ∧
    (retrieve_chocoID (save_changes emptyStub datedRecord).1 "AB1234567").1.IngredOrderDate = "" ∧
    (retrieve_chocoID (save_changes emptyStub datedRecord).1 "AB1234567").1.IngredDelvDate = "" ∧
    (retrieve_chocoID (save_changes emptyStub datedRecord).1 "AB1234567").1 ≠ datedRecord := by
  have hsave : save_changes emptyStub datedRecord =
      (emptyStub.put "AB1234567" (json_Marshal datedRecord), .ok true) :=
    save_changes_ok emptyStub datedRecord rfl
  have hread := retrieve_chocoID_of_stored
    (emptyStub.put "AB1234567" (json_Marshal datedRecord)) "AB1234567" _ rfl
    (stored_put_same emptyStub "AB1234567" _ _
      (unmarshal_marshal_Chocolates datedRecord fitsInt_zero))
  refine ⟨rfl, rfl, hsave, ?_⟩
  rw [hsave]
  simp only
  rw [hread]
  exact ⟨rfl, rfl, rfl, by decide⟩

/-! ### The values `update_vin` accepts -/

/-- C26 (the code at the failing input): `-12345678901234` is not fifteen decimal digits,
and `update_vin` accepts it: called by the manufacturer for its vehicle it succeeds and
stores the negative number as the VIN. -/
theorem update_vin_accepts_signed_value :
    FifteenDigits "-12345678901234" = false ∧
    AcceptedVIN "-12345678901234" ∧
    (VehicleOp.run carLeaseConstants manufactureStub
      ⟨"AB1234567", VehicleCall.update_vin "mia" 2 "-12345678901234"⟩).2.succeeded = true ∧
    (stored Vehicle (VehicleOp.run carLeaseConstants manufactureStub
      ⟨"AB1234567", VehicleCall.update_vin "mia" 2 "-12345678901234"⟩).1 "AB1234567").map
        Vehicle.VIN = some (-12345678901234) := by
  have hrun := run_update_vin_ok carLeaseConstants manufactureStub "AB1234567"
    manufactureVehicle "mia" 2 "-12345678901234" (-12345678901234) rfl stored_manufactureStub
    (by decide) (by decide) (by unfold UpdateVinGuard; decide) rfl
  rw [hrun]
  refine ⟨by decide, ⟨by decide, by decide⟩, rfl, ?_⟩
  have h := stored_after_save manufactureStub
    { manufactureVehicle with VIN := -12345678901234 }
    ⟨fitsInt_one, by unfold FitsInt; decide⟩
  exact (congrArg (Option.map Vehicle.VIN) h).trans rfl

/-! ### Short argument lists -/

/-- C29 (the code at the failing inputs): with a caller that resolves, `Invoke` panics on
an index into `args` (the result `none`) for `create_chocolates` and `finish_delivery`
with no argument (`args[0]`), and for a transfer and an update with one argument
(`args[1]`). -/
theorem Invoke_short_argument_list :
    get_caller_data (outsideWith "alice\\dept\\1") conceptStub =
      some (.ok ("alice\\dept\\1", 1)) ∧
    Invoke (outsideWith "alice\\dept\\1") absentFunctions conceptStub "create_chocolates" [] =
      (conceptStub, none) ∧
    Invoke (outsideWith "alice\\dept\\1") absentFunctions conceptStub "finish_delivery" [] =
      (conceptStub, none) ∧
    Invoke (outsideWith "alice\\dept\\1") absentFunctions conceptStub "concepting_to_printing"
      ["bob"] = (conceptStub, none) ∧
    Invoke (outsideWith "alice\\dept\\1") absentFunctions conceptStub "update_test"
      ["2016-08-01"] = (conceptStub, none) := by
  refine ⟨rfl, rfl, rfl, rfl, rfl⟩

/-! ### What creation leaves in the ledger -/

theorem setMember_Chocolates_capital (c : Chocolates) (j : Json) :
    Chocolates.setMember c "Chocolatier" j =
      ({ c with Chocolatier := (decodeString j c.Chocolatier).1 },
        (decodeString j c.Chocolatier).2) := rfl

theorem foldl_chocolatier_keys (values : List Json) :
    ∀ (acc : Chocolates × Bool) (x : String),
      acc.1 = { Chocolates.zero with Chocolatier := x } →
      ∃ y, ((values.map fun j => ("Chocolatier", j)).foldl
        (fun acc m => ((Record.setMember acc.1 m.1 m.2).1,
          acc.2 || (Record.setMember acc.1 m.1 m.2).2)) acc).1 =
        { Chocolates.zero with Chocolatier := y } := by
  induction values with
  | nil => exact fun acc x h => ⟨x, h⟩
  | cons j js ih =>
    intro acc x h
    refine ih _ (decodeString j x).1 ?_
    show (Chocolates.setMember acc.1 "Chocolatier" j).1 = _
    rw [setMember_Chocolates_capital, h]

/-- C24 (the code at the failing input): on the ledger `Init` leaves, `create_chocolates`
called by a `DU_RHONE` caller with the unused, well-formed id `AB1234567` returns
`Invalid chocoID provided`, and no record is stored under the id afterwards.  And a JSON
object whose members all have the key `Chocolatier`, as every member written on lines
372-399 has, decodes to a record that is empty but for its `Chocolatier` field: without
an id, without an owner, with no attribute at `UNDEFINED`. -/
theorem create_chocolates_stores_no_record :
    (create_chocolates initStub "alice" DU_RHONE "AB1234567").2.errorMsg =
      some "Invalid chocoID provided" ∧
    stored Chocolates (create_chocolates initStub "alice" DU_RHONE "AB1234567").1
      "AB1234567" = none ∧
    (∀ values : List Json, ∃ chocolatier,
      (json_Unmarshal (some (.json (.obj (values.map fun j => ("Chocolatier", j)))))
        Chocolates.zero).1 = { Chocolates.zero with Chocolatier := chocolatier }) := by
  rw [create_chocolates_eval]
  refine ⟨rfl, rfl, fun values => ?_⟩
  exact foldl_chocolatier_keys values (Chocolates.zero, false) "" rfl

/-- C30 (the code at the failing input): on the ledger `Init` leaves, `alice`, a
`DU_RHONE` caller, creates `AB1234567` and then hands it to a printer; the creation
returns `Invalid chocoID provided`, the transfer `Error retrieving chocoID`, and the
ledger is as `Init` left it.  And what `create_chocolates` returns and writes is the same
for every caller name: the name is not used. -/
theorem created_asset_has_no_owner :
    (runAll ChocolatesOp.run initStub
      [ChocolatesOp.create_chocolates "alice" DU_RHONE "AB1234567",
       ChocolatesOp.concepting_to_printing "AB1234567" "alice" DU_RHONE "pete" PRINTER]).2.map
        Result.errorMsg =
      [some "Invalid chocoID provided", some "Error retrieving chocoID"] ∧
    (runAll ChocolatesOp.run initStub
      [ChocolatesOp.create_chocolates "alice" DU_RHONE "AB1234567",
       ChocolatesOp.concepting_to_printing "AB1234567" "alice" DU_RHONE "pete" PRINTER]).1 =
      initStub ∧
    (∀ (stub : ChaincodeStub) (caller other : String) (ca : Int) (chocoID : String),
      create_chocolates stub caller ca chocoID = create_chocolates stub other ca chocoID) := by
  refine ⟨?_, ?_, fun _ _ _ _ _ => rfl⟩
  · simp only [runAll, ChocolatesOp.run, create_chocolates_eval]
    rfl
  · simp only [runAll, ChocolatesOp.run, create_chocolates_eval]
    rfl

/-- C27: whenever `create_chocolates` returns an error, the ledger after the call is the
ledger before it, whatever the ledger holds under the index key.  (The function returns
on line 412 for every input, before its first write on line 428.) -/
theorem create_chocolates_atomic (stub : ChaincodeStub) (caller : String)
    (caller_affiliation : Int) (chocoID : String)
    (_h : (create_chocolates stub caller caller_affiliation chocoID).2.succeeded = false) :
    (create_chocolates stub caller caller_affiliation chocoID).1 = stub := by
  rw [create_chocolates_eval]

/-- The witness of C27: a creation by a `DU_RHONE` caller on a ledger without an index
record, and on a ledger whose index record does not decode. -/
theorem create_chocolates_atomic_witness :
    (create_chocolates emptyStub "alice" DU_RHONE "AB1234567").2.succeeded = false ∧
    (create_chocolates emptyStub "alice" DU_RHONE "AB1234567").1 = emptyStub ∧
    (create_chocolates brokenIndexStub "alice" DU_RHONE "AB1234567").2.succeeded = false ∧
    (create_chocolates brokenIndexStub "alice" DU_RHONE "AB1234567").1 = brokenIndexStub :=
  ⟨rfl, create_chocolates_atomic emptyStub "alice" DU_RHONE "AB1234567" rfl,
    rfl, create_chocolates_atomic brokenIndexStub "alice" DU_RHONE "AB1234567" rfl⟩

/-! ### The id of a record and the key it is stored under -/

theorem rewrites_refiles {α : Type} [Asset α] {owner : α → String} {status : α → Int}
    {retired : α → Bool} {caller : String} {stub stub1 : ChaincodeStub}
    (hstep : Rewrites α owner status retired caller stub stub1) : Refiles α stub stub1 := by
  rcases hstep with h | ⟨target, r, bytes, r1, hr, _, _, hput, hdec, hkey, _⟩
  · exact Or.inl h
  · exact Or.inr ⟨target, r, bytes, r1, hr, hput, hdec, hkey⟩

theorem refiles_key_kept {α : Type} [Asset α] {owner : α → String}
    {stub stub1 : ChaincodeStub} (hstep : Refiles α stub stub1)
    (hfiled : FiledUnderOwnId α owner stub)
    (k : String) (x : α) (hx : stored α stub k = some x) (hown : owner x ≠ "") :
    ∃ x1, stored α stub1 k = some x1 ∧ Asset.key x1 = Asset.key x := by
  rcases hstep with h | ⟨target, r, bytes, r1, _, hput, hdec, hkey⟩
  · rw [h]
    exact ⟨x, hx, rfl⟩
  · rw [hput, stored_put]
    by_cases hk : k = Asset.key r
    · rw [if_pos hk, hdec]
      refine ⟨r1, by simp, ?_⟩
      rw [hkey, hfiled k x hx hown, hk]
    · rw [if_neg hk]
      exact ⟨x, hx, rfl⟩

theorem refiles_filed {α : Type} [Asset α] {owner : α → String}
    {stub stub1 : ChaincodeStub} (hstep : Refiles α stub stub1)
    (hfiled : FiledUnderOwnId α owner stub) : FiledUnderOwnId α owner stub1 := by
  rcases hstep with h | ⟨target, r, bytes, r1, _, hput, hdec, hkey⟩
  · rw [h]
    exact hfiled
  · intro k x hx hown
    rw [hput, stored_put] at hx
    by_cases hk : k = Asset.key r
    · rw [if_pos hk, hdec] at hx
      simp only [Bool.false_eq_true, if_false, Option.some.injEq] at hx
      rw [← hx, hkey, hk]
    · rw [if_neg hk] at hx
      exact hfiled k x hx hown

theorem saveVehicle_refiles (stub : ChaincodeStub) (target : String) (v v1 : Vehicle)
    (msg : String) (hv : stored Vehicle stub target = some v) (hkey : v1.V5cID = v.V5cID)
    (hfit : FitsInt v1.Status ∧ FitsInt v1.VIN) :
    Refiles Vehicle stub (saveVehicle stub v1 msg).1 := by
  by_cases hp : stub.putErr v1.V5cID = true
  · rw [saveVehicle_err stub v1 msg hp]
    exact Or.inl rfl
  · rw [saveVehicle_ok stub v1 msg (by simpa using hp)]
    refine Or.inr ⟨target, v, json_Marshal v1, v1, hv, ?_,
      unmarshal_marshal_Vehicle v1 hfit.1 hfit.2, hkey⟩
    show stub.put v1.V5cID (json_Marshal v1) = stub.put v.V5cID (json_Marshal v1)
    rw [hkey]

theorem apply_refiles_Vehicle (K : VehicleConstants) (hK : FitsInt K.STATE_BEING_SCRAPPED)
    (stub : ChaincodeStub) (target : String) (v : Vehicle) (call : VehicleCall)
    (hv : stored Vehicle stub target = some v) :
    Refiles Vehicle stub (call.apply K stub v).1 := by
  have hfit := stored_Vehicle_fits stub target v hv
  cases call with
  | private_to_private caller ca rn ra =>
    simp only [VehicleCall.apply, Chaincode.private_to_private]
    split_ifs with hg
    · exact saveVehicle_refiles stub target v _ _ hv rfl hfit
    · exact Or.inl rfl
  | private_to_lease_company caller ca rn ra =>
    simp only [VehicleCall.apply, Chaincode.private_to_lease_company]
    split_ifs with hg
    · exact saveVehicle_refiles stub target v _ _ hv rfl hfit
    · exact Or.inl rfl
  | lease_company_to_private caller ca rn ra =>
    simp only [VehicleCall.apply, Chaincode.lease_company_to_private]
    split_ifs with hg
    · exact saveVehicle_refiles stub target v _ _ hv rfl hfit
    · exact Or.inl rfl
  | private_to_scrap_merchant caller ca rn ra =>
    simp only [VehicleCall.apply, Chaincode.private_to_scrap_merchant]
    split_ifs with hg
    · exact saveVehicle_refiles stub target v _ _ hv rfl ⟨hK, hfit.2⟩
    · exact Or.inl rfl
  | update_vin caller ca new_value =>
    simp only [VehicleCall.apply, Chaincode.update_vin]
    cases hn : strconv_Atoi new_value with
    | none => exact Or.inl rfl
    | some new_vin =>
      simp only
      split_ifs with hlen hg
      · exact Or.inl rfl
      · exact saveVehicle_refiles stub target v _ _ hv rfl
          ⟨hfit.1, strconv_Atoi_fits new_value new_vin hn⟩
      · exact Or.inl rfl
  | update_registration caller ca new_value =>
    simp only [VehicleCall.apply, Chaincode.update_registration]
    split_ifs with hg
    · exact saveVehicle_refiles stub target v _ _ hv rfl hfit
    · exact Or.inl rfl
  | update_colour caller ca new_value =>
    simp only [VehicleCall.apply, Chaincode.update_colour]
    split_ifs with hg
    · exact saveVehicle_refiles stub target v _ _ hv rfl hfit
    · exact Or.inl rfl
  | update_make caller ca new_value =>
    simp only [VehicleCall.apply, Chaincode.update_make]
    split_ifs with hg
    · exact saveVehicle_refiles stub target v _ _ hv rfl hfit
    · exact Or.inl rfl
  | update_model caller ca new_value =>
    simp only [VehicleCall.apply, Chaincode.update_model]
    split_ifs with hg
    · exact saveVehicle_refiles stub target v _ _ hv rfl hfit
    · exact Or.inl rfl
  | scrap_vehicle caller ca =>
    simp only [VehicleCall.apply, Chaincode.scrap_vehicle]
    split_ifs with hg
    · exact saveVehicle_refiles stub target v _ _ hv rfl hfit
    · exact Or.inl rfl

theorem run_refiles_Vehicle (K : VehicleConstants) (hK : FitsInt K.STATE_BEING_SCRAPPED)
    (stub : ChaincodeStub) (op : VehicleOp) : Refiles Vehicle stub (op.run K stub).1 := by
  rcases h : retrieve_v5c stub op.v5cID with ⟨v, _ | e⟩
  · simp only [VehicleOp.run, h]
    exact apply_refiles_Vehicle K hK stub op.v5cID v op.call
      (retrieve_v5c_loaded stub op.v5cID v h)
  · simp only [VehicleOp.run, h]
    exact Or.inl rfl

/-- C28: the predicate "every record that has an owner is stored under its own id" is
kept by every operation: by `create_chocolates`, by both transitions of chocolates, and
by every transfer, field update and the scrapping of vehicles (the undeclared constant
`STATE_BEING_SCRAPPED` being a Go `int`).  On a ledger where it holds, after every
operation every such record is still stored under its key with the id it had.  And
whatever the ledger holds, what an operation writes is written under the id of the
record it loaded and decodes to a record with that id. -/
theorem asset_id_is_ledger_key (K : VehicleConstants) (stub : ChaincodeStub) :
    (∀ op : ChocolatesOp, Refiles Chocolates stub (op.run stub).1) ∧
    (FiledUnderOwnId Chocolates Chocolates.Owner stub →
      ∀ op : ChocolatesOp,
        FiledUnderOwnId Chocolates Chocolates.Owner (op.run stub).1 ∧
        ∀ k c, stored Chocolates stub k = some c → c.Owner ≠ "" →
          ∃ c1, stored Chocolates (op.run stub).1 k = some c1 ∧ c1.ChocoID = c.ChocoID) ∧
    (FitsInt K.STATE_BEING_SCRAPPED →
      ∀ op : VehicleOp, Refiles Vehicle stub (op.run K stub).1) ∧
    (FitsInt K.STATE_BEING_SCRAPPED → FiledUnderOwnId Vehicle Vehicle.Owner stub →
      ∀ op : VehicleOp,
        FiledUnderOwnId Vehicle Vehicle.Owner (op.run K stub).1 ∧
        ∀ k v, stored Vehicle stub k = some v → v.Owner ≠ "" →
          ∃ v1, stored Vehicle (op.run K stub).1 k = some v1 ∧ v1.V5cID = v.V5cID) := by
  refine ⟨fun op => rewrites_refiles (run_rewrites_Chocolates stub op),
    fun hfiled op => ⟨?_, fun k c hc hown => ?_⟩,
    fun hK op => run_refiles_Vehicle K hK stub op,
    fun hK hfiled op => ⟨?_, fun k v hv hown => ?_⟩⟩
  · exact refiles_filed (rewrites_refiles (run_rewrites_Chocolates stub op)) hfiled
  · exact refiles_key_kept (rewrites_refiles (run_rewrites_Chocolates stub op)) hfiled
      k c hc hown
  · exact refiles_filed (run_refiles_Vehicle K hK stub op) hfiled
  · exact refiles_key_kept (run_refiles_Vehicle K hK stub op) hfiled k v hv hown

/-- The witness of C28: a concept record handed to a printer, and a privately owned
vehicle handed to a scrap merchant, each on a ledger where it is stored under its id. -/
theorem asset_id_is_ledger_key_witness :
    (FiledUnderOwnId Chocolates Chocolates.Owner
        ((ChocolatesOp.concepting_to_printing "AB1234567" "alice" DU_RHONE "bob" PRINTER).run
          conceptStub).1 ∧
      ∃ c1, stored Chocolates
        ((ChocolatesOp.concepting_to_printing "AB1234567" "alice" DU_RHONE "bob" PRINTER).run
          conceptStub).1 "AB1234567" = some c1 ∧
        c1.ChocoID = (conceptRecord "AB1234567" "alice").ChocoID) ∧
    (FiledUnderOwnId Vehicle Vehicle.Owner
        (VehicleOp.run carLeaseConstants privateStub
          ⟨"AB1234567", VehicleCall.private_to_scrap_merchant "pat" 3 "sam" 5⟩).1 ∧
      ∃ v1, stored Vehicle
        (VehicleOp.run carLeaseConstants privateStub
          ⟨"AB1234567", VehicleCall.private_to_scrap_merchant "pat" 3 "sam" 5⟩).1
          "AB1234567" = some v1 ∧ v1.V5cID = privateVehicle.V5cID) :=
  ⟨⟨((asset_id_is_ledger_key carLeaseConstants conceptStub).2.1 filed_conceptStub _).1,
      ((asset_id_is_ledger_key carLeaseConstants conceptStub).2.1 filed_conceptStub _).2
        "AB1234567" _ stored_conceptStub (by decide)⟩,
    ⟨((asset_id_is_ledger_key carLeaseConstants privateStub).2.2.2 fitsInt_four
        filed_privateStub _).1,
      ((asset_id_is_ledger_key carLeaseConstants privateStub).2.2.2 fitsInt_four
        filed_privateStub _).2 "AB1234567" _ stored_privateStub (by decide)⟩⟩

/-! ### The index -/

theorem assetIndex_after_Init (stub : ChaincodeStub) (function : String) (args : List String)
    (hput : stub.putErr "chocoIDs" = false) :
    assetIndex (Init stub function args).1 = some [] := by
  have hstate : (Init stub function args).1.state "chocoIDs" =
      some (json_Marshal (Record.zero : Choco_Holder)) := by
    unfold Init
    simp only [ChaincodeStub.PutState, hput, Bool.false_eq_true, if_false]
    cases args with
    | nil => simp [ChaincodeStub.put]
    | cons peer_address rest =>
      simp only
      split_ifs with hp
      · simp [ChaincodeStub.put]
      · simp [ChaincodeStub.put]
  unfold assetIndex stored
  rw [hstate]
  rfl

/-! ### What a transfer persists -/

/-- C1 (the code at the failing input): a concept record whose ingredient dates are set
passes the five guards of `concepting_to_printing` and the call succeeds; what it puts in
the ledger is what it puts for the same record without the dates, so the record read
back has both dates empty: it is not the old record with only owner and status
replaced. -/
theorem concepting_to_printing_drops_dates :
    ConceptingToPrintingGuard datedRecord "alice" DU_RHONE PRINTER ∧
    concepting_to_printing emptyStub datedRecord "alice" DU_RHONE "bob" PRINTER =
      (emptyStub.put "AB1234567" (json_Marshal
        ({ datedRecord with Owner := "bob", Status := STATE_PRINTING } : Chocolates)),
        .ok none) ∧
    json_Marshal ({ datedRecord with Owner := "bob", Status := STATE_PRINTING } : Chocolates) =
      json_Marshal ({ conceptRecord "AB1234567" "alice" with
        Owner := "bob", Status := STATE_PRINTING } : Chocolates) ∧
    retrieve_chocoID
        (concepting_to_printing emptyStub datedRecord "alice" DU_RHONE "bob" PRINTER).1
        "AB1234567" =
      ({ conceptRecord "AB1234567" "alice" with Owner := "bob", Status := STATE_PRINTING },
        none) ∧
    ({ conceptRecord "AB1234567" "alice" with
        Owner := "bob", Status := STATE_PRINTING } : Chocolates) ≠
      { datedRecord with Owner := "bob", Status := STATE_PRINTING } := by
  have hg : ConceptingToPrintingGuard datedRecord "alice" DU_RHONE PRINTER :=
    ⟨rfl, rfl, rfl, rfl, rfl⟩
  have hrun := concepting_to_printing_pass emptyStub datedRecord "alice" DU_RHONE "bob"
    PRINTER rfl hg
  have hread := retrieve_chocoID_of_stored
    (emptyStub.put "AB1234567" (json_Marshal
      ({ datedRecord with Owner := "bob", Status := STATE_PRINTING } : Chocolates)))
    "AB1234567" _ rfl
    (stored_put_same emptyStub "AB1234567" _ _
      (unmarshal_marshal_Chocolates
        ({ datedRecord with Owner := "bob", Status := STATE_PRINTING } : Chocolates)
        fitsInt_one))
  refine ⟨hg, hrun, rfl, ?_, by decide⟩
  rw [hrun]
  exact hread

/-! ### Retired records and the order of the stages, along sequences of operations -/

theorem wellFiled_emptyStub (α : Type) [Asset α] : WellFiled α emptyStub := by
  intro k r h _
  rw [stored_emptyStub] at h
  exact Option.noConfusion h

theorem wellFiled_put {α : Type} [Asset α] (stub : ChaincodeStub) (key : String)
    (bytes : Bytes) (r0 : α) (hfiled : WellFiled α stub)
    (hdec : json_Unmarshal (some bytes) (Record.zero : α) = (r0, false))
    (hkey : Asset.key r0 ≠ "" → Asset.key r0 = key) : WellFiled α (stub.put key bytes) := by
  intro k x hx hid
  by_cases hk : k = key
  · rw [hk, stored_put_same stub key bytes r0 hdec] at hx
    simp only [Option.some.injEq] at hx
    rw [← hx] at hid ⊢
    rw [hk]
    exact hkey hid
  · rw [stored_put, if_neg hk] at hx
    exact hfiled k x hx hid

theorem touches_wellFiled {α : Type} [Asset α] {owner : α → String}
    {retired : α → Bool} {caller : String} {stub stub1 : ChaincodeStub}
    (hstep : Touches α owner retired caller stub stub1)
    (hfiled : WellFiled α stub) : WellFiled α stub1 := by
  rcases hstep with h | ⟨target, r, bytes, _, _, _, hput, hkey⟩
  · rw [h]
    exact hfiled
  · intro k x hx hid
    rw [hput, stored_put] at hx
    by_cases hk : k = Asset.key r
    · rw [if_pos hk] at hx
      by_cases hu : (json_Unmarshal (some bytes) (Record.zero : α)).2 = true
      · rw [if_pos hu] at hx
        exact Option.noConfusion hx
      · rw [if_neg hu] at hx
        simp only [Option.some.injEq] at hx
        have hdec : json_Unmarshal (some bytes) (Record.zero : α) = (x, false) := by
          rw [← hx]
          exact Prod.ext rfl (by simpa using hu)
        rw [hkey x hdec, hk]
    · rw [if_neg hk] at hx
      exact hfiled k x hx hid

theorem touches_retired_stays {α : Type} [Asset α] {owner : α → String}
    {retired : α → Bool} {caller : String} {stub stub1 : ChaincodeStub}
    (hstep : Touches α owner retired caller stub stub1)
    (hfiled : WellFiled α stub) (k : String) (hk0 : k ≠ "") (x : α)
    (hx : stored α stub k = some x) (hret : retired x = true) :
    stub1.state k = stub.state k := by
  rcases hstep with h | ⟨target, r, bytes, hr, _, hnot, hput, _⟩
  · rw [h]
  · have hk : k ≠ Asset.key r := by
      intro hk
      have htarget : Asset.key r = target := hfiled target r hr (by rw [← hk]; exact hk0)
      rw [hk, htarget, hr] at hx
      simp only [Option.some.injEq] at hx
      rw [hx, hret] at hnot
      exact Bool.noConfusion hnot
    rw [hput]
    simp [ChaincodeStub.put, hk]

theorem rewrites_status_stays {α : Type} [Asset α] {owner : α → String} {status : α → Int}
    {retired : α → Bool} {caller : String} {stub stub1 : ChaincodeStub}
    (hstep : Rewrites α owner status retired caller stub stub1)
    (hfiled : WellFiled α stub) (k : String) (hk0 : k ≠ "") (x : α)
    (hx : stored α stub k = some x) :
    ∃ x1, stored α stub1 k = some x1 ∧ status x ≤ status x1 := by
  rcases hstep with h | ⟨target, r, bytes, r1, hr, _, _, hput, hdec, _, hle⟩
  · rw [h]
    exact ⟨x, hx, le_refl _⟩
  · rw [hput, stored_put]
    by_cases hk : k = Asset.key r
    · have htarget : Asset.key r = target := hfiled target r hr (by rw [← hk]; exact hk0)
      rw [if_pos hk, hdec]
      refine ⟨r1, by simp, ?_⟩
      rw [hk, htarget, hr] at hx
      simp only [Option.some.injEq] at hx
      rw [← hx]
      exact hle
    · rw [if_neg hk]
      exact ⟨x, hx, le_refl _⟩

theorem runAll_wellFiled {α Op : Type} [Asset α] {owner : α → String}
    {retired : α → Bool} (run : ChaincodeStub → Op → ChaincodeStub × Result)
    (caller : Op → String)
    (hrun : ∀ stub op, Touches α owner retired (caller op) stub (run stub op).1)
    (ops : List Op) (stub : ChaincodeStub) (hfiled : WellFiled α stub) :
    WellFiled α (runAll run stub ops).1 := by
  induction ops generalizing stub with
  | nil => exact hfiled
  | cons op ops ih => exact ih (run stub op).1 (touches_wellFiled (hrun stub op) hfiled)

theorem runAll_retired_stays {α Op : Type} [Asset α] {owner : α → String}
    {retired : α → Bool} (run : ChaincodeStub → Op → ChaincodeStub × Result)
    (caller : Op → String)
    (hrun : ∀ stub op, Touches α owner retired (caller op) stub (run stub op).1)
    (ops : List Op) (stub : ChaincodeStub) (hfiled : WellFiled α stub) (k : String)
    (hk0 : k ≠ "") (x : α) (hx : stored α stub k = some x) (hret : retired x = true) :
    (runAll run stub ops).1.state k = stub.state k := by
  induction ops generalizing stub with
  | nil => rfl
  | cons op ops ih =>
    have h1 := touches_retired_stays (hrun stub op) hfiled k hk0 x hx hret
    have hx1 : stored α (run stub op).1 k = some x := by
      simp only [stored, h1] at hx ⊢
      exact hx
    have h2 := ih (run stub op).1 (touches_wellFiled (hrun stub op) hfiled) hx1
    exact h2.trans h1

theorem runAll_status_stays {α Op : Type} [Asset α] {owner : α → String}
    {status : α → Int} {retired : α → Bool}
    (run : ChaincodeStub → Op → ChaincodeStub × Result) (caller : Op → String)
    (hrun : ∀ stub op, Rewrites α owner status retired (caller op) stub (run stub op).1)
    (ops : List Op) (stub : ChaincodeStub) (hfiled : WellFiled α stub) (k : String)
    (hk0 : k ≠ "") (x : α) (hx : stored α stub k = some x) :
    ∃ x1, stored α (runAll run stub ops).1 k = some x1 ∧ status x ≤ status x1 := by
  induction ops generalizing stub x with
  | nil => exact ⟨x, hx, le_refl _⟩
  | cons op ops ih =>
    obtain ⟨y, hy, hxy⟩ := rewrites_status_stays (hrun stub op) hfiled k hk0 x hx
    obtain ⟨z, hz, hyz⟩ := ih (run stub op).1
      (touches_wellFiled (rewrites_touches (hrun stub op)) hfiled) y hy
    exact ⟨z, hz, le_trans hxy hyz⟩

theorem wellFiled_deliveredStub : WellFiled Chocolates deliveredStub :=
  wellFiled_put emptyStub "AB1234567" _ _ (wellFiled_emptyStub Chocolates)
    (unmarshal_marshal_Chocolates (deliveredRecord "AB1234567" "dora") fitsInt_six)
    (fun _ => rfl)

theorem wellFiled_twoRecordsStub : WellFiled Chocolates twoRecordsStub :=
  wellFiled_put deliveredStub "CD7654321" _ _ wellFiled_deliveredStub
    (unmarshal_marshal_Chocolates (conceptRecord "CD7654321" "alice") fitsInt_zero)
    (fun _ => rfl)

theorem stored_twoRecords_delivered :
    stored Chocolates twoRecordsStub "AB1234567" =
      some (deliveredRecord "AB1234567" "dora") := by
  unfold twoRecordsStub
  rw [stored_put, if_neg (by decide)]
  exact stored_deliveredStub

theorem stored_twoRecords_concept :
    stored Chocolates twoRecordsStub "CD7654321" = some (conceptRecord "CD7654321" "alice") :=
  stored_put_same deliveredStub "CD7654321" _ _
    (unmarshal_marshal_Chocolates (conceptRecord "CD7654321" "alice") fitsInt_zero)

theorem twoRecords_transfer :
    (ChocolatesOp.concepting_to_printing "CD7654321" "alice" DU_RHONE "bob" PRINTER).run
        twoRecordsStub =
      (twoRecordsStub.put "CD7654321" (json_Marshal
        ({ conceptRecord "CD7654321" "alice" with
          Owner := "bob", Status := STATE_PRINTING } : Chocolates)), .ok none) := by
  have h := retrieve_chocoID_of_stored twoRecordsStub "CD7654321" _ rfl
    stored_twoRecords_concept
  simp only [ChocolatesOp.run, h]
  exact concepting_to_printing_pass twoRecordsStub (conceptRecord "CD7654321" "alice") "alice"
    DU_RHONE "bob" PRINTER rfl ⟨rfl, rfl, rfl, rfl, rfl⟩

theorem wellFiled_listedStub : WellFiled Vehicle listedStub :=
  wellFiled_put _ "v5cIDs" (json_Marshal twoIds) Vehicle.zero
    (wellFiled_put _ "AB1234567" _ _
      (wellFiled_put emptyStub "XY7654321" _ _ (wellFiled_emptyStub Vehicle)
        (unmarshal_marshal_Vehicle scrappedVehicle fitsInt_four fitsInt_zero) (fun _ => rfl))
      (unmarshal_marshal_Vehicle manufactureVehicle fitsInt_one fitsInt_zero) (fun _ => rfl))
    rfl (fun h => absurd rfl h)

theorem listed_update_make :
    (VehicleOp.run carLeaseConstants listedStub
      ⟨"AB1234567", VehicleCall.update_make "mia" 2 "Mini"⟩).2.succeeded = true := by
  simp only [VehicleOp.run, retrieve_v5c_of_stored listedStub "AB1234567" manufactureVehicle
    rfl stored_listedStub_manufacture, VehicleCall.apply]
  rfl

theorem wellFiled_privateStub : WellFiled Vehicle privateStub :=
  wellFiled_put emptyStub "AB1234567" _ _ (wellFiled_emptyStub Vehicle)
    (unmarshal_marshal_Vehicle privateVehicle fitsInt_carLease.1 fitsInt_carLease.2)
    (fun _ => rfl)

/-- C3: when the record stored under an id is retired (`Delivered` for chocolates,
`Scrapped` for vehicles), every operation addressed to that id (creation with that id,
every transition, every field update, the retire operation) returns an error and leaves
the whole ledger, the stored record with it, as it was, and so does every sequence of
operations addressed to that id.  And on a ledger where every record that has an id is
stored under it, the value stored under the (non-empty) id is the same after every
sequence of operations, whatever ids they are addressed to and whether they succeed: the
flag stays true and the record never changes. -/
theorem retired_blocks_mutation (K : VehicleConstants) (stub : ChaincodeStub) (id : String) :
    (∀ c, stored Chocolates stub id = some c → c.Delivered = true →
      (∀ op : ChocolatesOp, op.target = id → Rejected stub (op.run stub)) ∧
      (∀ ops : List ChocolatesOp, (∀ op ∈ ops, op.target = id) →
        (runAll ChocolatesOp.run stub ops).1 = stub ∧
        ∀ r ∈ (runAll ChocolatesOp.run stub ops).2, r.succeeded = false) ∧
      (WellFiled Chocolates stub → id ≠ "" →
        ∀ ops : List ChocolatesOp,
          (runAll ChocolatesOp.run stub ops).1.state id = stub.state id)) ∧
    (∀ v, stored Vehicle stub id = some v → v.Scrapped = true →
      (∀ op : VehicleOp, op.v5cID = id → Rejected stub (op.run K stub)) ∧
      (∀ ops : List VehicleOp, (∀ op ∈ ops, op.v5cID = id) →
        (runAll (VehicleOp.run K) stub ops).1 = stub ∧
        ∀ r ∈ (runAll (VehicleOp.run K) stub ops).2, r.succeeded = false) ∧
      (WellFiled Vehicle stub → id ≠ "" →
        ∀ ops : List VehicleOp,
          (runAll (VehicleOp.run K) stub ops).1.state id = stub.state id)) := by
  refine ⟨fun c hc hd => ⟨?_, ?_, ?_⟩, fun v hv hs => ⟨?_, ?_, ?_⟩⟩
  · intro op hop
    exact run_rejected_of_delivered stub op c (by rw [hop]; exact hc) hd
  · intro ops hops
    exact runAll_rejected ChocolatesOp.run stub ops (fun op ho =>
      run_rejected_of_delivered stub op c (by rw [hops op ho]; exact hc) hd)
  · intro hfiled hid ops
    exact runAll_retired_stays ChocolatesOp.run ChocolatesOp.caller
      (fun s op => rewrites_touches (run_rewrites_Chocolates s op)) ops stub hfiled
      id hid c hc hd
  · intro op hop
    exact run_rejected_of_scrapped K stub op v (by rw [hop]; exact hv) hs
  · intro ops hops
    exact runAll_rejected (VehicleOp.run K) stub ops (fun op ho =>
      run_rejected_of_scrapped K stub op v (by rw [hops op ho]; exact hv) hs)
  · intro hfiled hid ops
    exact runAll_retired_stays (VehicleOp.run K) (fun op => op.call.caller)
      (fun s op => run_touches_Vehicle K s op) ops stub hfiled id hid v hv hs

/-- The witness of C3: a ledger with a delivered record and a concept record; the owner
of the delivered record tries to hand it on, and a sequence in which the concept record
is handed to a printer (which succeeds) and the delivered record is addressed again
leaves the delivered record as it was.  And a ledger with a scrapped vehicle and a
vehicle at its manufacturer, where the make of the second is set (which succeeds) and the
first is scrapped again. -/
theorem retired_blocks_mutation_witness :
    Rejected twoRecordsStub
      ((ChocolatesOp.printing_to_supplying "AB1234567" "dora" PRINTER "sue" SUPPLIER).run
        twoRecordsStub) ∧
    ((ChocolatesOp.concepting_to_printing "CD7654321" "alice" DU_RHONE "bob" PRINTER).run
      twoRecordsStub).2.succeeded = true ∧
    (runAll ChocolatesOp.run twoRecordsStub
      [ChocolatesOp.concepting_to_printing "CD7654321" "alice" DU_RHONE "bob" PRINTER,
       ChocolatesOp.printing_to_supplying "AB1234567" "dora" PRINTER "sue" SUPPLIER]).1.state
        "AB1234567" = twoRecordsStub.state "AB1234567" ∧
    Rejected listedStub
      (VehicleOp.run carLeaseConstants listedStub
        ⟨"XY7654321", VehicleCall.update_registration "sam" 3 "NEW 1"⟩) ∧
    (VehicleOp.run carLeaseConstants listedStub
      ⟨"AB1234567", VehicleCall.update_make "mia" 2 "Mini"⟩).2.succeeded = true ∧
    (runAll (VehicleOp.run carLeaseConstants) listedStub
      [⟨"AB1234567", VehicleCall.update_make "mia" 2 "Mini"⟩,
       ⟨"XY7654321", VehicleCall.scrap_vehicle "sam" 5⟩]).1.state
        "XY7654321" = listedStub.state "XY7654321" :=
  ⟨((retired_blocks_mutation carLeaseConstants twoRecordsStub "AB1234567").1 _
      stored_twoRecords_delivered rfl).1 _ rfl,
    (congrArg (fun out : ChaincodeStub × Result => out.2.succeeded) twoRecords_transfer).trans
      rfl,
    ((retired_blocks_mutation carLeaseConstants twoRecordsStub "AB1234567").1 _
      stored_twoRecords_delivered rfl).2.2 wellFiled_twoRecordsStub (by decide) _,
    ((retired_blocks_mutation carLeaseConstants listedStub "XY7654321").2 _
      stored_listedStub_scrapped rfl).1 _ rfl,
    listed_update_make,
    ((retired_blocks_mutation carLeaseConstants listedStub "XY7654321").2 _
      stored_listedStub_scrapped rfl).2.2 wellFiled_listedStub (by decide) _⟩

/-- C4: on a ledger where every record that has an id is stored under it, the same holds
after every operation, and after every sequence of operations every record that was
stored under a (non-empty) id is still stored there with a status that is not lower than
before (for the vehicle functions: with the undeclared constants being Go `int`s and
`STATE_PRIVATE_OWNERSHIP` not above `STATE_BEING_SCRAPPED`). -/
theorem status_never_decreases (K : VehicleConstants) (stub : ChaincodeStub) :
    (WellFiled Chocolates stub →
      (∀ op : ChocolatesOp, WellFiled Chocolates (op.run stub).1) ∧
      ∀ (ops : List ChocolatesOp) (k : String) (c : Chocolates), k ≠ "" →
        stored Chocolates stub k = some c →
          ∃ c1, stored Chocolates (runAll ChocolatesOp.run stub ops).1 k = some c1 ∧
            c.Status ≤ c1.Status) ∧
    (K.Ordered → WellFiled Vehicle stub →
      (∀ op : VehicleOp, WellFiled Vehicle (op.run K stub).1) ∧
      ∀ (ops : List VehicleOp) (k : String) (v : Vehicle), k ≠ "" →
        stored Vehicle stub k = some v →
          ∃ v1, stored Vehicle (runAll (VehicleOp.run K) stub ops).1 k = some v1 ∧
            v.Status ≤ v1.Status) := by
  refine ⟨fun hfiled => ⟨fun op => ?_, fun ops k c hk hc => ?_⟩,
    fun hK hfiled => ⟨fun op => ?_, fun ops k v hk hv => ?_⟩⟩
  · exact touches_wellFiled (rewrites_touches (run_rewrites_Chocolates stub op)) hfiled
  · exact runAll_status_stays ChocolatesOp.run ChocolatesOp.caller
      (fun s op => run_rewrites_Chocolates s op) ops stub hfiled k hk c hc
  · exact touches_wellFiled (run_touches_Vehicle K stub op) hfiled
  · exact runAll_status_stays (VehicleOp.run K) (fun op => op.call.caller)
      (fun s op => run_rewrites_Vehicle K hK s op) ops stub hfiled k hk v hv

/-- The witness of C4: on a ledger with a delivered record and a concept record, the
concept record is handed to a printer and the delivered record is addressed; both
records are still stored, neither with a lower status.  And a privately owned vehicle is
handed to a scrap merchant. -/
theorem status_never_decreases_witness :
    (∃ c1, stored Chocolates (runAll ChocolatesOp.run twoRecordsStub
        [ChocolatesOp.concepting_to_printing "CD7654321" "alice" DU_RHONE "bob" PRINTER,
         ChocolatesOp.printing_to_supplying "AB1234567" "dora" PRINTER "sue" SUPPLIER]).1
        "CD7654321" = some c1 ∧ (conceptRecord "CD7654321" "alice").Status ≤ c1.Status) ∧
    (∃ c1, stored Chocolates (runAll ChocolatesOp.run twoRecordsStub
        [ChocolatesOp.concepting_to_printing "CD7654321" "alice" DU_RHONE "bob" PRINTER,
         ChocolatesOp.printing_to_supplying "AB1234567" "dora" PRINTER "sue" SUPPLIER]).1
        "AB1234567" = some c1 ∧ (deliveredRecord "AB1234567" "dora").Status ≤ c1.Status) ∧
    (∃ v1, stored Vehicle (runAll (VehicleOp.run carLeaseConstants) privateStub
        [⟨"AB1234567", VehicleCall.private_to_scrap_merchant "pat" 3 "sam" 5⟩]).1
        "AB1234567" = some v1 ∧ privateVehicle.Status ≤ v1.Status) :=
  ⟨((status_never_decreases carLeaseConstants twoRecordsStub).1 wellFiled_twoRecordsStub).2
      _ "CD7654321" _ (by decide) stored_twoRecords_concept,
    ((status_never_decreases carLeaseConstants twoRecordsStub).1 wellFiled_twoRecordsStub).2
      _ "AB1234567" _ (by decide) stored_twoRecords_delivered,
    ((status_never_decreases carLeaseConstants privateStub).2 carLeaseConstants_ordered
      wellFiled_privateStub).2 _ "AB1234567" _ (by decide) stored_privateStub⟩

/-! ### The index along the operations -/

theorem wellFiled_put_undecoded {α : Type} [Asset α] (stub : ChaincodeStub) (key : String)
    (bytes : Bytes) (hfiled : WellFiled α stub)
    (hdec : (json_Unmarshal (some bytes) (Record.zero : α)).2 = true) :
    WellFiled α (stub.put key bytes) := by
  intro k x hx hid
  by_cases hk : k = key
  · rw [stored_put, if_pos hk, if_pos hdec] at hx
    exact Option.noConfusion hx
  · rw [stored_put, if_neg hk] at hx
    exact hfiled k x hx hid

/-- On the ledger `Init` leaves, every record that has an id is stored under it: the
index record decodes to a record without an id, and the peer address does not decode. -/
theorem wellFiled_initStub : WellFiled Chocolates initStub ∧ WellFiled Vehicle initStub := by
  have h : initStub = (emptyStub.put "chocoIDs" (json_Marshal (Record.zero : Choco_Holder))).put
      "Peer_Address" (.text "localhost:7050") := rfl
  rw [h]
  exact ⟨wellFiled_put_undecoded _ _ _
      (wellFiled_put emptyStub "chocoIDs" _ Chocolates.zero (wellFiled_emptyStub Chocolates)
        rfl (fun hid => absurd rfl hid)) rfl,
    wellFiled_put_undecoded _ _ _
      (wellFiled_put emptyStub "chocoIDs" _ Vehicle.zero (wellFiled_emptyStub Vehicle)
        rfl (fun hid => absurd rfl hid)) rfl⟩

theorem touches_key_kept {α : Type} [Asset α] {owner : α → String}
    {retired : α → Bool} {caller : String} {stub stub1 : ChaincodeStub}
    (hstep : Touches α owner retired caller stub stub1) (hfiled : WellFiled α stub)
    (name : String) (hname : name ≠ "")
    (hidx : ∀ r, stored α stub name = some r → Asset.key r = "") :
    stub1.state name = stub.state name := by
  rcases hstep with h | ⟨target, r, bytes, hr, _, _, hput, _⟩
  · rw [h]
  · have hk : name ≠ Asset.key r := by
      intro hk
      have hr0 : Asset.key r ≠ "" := by
        rw [← hk]
        exact hname
      have htarget : Asset.key r = target := hfiled target r hr hr0
      rw [← htarget, ← hk] at hr
      exact hr0 (hidx r hr)
    rw [hput]
    simp [ChaincodeStub.put, hk]

theorem index_record_has_no_id (stub : ChaincodeStub) (h : Choco_Holder)
    (hidx : stub.state "chocoIDs" = some (json_Marshal h)) :
    (∀ c, stored Chocolates stub "chocoIDs" = some c → c.ChocoID = "") ∧
    (∀ v, stored Vehicle stub "chocoIDs" = some v → v.V5cID = "") := by
  have hc : stored Chocolates stub "chocoIDs" = some Chocolates.zero := by
    unfold stored
    rw [hidx]
    rfl
  have hv : stored Vehicle stub "chocoIDs" = some Vehicle.zero := by
    unfold stored
    rw [hidx]
    rfl
  refine ⟨fun c h1 => ?_, fun v h1 => ?_⟩
  · rw [hc] at h1
    simp only [Option.some.injEq] at h1
    rw [← h1]
    rfl
  · rw [hv] at h1
    simp only [Option.some.injEq] at h1
    rw [← h1]
    rfl

/-- The operations that load a record leave the index alone: on a ledger where every
record that has an id is stored under it and the value under `chocoIDs` is a marshalled
`Choco_Holder`, that value is the same after every operation. -/
theorem index_kept_by_operations (K : VehicleConstants) (stub : ChaincodeStub)
    (h : Choco_Holder) (hidx : stub.state "chocoIDs" = some (json_Marshal h)) :
    (WellFiled Chocolates stub →
      ∀ op : ChocolatesOp, (op.run stub).1.state "chocoIDs" = stub.state "chocoIDs") ∧
    (WellFiled Vehicle stub →
      ∀ op : VehicleOp, (op.run K stub).1.state "chocoIDs" = stub.state "chocoIDs") :=
  ⟨fun hfiled op => touches_key_kept (rewrites_touches (run_rewrites_Chocolates stub op))
      hfiled "chocoIDs" (by decide) (index_record_has_no_id stub h hidx).1,
    fun hfiled op => touches_key_kept (run_touches_Vehicle K stub op) hfiled "chocoIDs"
      (by decide) (index_record_has_no_id stub h hidx).2⟩

/-- C23 (the code at the failing inputs): on a ledger that refuses the write of the
index record, `Init` returns `nil, nil` and the ledger has no index afterwards, empty or
other.  On the ledger `Init` leaves when its writes are accepted the index is empty, and
`create_chocolates` by a `DU_RHONE` caller with the well-formed, unused id `AB1234567`
returns `Invalid chocoID provided` and leaves the index empty: the id is not appended. -/
theorem index_not_maintained :
    (Init indexRefusedStub "init" ["localhost:7050"]).2.map Result.succeeded = some true ∧
    assetIndex (Init indexRefusedStub "init" ["localhost:7050"]).1 = none ∧
    assetIndex initStub = some [] ∧
    WellFormedId "AB1234567" = true ∧
    (stored Chocolates initStub "AB1234567").isNone = true ∧
    (create_chocolates initStub "alice" DU_RHONE "AB1234567").2.errorMsg =
      some "Invalid chocoID provided" ∧
    assetIndex (create_chocolates initStub "alice" DU_RHONE "AB1234567").1 = some [] := by
  rw [create_chocolates_eval]
  exact ⟨rfl, rfl, rfl, by decide, rfl, rfl, rfl⟩

end Chaincode
